import Mathlib

/-!
AirVoice: the SIP actor (`av_sip.c`), the audio actor and the main thread.

A shallow embedding of the call handling of the SIP actor, of the thread pipe
and the audio pump, and of the modem and call tracking of the main thread.  The global
`sstate` becomes an explicit `av_sip_state` value, every handler is a function
from the state before to the state after, and the calls that leave the actor
(freeing an event, spawning or joining the audio thread, writing a command)
are recorded in a list of `Effect`s.

* A C pointer is an `Option`; a handler that dereferences a null pointer
  has no result (`none`).
* Outcomes the actor does not control (allocation, thread creation, the
  answers of the SIP stack) are read from an `Env` record.
* `atoi` and `eXosip_get_audio_connection` are library functions; the
  definitions take them from a `Lib` record and the theorems hold for
  every such record.
-/

namespace AirVoice

/-! ## Library data: SDP, SIP messages, events -/

/-- The `c=` line of an SDP description (`sdp_connection_t`). -/
structure sdp_connection where
  c_nettype : Option String := none
  c_addrtype : Option String := none
  c_addr : Option String := none
  deriving DecidableEq, Repr

/-- An `a=` line (`sdp_attribute_t`). -/
structure sdp_attribute where
  a_att_field : Option String := none
  a_att_value : Option String := none
  deriving DecidableEq, Repr

/-- An `m=` line with what belongs to it (`sdp_media_t`). -/
structure sdp_media where
  m_media : Option String := none
  m_port : Option String := none
  m_number_of_port : Option String := none
  m_proto : Option String := none
  m_payloads : List String := []
  c_connections : List sdp_connection := []
  a_attributes : List sdp_attribute := []
  deriving DecidableEq, Repr

/-- An SDP description (`sdp_message_t`), with the fields this program reads or writes. -/
structure sdp_message where
  v_version : Option String := none
  o_username : Option String := none
  o_sess_id : Option String := none
  o_sess_version : Option String := none
  o_nettype : Option String := none
  o_addrtype : Option String := none
  o_addr : Option String := none
  s_name : Option String := none
  c_connection : Option sdp_connection := none
  m_medias : List sdp_media := []
  deriving DecidableEq, Repr

/-- A SIP URI (`osip_uri_t`): only the user part is read. -/
structure osip_uri where
  username : Option String := none
  deriving DecidableEq, Repr

/-- The `From` header (`osip_from_t`). -/
structure osip_from where
  url : Option osip_uri := none
  deriving DecidableEq, Repr

/-- A SIP request (`osip_message_t`): the `From` header and the request URI. -/
structure osip_message where
  from_hdr : Option osip_from := none
  req_uri : Option osip_uri := none
  deriving DecidableEq, Repr

/-- The values of `eXosip_event_type_t` that `av_sip_protocol_events` tells apart. -/
inductive eXosip_event_type where
  | EXOSIP_REGISTRATION_SUCCESS
  | EXOSIP_REGISTRATION_FAILURE
  | EXOSIP_CALL_INVITE
  | EXOSIP_CALL_ACK
  | EXOSIP_CALL_CANCELLED
  | EXOSIP_CALL_CLOSED
  | EXOSIP_CALL_RELEASED
  | other (code : Int)
  deriving DecidableEq, Repr

/-- An event handed out by `eXosip_event_wait` (`eXosip_event_t`).  `ptr` is the
address of the record, the identity under which it is freed; `remote_sdp` is what
`eXosip_get_remote_sdp` returns for the dialog `did` of the event. -/
structure eXosip_event where
  ptr : Nat
  type : eXosip_event_type
  tid : Int := 0
  did : Int := 0
  cid : Int := 0
  request : osip_message := {}
  remote_sdp : Option sdp_message := none
  deriving DecidableEq, Repr

/-- The library functions the call setup relies on. -/
structure Lib where
  atoi : String → Int
  eXosip_get_audio_connection : sdp_message → Option sdp_connection

/-- Null-safe string comparison of GLib: two null pointers are equal, a null pointer
sorts before every string, and two strings compare character by character. -/
def g_strcmp0 : Option String → Option String → Int
  | none, none => 0
  | none, some _ => -1
  | some _, none => 1
  | some a, some b => if a = b then 0 else if a.toList < b.toList then -1 else 1

/-- Accessor `sdp_message_m_media_get`. -/
def sdp_message_m_media_get (sdp : sdp_message) (pos_media : Nat) : Option String :=
  (sdp.m_medias.get? pos_media).bind (fun m => m.m_media)

/-- Accessor `sdp_message_m_port_get`. -/
def sdp_message_m_port_get (sdp : sdp_message) (pos_media : Nat) : Option String :=
  (sdp.m_medias.get? pos_media).bind (fun m => m.m_port)

/-- Accessor `sdp_message_m_payload_get`. -/
def sdp_message_m_payload_get (sdp : sdp_message) (pos_media pos : Nat) : Option String :=
  (sdp.m_medias.get? pos_media).bind (fun m => m.m_payloads.get? pos)

/-- Accessor `sdp_message_attribute_get` for the attributes of a media. -/
def sdp_message_attribute_get (sdp : sdp_message) (pos_media pos : Nat) : Option sdp_attribute :=
  (sdp.m_medias.get? pos_media).bind (fun m => m.a_attributes.get? pos)

/-- Accessor `sdp_message_endof_media`: true past the last media. -/
def sdp_message_endof_media (sdp : sdp_message) (i : Nat) : Bool :=
  (sdp.m_medias.get? i).isNone

/-! ## Actor data: configuration, connection, threads, commands -/

/-- Values of `enum CALL_DIRECTION`. -/
def SIP_CALL_OUTGOING : Int := 0

/-- Values of `enum CALL_DIRECTION`. -/
def SIP_CALL_INCOMING : Int := 1

/-- Tags of `enum SIP_CMDs`. -/
def SIP_CMD_EXIT : Int := 0

/-- Tags of `enum SIP_CMDs`. -/
def SIP_CMD_REGISTER : Int := 1

/-- Tags of `enum SIP_CMDs`. -/
def SIP_CMD_CALL_IN_PROGRESS : Int := 2

/-- Tags of `enum CORE_MSG`. -/
def SIP_EVENT_READY : Int := 10

/-- Tags of `enum CORE_MSG`. -/
def SIP_EVENT_INCOMING_CALL : Int := 11

/-- Tags of `enum AUDIO_EVENTS`. -/
def AUDIO_EVENT_READY : Int := 0

/-- Tags of `enum AUDIO_EVENTS`. -/
def AUDIO_EVENT_RTP_OK : Int := 1

/-- Tags of `enum AUDIO_CMDs`. -/
def CMD_AUDIO_INIT : Int := 0

/-- Tags of `enum AUDIO_CMDs`. -/
def CMD_AUDIO_EXIT : Int := 1

/-- The record `struct av_modem_config`. -/
structure av_modem_config where
  username : Option String := none
  password : Option String := none
  sip_host : Option String := none
  sip_id : Option String := none
  modem_audio_port : Option String := none
  sip_local_ip_addr : Option String := none
  deriving DecidableEq, Repr

/-- The record `struct av_rtp_connection`. -/
structure av_rtp_connection where
  addr : Option String
  port : Int
  call_direction : Int
  serial_device : Option String
  deriving DecidableEq, Repr

/-- The record `struct av_thread`: the socket pair and the thread. -/
structure av_thread where
  sockets0 : Int
  sockets1 : Int
  thread : Nat
  deriving DecidableEq, Repr

/-- What the untyped `payload` pointer of a command points to. -/
inductive Payload where
  | null
  | config (c : av_modem_config)
  | str (s : String)
  | int (n : Int)
  | connection (c : av_rtp_connection)
  deriving DecidableEq, Repr

/-- The record `struct av_thread_cmd`. -/
structure av_thread_cmd where
  msgtype : Int
  payload : Payload
  deriving DecidableEq, Repr

/-- The record `struct av_sip_state` (the global `sstate`), without the stack
context and the descriptors of the first three poll slots. -/
structure av_sip_state where
  self : av_thread
  reg_id : Int := 0
  sipconf : Option av_modem_config := none
  current_call_event : Option eXosip_event := none
  audiothread : Option av_thread := none
  current_call_connection : Option av_rtp_connection := none
  current_call_path : Option String := none
  local_rtp_port : Int := 0
  poll_fd3 : Int := 0
  deriving DecidableEq, Repr

/-- Outcomes decided outside the actor during one handler run; `txcmd` is what
`av_thread_txcmd` returns. -/
structure Env where
  thread_setup : Option av_thread := none
  cmd_alloc : Bool := true
  connection_alloc : Bool := true
  add_authentication_info : Int := 0
  register_build_initial_register : Int := 1
  register_send_register : Int := 0
  call_build_answer : Int := 0
  sdp_message_init : Int := 0
  random1 : Int := 0
  random2 : Int := 0
  sdp_message_m_media_add : Int := 0
  sdp_message_c_connection_add : Int := 0
  sdp_message_a_attribute_add : Int := 0
  sdp_message_to_str : Int := 0
  message_set_content_type : Int := 0
  message_set_body : Int := 0
  call_send_answer : Int := 0
  txcmd : Int := 0
  deriving DecidableEq, Repr

/-- Calls that leave the actor, in the order they are made. -/
inductive Effect where
  | eXosip_event_free (e : eXosip_event)
  | av_thread_setup (result : Option av_thread)
  | av_thread_txcmd (t : av_thread) (c : av_thread_cmd) (mysocket : Int)
  | av_thread_teardown (t : av_thread)
  | register_send_register (reg_id : Int) (mc : av_modem_config)
  | call_send_answer (tid : Int) (status : Int) (sdp : sdp_message)
  | av_config_free (mc : av_modem_config)
  deriving DecidableEq, Repr

/-! ## Stage 0: an INVITE arrives -/

/-- Source `av_sip_rtp_connection_alloc`: `g_try_malloc0` gives a zeroed record or null. -/
def av_sip_rtp_connection_alloc (env : Env) (addr : Option String) (rtp_port : Int)
    (serial_device : Option String) : Option av_rtp_connection :=
  if env.connection_alloc then
    some { addr := addr, port := rtp_port, call_direction := 0, serial_device := serial_device }
  else none

/-- Source `av_sip_protocol_call_stage0_check_username`.  No result when the comparison
reads the user name of a configuration that is not there. -/
def av_sip_protocol_call_stage0_check_username (s : av_sip_state) (e : eXosip_event) :
    Option Int :=
  match e.request.from_hdr with
  | none => some 1
  | some from_hdr =>
    match from_hdr.url with
    | none => some 1
    | some uri =>
      match uri.username with
      | none => some 1
      | some username =>
        match s.sipconf with
        | none => none
        | some sipconf =>
          if g_strcmp0 sipconf.username (some username) ≠ 0 then some 1 else some 0

/-- Source `av_sip_protocol_call_stage0_connection_check_supported`. -/
def av_sip_protocol_call_stage0_connection_check_supported (L : Lib) (c : sdp_connection)
    (rtp_port : String) : Int :=
  if g_strcmp0 c.c_nettype (some "IN") ≠ 0 ∨ g_strcmp0 c.c_addrtype (some "IP4") ≠ 0 then 0
  else
    let atoi_res := L.atoi rtp_port
    if atoi_res ≥ 0 ∧ Int.tmod atoi_res 2 = 0 ∧ atoi_res ≤ 65534 then atoi_res else 0

/-- Source `av_sip_protocol_call_stage0_connection_setup`: the result and the value of `*c`. -/
def av_sip_protocol_call_stage0_connection_setup (L : Lib) (env : Env) (s : av_sip_state)
    (sdp_data : sdp_message) (pos_media : Nat) (c : Option av_rtp_connection) :
    Option (Int × Option av_rtp_connection) :=
  match L.eXosip_get_audio_connection sdp_data with
  | none => some (1, c)
  | some rtp_connection =>
    match sdp_message_m_port_get sdp_data pos_media with
    | none => some (1, c)
    | some rtp_port =>
      let int_rtp_port :=
        av_sip_protocol_call_stage0_connection_check_supported L rtp_connection rtp_port
      if int_rtp_port = 0 then some (1, c)
      else
        match s.sipconf with
        | none => none
        | some sipconf =>
          some (0, av_sip_rtp_connection_alloc env rtp_connection.c_addr int_rtp_port
                      sipconf.modem_audio_port)

/-- The loop of `av_sip_protocol_call_stage0_check_audio_media_payload_ok` from attribute
`i` on: `retval` starts at 1 and the first matching `rtpmap` ends the loop. -/
def av_sip_protocol_call_stage0_check_audio_media_payload_ok_loop (L : Lib) (env : Env)
    (s : av_sip_state) (sdp_data : sdp_message) (pos_media : Nat) (expected_value : String) :
    List sdp_attribute → Option av_rtp_connection → Option (Int × Option av_rtp_connection)
  | [], c => some (1, c)
  | a :: rest, c =>
    if g_strcmp0 a.a_att_field (some "rtpmap") = 0
        ∧ g_strcmp0 a.a_att_value (some expected_value) = 0 then
      match av_sip_protocol_call_stage0_connection_setup L env s sdp_data pos_media c with
      | none => none
      | some (r, c1) => if r = 0 then some (0, c1) else some (1, c1)
    else
      av_sip_protocol_call_stage0_check_audio_media_payload_ok_loop L env s sdp_data pos_media
        expected_value rest c

/-- Source `av_sip_protocol_call_stage0_check_audio_media_payload_ok`. -/
def av_sip_protocol_call_stage0_check_audio_media_payload_ok (L : Lib) (env : Env)
    (s : av_sip_state) (sdp_data : sdp_message) (pos_media : Nat) (payload : String)
    (format_desc : String) (c : Option av_rtp_connection) :
    Option (Int × Option av_rtp_connection) :=
  let expected_value := payload ++ " " ++ format_desc
  av_sip_protocol_call_stage0_check_audio_media_payload_ok_loop L env s sdp_data pos_media
    expected_value ((sdp_data.m_medias.get? pos_media).elim [] (fun m => m.a_attributes)) c

/-- The loop of `av_sip_protocol_call_stage0_check_audio_media_payload` from payload `i` on. -/
def av_sip_protocol_call_stage0_check_audio_media_payload_loop (L : Lib) (env : Env)
    (s : av_sip_state) (sdp_data : sdp_message) (pos_media : Nat) :
    List String → Option av_rtp_connection → Option (Int × Option av_rtp_connection)
  | [], c => some (1, c)
  | payload :: rest, c =>
    match av_sip_protocol_call_stage0_check_audio_media_payload_ok L env s sdp_data pos_media
        payload "PCMU/8000" c with
    | none => none
    | some (r, c1) =>
      if r = 0 then some (0, c1)
      else av_sip_protocol_call_stage0_check_audio_media_payload_loop L env s sdp_data
        pos_media rest c1

/-- Source `av_sip_protocol_call_stage0_check_audio_media_payload`. -/
def av_sip_protocol_call_stage0_check_audio_media_payload (L : Lib) (env : Env)
    (s : av_sip_state) (sdp_data : sdp_message) (pos_media : Nat)
    (c : Option av_rtp_connection) : Option (Int × Option av_rtp_connection) :=
  av_sip_protocol_call_stage0_check_audio_media_payload_loop L env s sdp_data pos_media
    ((sdp_data.m_medias.get? pos_media).elim [] (fun m => m.m_payloads)) c

/-- The `for` loop of `av_sip_protocol_call_stage0_handle_remote_sdp` from media `i` on;
the result is `audio_payload_ok` and the value of `*c`. -/
def av_sip_protocol_call_stage0_handle_remote_sdp_loop (L : Lib) (env : Env)
    (s : av_sip_state) (sdp_data : sdp_message) :
    Nat → List sdp_media → Option av_rtp_connection → Option (Int × Option av_rtp_connection)
  | _, [], c => some (0, c)
  | i, m :: rest, c =>
    if g_strcmp0 m.m_media (some "audio") = 0 then
      match av_sip_protocol_call_stage0_check_audio_media_payload L env s sdp_data i c with
      | none => none
      | some (r, c1) =>
        if r = 0 then some (1, c1)
        else av_sip_protocol_call_stage0_handle_remote_sdp_loop L env s sdp_data (i + 1) rest c1
    else av_sip_protocol_call_stage0_handle_remote_sdp_loop L env s sdp_data (i + 1) rest c

/-- Source `av_sip_protocol_call_stage0_handle_remote_sdp`. -/
def av_sip_protocol_call_stage0_handle_remote_sdp (L : Lib) (env : Env) (s : av_sip_state)
    (e : eXosip_event) (c : Option av_rtp_connection) :
    Option (Int × Option av_rtp_connection) :=
  match e.remote_sdp with
  | none => some (1, c)
  | some sdp_data =>
    match av_sip_protocol_call_stage0_handle_remote_sdp_loop L env s sdp_data 0
        sdp_data.m_medias c with
    | none => none
    | some (audio_payload_ok, c1) => some (if audio_payload_ok ≠ 0 then 0 else 1, c1)

/-- Source `av_thread_cmd`: a command record, or null when it cannot be allocated. -/
def av_thread_cmd_new (env : Env) (msg : Int) (payload : Payload) : Option av_thread_cmd :=
  if env.cmd_alloc then some { msgtype := msg, payload := payload } else none

/-- Source `av_sip_protocol_call_end_free_state`, on the three fields of the state. -/
def av_sip_protocol_call_end_free_state (s : av_sip_state) : av_sip_state × List Effect :=
  ({ s with current_call_event := none, current_call_connection := none,
            current_call_path := none },
   match s.current_call_event with
   | none => []
   | some e => [Effect.eXosip_event_free e])

/-- Source `av_sip_protocol_call_end`.  No result when the exit command is written to an
audio thread that is not there. -/
def av_sip_protocol_call_end (env : Env) (s : av_sip_state) (e : Option eXosip_event) :
    Option (av_sip_state × List Effect) :=
  match s.current_call_event with
  | none => some (s, [])
  | some current_call_event =>
    if (match e with
        | none => false
        | some ev => decide (ev.cid ≠ current_call_event.cid)) then some (s, [])
    else
      match av_thread_cmd_new env CMD_AUDIO_EXIT Payload.null with
      | some exit_cmd =>
        match s.audiothread with
        | none => none
        | some t =>
          let s1 := { s with poll_fd3 := -1, audiothread := none }
          let r := av_sip_protocol_call_end_free_state s1
          some (r.1, [Effect.av_thread_txcmd t exit_cmd 0, Effect.av_thread_teardown t] ++ r.2)
      | none => some (av_sip_protocol_call_end_free_state s)

/-- Source `av_sip_start_audio_thread`. -/
def av_sip_start_audio_thread (env : Env) (s : av_sip_state) :
    Int × av_sip_state × List Effect :=
  match env.thread_setup with
  | none => (1, { s with audiothread := none }, [Effect.av_thread_setup none])
  | some t =>
    (0, { s with audiothread := some t, poll_fd3 := t.sockets0 },
     [Effect.av_thread_setup (some t)])

/-- Source `av_sip_protocol_call_stage0`: non-zero when the event is kept. -/
def av_sip_protocol_call_stage0 (L : Lib) (env : Env) (s : av_sip_state) (e : eXosip_event) :
    Option (Int × av_sip_state × List Effect) :=
  if s.current_call_event.isSome then some (0, s, [])
  else
    match av_sip_protocol_call_stage0_check_username s e with
    | none => none
    | some r =>
      if r ≠ 0 then some (0, s, [])
      else
        match av_sip_protocol_call_stage0_handle_remote_sdp L env s e none with
        | none => none
        | some (r1, connection) =>
          if r1 ≠ 0 then some (0, s, [])
          else
            match connection with
            | none => none
            | some conn =>
              let connection1 := { conn with call_direction := SIP_CALL_INCOMING }
              let s1 := { s with current_call_event := some e,
                                 current_call_connection := some connection1 }
              match av_sip_start_audio_thread env s1 with
              | (r2, s2, tr) =>
                if r2 ≠ 0 then
                  match av_sip_protocol_call_end env s2 none with
                  | none => none
                  | some (s3, tr1) => some (0, s3, tr ++ tr1)
                else some (1, s2, tr)

/-! ## The drain loop of the SIP event handler -/

/-- The `while` loop of `av_sip_protocol_events` on the events that `eXosip_event_wait`
still hands out; `keep_event` is declared before the loop and carried through it. -/
def av_sip_protocol_events_loop (L : Lib) :
    Int → av_sip_state → List (Env × eXosip_event) → Option (av_sip_state × List Effect)
  | _, s, [] => some (s, [])
  | keep_event, s, (env, event) :: rest =>
    match (match event.type with
      | eXosip_event_type.EXOSIP_CALL_CLOSED
      | eXosip_event_type.EXOSIP_CALL_CANCELLED
      | eXosip_event_type.EXOSIP_CALL_RELEASED =>
        match av_sip_protocol_call_end env s (some event) with
        | none => none
        | some (s1, tr) => some (keep_event, s1, tr)
      | eXosip_event_type.EXOSIP_CALL_INVITE => av_sip_protocol_call_stage0 L env s event
      | _ => some (keep_event, s, [])) with
    | none => none
    | some (keep_event1, s1, tr) =>
      let tr1 := if keep_event1 = 0 then tr ++ [Effect.eXosip_event_free event] else tr
      match av_sip_protocol_events_loop L keep_event1 s1 rest with
      | none => none
      | some (s2, tr2) => some (s2, tr1 ++ tr2)

/-- Source `av_sip_protocol_events`. -/
def av_sip_protocol_events (L : Lib) (s : av_sip_state) (events : List (Env × eXosip_event)) :
    Option (Int × av_sip_state × List Effect) :=
  match av_sip_protocol_events_loop L 0 s events with
  | none => none
  | some (s1, tr) => some (0, s1, tr)

/-! ## Registration -/

/-- Source `av_sip_stackconfig`. -/
def av_sip_stackconfig (env : Env) (s : av_sip_state) (mc : av_modem_config) :
    Int × av_sip_state × List Effect :=
  if env.add_authentication_info ≠ 0 then (1, s, [])
  else
    let s1 := { s with reg_id := env.register_build_initial_register }
    if s1.reg_id < 1 then (1, s1, [])
    else
      let send_reg_retval := env.register_send_register
      if send_reg_retval ≠ 0 then (1, s1, [Effect.register_send_register s1.reg_id mc])
      else (0, { s1 with sipconf := some mc }, [Effect.register_send_register s1.reg_id mc])

/-- Source `av_sip_regconf`.  No result when the payload is not a configuration record. -/
def av_sip_regconf (env : Env) (s : av_sip_state) (cmd : av_thread_cmd) :
    Option (Int × av_sip_state × List Effect) :=
  match cmd.payload with
  | Payload.config sipconf =>
    if sipconf.username.isSome ∧ sipconf.password.isSome ∧ sipconf.sip_host.isSome
        ∧ sipconf.sip_id.isSome ∧ sipconf.modem_audio_port.isSome
        ∧ sipconf.sip_local_ip_addr.isSome then
      match av_sip_stackconfig env s sipconf with
      | (retval, s1, tr) =>
        if retval ≠ 0 then some (retval, s1, tr ++ [Effect.av_config_free sipconf])
        else some (retval, s1, tr)
    else some (1, s, [Effect.av_config_free sipconf])
  | _ => none

/-! ## Stage 1: the 183 answer -/

/-- Applies `f` to the media at position `pos_media`, when there is one. -/
def sdp_media_update (f : sdp_media → sdp_media) : Nat → List sdp_media → List sdp_media
  | _, [] => []
  | 0, m :: rest => f m :: rest
  | pos_media + 1, m :: rest => m :: sdp_media_update f pos_media rest

/-- Source `av_sip_protocol_call_build_sdp`: the result and the value of
`*answer_sdp_message`.  No result when the local address is read from a configuration
that is not there. -/
def av_sip_protocol_call_build_sdp (env : Env) (s : av_sip_state) (local_port : Int)
    (answer_sdp_message : Option sdp_message) : Option (Int × Option sdp_message) :=
  match s.sipconf with
  | none => none
  | some sipconf =>
    let sdp_addr := sipconf.sip_local_ip_addr
    if env.sdp_message_init ≠ 0 then some (1, answer_sdp_message)
    else
      let sdpm0 : sdp_message := {}
      let sdpm1 := { sdpm0 with v_version := some "0" }
      let session_id := toString env.random1
      let session_version := toString env.random2
      let port_str := toString local_port
      let sdpm2 := { sdpm1 with
        o_username := some "airvoice", o_sess_id := some session_id,
        o_sess_version := some session_version, o_nettype := some "IN",
        o_addrtype := some "IP4", o_addr := sdp_addr }
      let sdpm3 := { sdpm2 with s_name := some "DongleCall" }
      if env.sdp_message_m_media_add ≠ 0 then some (1, none)
      else
        let media0 : sdp_media :=
          { m_media := some "audio", m_port := some port_str, m_number_of_port := none,
            m_proto := some "RTP/AVP" }
        let sdpm4 := { sdpm3 with m_medias := sdpm3.m_medias ++ [media0] }
        if env.sdp_message_c_connection_add ≠ 0 then some (1, none)
        else
          let global_c : sdp_connection :=
            { c_nettype := some "IN", c_addrtype := some "IP4", c_addr := sdp_addr }
          let sdpm5 := { sdpm4 with c_connection := some global_c }
          let medias6 :=
            sdp_media_update (fun m => { m with m_payloads := m.m_payloads ++ ["0"] }) 0
              sdpm5.m_medias
          let sdpm6 := { sdpm5 with m_medias := medias6 }
          if env.sdp_message_a_attribute_add ≠ 0 then some (1, none)
          else
            let rtpmap0 : sdp_attribute :=
              { a_att_field := some "rtpmap", a_att_value := some "0 PCMU/8000" }
            let medias7 :=
              sdp_media_update (fun m => { m with a_attributes := m.a_attributes ++ [rtpmap0] })
                0 sdpm6.m_medias
            let sdpm7 := { sdpm6 with m_medias := medias7 }
            some (0, some sdpm7)

/-- Source `av_sip_protocol_call_stage1`.  No result when the transaction id is read from
a held event that is not there. -/
def av_sip_protocol_call_stage1 (env : Env) (s : av_sip_state) (rtp_local_port : Int) :
    Option (Int × List Effect) :=
  match s.current_call_event with
  | none => none
  | some current_call_event =>
    if env.call_build_answer ≠ 0 then some (1, [])
    else
      match av_sip_protocol_call_build_sdp env s rtp_local_port none with
      | none => none
      | some (r, sdpm) =>
        if r ≠ 0 then some (1, [])
        else
          match sdpm with
          | none => some (1, [])
          | some sdp =>
            if env.sdp_message_to_str ≠ 0 then some (1, [])
            else if env.message_set_content_type ≠ 0 then some (1, [])
            else if env.message_set_body ≠ 0 then some (1, [])
            else if env.call_send_answer ≠ 0 then
              some (1, [Effect.call_send_answer current_call_event.tid 183 sdp])
            else some (0, [Effect.call_send_answer current_call_event.tid 183 sdp])

/-! ## Commands from the main thread and events from the audio thread -/

/-- The payload pointer read as a string pointer; no result for a payload of another kind. -/
def Payload.as_string : Payload → Option (Option String)
  | Payload.null => some none
  | Payload.str p => some (some p)
  | _ => none

/-- Source `av_sip_core_msg`; `cmd` is what `av_thread_rxcmd` returned. -/
def av_sip_core_msg (env : Env) (s : av_sip_state) (cmd : Option av_thread_cmd) :
    Option (Int × av_sip_state × List Effect) :=
  match cmd with
  | none => some (0, s, [])
  | some cmd =>
    if cmd.msgtype = SIP_CMD_EXIT then some (1, s, [])
    else if cmd.msgtype = SIP_CMD_REGISTER then av_sip_regconf env s cmd
    else if cmd.msgtype = SIP_CMD_CALL_IN_PROGRESS then
      match cmd.payload.as_string with
      | none => none
      | some path =>
        let s1 := { s with current_call_path := path }
        match av_sip_protocol_call_stage1 env s1 s1.local_rtp_port with
        | none => none
        | some (retval, tr) => some (retval, s1, tr)
    else some (1, s, [])

/-- Source `av_sip_protocol_call_stage0_extract_dest_number`. -/
def av_sip_protocol_call_stage0_extract_dest_number (req : osip_message) : Option String :=
  match req.req_uri with
  | none => none
  | some uri => uri.username

/-- Source `av_sip_audio_msg`; `cmd` is what `av_thread_rxcmd` returned.  No result when
the audio thread, the port payload or the held event is read through a null pointer. -/
def av_sip_audio_msg (env : Env) (s : av_sip_state) (cmd : Option av_thread_cmd) :
    Option (Int × av_sip_state × List Effect) :=
  match s.audiothread with
  | none => none
  | some audiothread =>
    match cmd with
    | none => some (0, s, [])
    | some cmd =>
      if cmd.msgtype = AUDIO_EVENT_READY then
        match av_thread_cmd_new env CMD_AUDIO_INIT
            (match s.current_call_connection with
             | none => Payload.null
             | some c => Payload.connection c) with
        | some call_cmd => some (0, s, [Effect.av_thread_txcmd audiothread call_cmd 0])
        | none => some (0, s, [])
      else if cmd.msgtype = AUDIO_EVENT_RTP_OK then
        match cmd.payload with
        | Payload.int rtp_local_port =>
          let s1 := { s with local_rtp_port := rtp_local_port }
          match s1.current_call_event with
          | none => none
          | some current_call_event =>
            match av_sip_protocol_call_stage0_extract_dest_number
                current_call_event.request with
            | none => some (0, s1, [])
            | some dest_number =>
              match av_thread_cmd_new env SIP_EVENT_INCOMING_CALL Payload.null with
              | some call_cmd =>
                some (0, s1, [Effect.av_thread_txcmd s1.self
                  { call_cmd with payload := Payload.str dest_number } 1])
              | none => some (0, s1, [])
        | _ => none
      else some (1, s, [])

/-- Source `av_sip_protocol_automatic_action`: nothing of the call state changes. -/
def av_sip_protocol_automatic_action (s : av_sip_state) : Int × av_sip_state × List Effect :=
  (0, s, [])

/-- What one `poll` of `av_sip_loop` reports, with what the chosen handler then reads. -/
inductive PollResult where
  | failure
  | core_msg (env : Env) (cmd : Option av_thread_cmd)
  | sip_events (events : List (Env × eXosip_event))
  | timer
  | audio_msg (env : Env) (cmd : Option av_thread_cmd)
  | nothing

/-- Source `av_sip_loop`. -/
def av_sip_loop (L : Lib) (s : av_sip_state) : PollResult →
    Option (Int × av_sip_state × List Effect)
  | PollResult.failure => some (-1, s, [])
  | PollResult.core_msg env cmd => av_sip_core_msg env s cmd
  | PollResult.sip_events events => av_sip_protocol_events L s events
  | PollResult.timer => some (av_sip_protocol_automatic_action s)
  | PollResult.audio_msg env cmd => av_sip_audio_msg env s cmd
  | PollResult.nothing => some (0, s, [])

/-- The state `av_sip_init` starts from: zeroed by `g_try_malloc0`, then `self` is set. -/
def av_sip_state_init (t : av_thread) : av_sip_state := { self := t }

/-- The body of `av_sip_init` after setup: `av_sip_loop` runs while it returns zero, then
`av_sip_protocol_call_end(NULL)` runs with the outcomes `last`.  The polls left over when
the loop ends are never made; when they run out first the actor is still in its loop and
the result says so with `false`. -/
def av_sip_run (L : Lib) (last : Env) :
    av_sip_state → List PollResult → Option (Bool × av_sip_state × List Effect)
  | s, [] => some (false, s, [])
  | s, p :: rest =>
    match av_sip_loop L s p with
    | none => none
    | some (r, s1, tr) =>
      if r ≠ 0 then
        match av_sip_protocol_call_end last s1 none with
        | none => none
        | some (s2, tr1) => some (true, s2, tr ++ tr1)
      else
        match av_sip_run L last s1 rest with
        | none => none
        | some (b, s2, tr1) => some (b, s2, tr ++ tr1)

/-! ## A reference library, for evaluating the handlers on concrete input -/

/-- The C `isspace` in the "C" locale. -/
def c_isspace (c : Char) : Bool :=
  c = ' ' ∨ c = '\t' ∨ c = '\n' ∨ c = '\r' ∨ c.toNat = 11 ∨ c.toNat = 12

/-- Decimal digits are read up to the first other character. -/
def atoi_digits : Int → List Char → Int
  | acc, [] => acc
  | acc, c :: cs =>
    if 48 ≤ c.toNat ∧ c.toNat ≤ 57 then atoi_digits (acc * 10 + ((c.toNat : Int) - 48)) cs
    else acc

/-- A value outside `long` is clamped by `strtol`; the conversion to `int` keeps 32 bits. -/
def atoi_to_int (v : Int) : Int :=
  let l := max (-(2 : Int) ^ 63) (min v ((2 : Int) ^ 63 - 1))
  (l + 2 ^ 31) % 2 ^ 32 - 2 ^ 31

/-- The C `atoi` as the GNU C library computes it: white space, a sign, decimal digits. -/
def libc_atoi (s : String) : Int :=
  match s.toList.dropWhile c_isspace with
  | '-' :: cs => atoi_to_int (-(atoi_digits 0 cs))
  | '+' :: cs => atoi_to_int (atoi_digits 0 cs)
  | cs => atoi_to_int (atoi_digits 0 cs)

/-- The connection `eXosip_get_audio_connection` picks: the first `c=` line of the first
audio media, or the session-level one when that media has none. -/
def ref_get_audio_connection (sdp : sdp_message) : Option sdp_connection :=
  match sdp.m_medias.find? (fun m => decide (m.m_media = some "audio")) with
  | none => none
  | some med =>
    match med.c_connections with
    | [] => sdp.c_connection
    | c :: _ => some c

/-- The reference library. -/
def refLib : Lib :=
  { atoi := libc_atoi, eXosip_get_audio_connection := ref_get_audio_connection }

/-! ## The thread pipe (`av_threadcomm.c`) -/

/-- What one `write` or `read` on a socket reports: up to `n` bytes moved, nothing for now
(`EAGAIN`), or another error. -/
inductive IoResult where
  | ok (n : Nat)
  | eagain
  | fail
  deriving DecidableEq, Repr

/-- The two directions of the socket pair of a thread: the bytes waiting to be read at
`sockets[0]` and at `sockets[1]`, oldest first. -/
structure socketpair where
  at0 : List Nat := []
  at1 : List Nat := []
  deriving DecidableEq, Repr

/-- The size of `struct av_thread_cmd` where `int` has 4 and a pointer 8 bytes. -/
def sizeof_av_thread_cmd : Nat := 16

/-- The `while` loop of `av_thread_txcmd` on the outcomes of its `write` calls; `q` holds
the bytes the peer can read.  The result is `retval`; there is none when the listed
outcomes end before the loop does. -/
def av_thread_txcmd_loop (c : List Nat) :
    List IoResult → Nat → Nat → List Nat → Option (Int × List Nat)
  | [], remaining_data, _, q => if remaining_data = 0 then some (0, q) else none
  | w :: rest, remaining_data, bufptr, q =>
    if remaining_data = 0 then some (0, q)
    else
      match w with
      | IoResult.eagain => av_thread_txcmd_loop c rest remaining_data bufptr q
      | IoResult.fail => some (1, q)
      | IoResult.ok n =>
        let written_data := min n remaining_data
        av_thread_txcmd_loop c rest (remaining_data - written_data) (bufptr + written_data)
          (q ++ (c.drop bufptr).take written_data)

/-- Source `av_thread_txcmd`: the bytes `c` of the record are written at `sockets[mysocket]`
and become readable at the other socket. -/
def av_thread_txcmd (sp : socketpair) (c : List Nat) (mysocket : Fin 2)
    (writes : List IoResult) : Option (Int × socketpair) :=
  match av_thread_txcmd_loop c writes sizeof_av_thread_cmd 0
      (if mysocket = 0 then sp.at1 else sp.at0) with
  | none => none
  | some (retval, q) =>
    some (retval, if mysocket = 0 then { sp with at1 := q } else { sp with at0 := q })

/-- The record `struct av_audio_state` (the global `astate`). -/
structure av_audio_state where
  self : av_thread
  poll_fd0 : Int := -1
  poll_fd1 : Int := -1
  session : Option Nat := none
  user_ts : Nat := 0
  deriving DecidableEq, Repr

/-- Outcomes decided outside the audio actor during one handler run; `txcmd` is what
`av_thread_txcmd` returns. -/
structure AudioEnv where
  cmd_alloc : Bool := true
  port_alloc : Bool := true
  txcmd : Int := 0
  rtp_session_new : Option Nat := some 1
  rtp_session_get_local_port : Int := 0
  open_fd : Int := 3
  isatty : Int := 1
  fcntl_getfd : Int := 0
  fcntl_setfd : Int := 0
  tcgetattr : Int := 0
  tcsetattr : Int := 0
  close : Int := 0
  deriving DecidableEq, Repr

/-- Calls that leave the audio actor, in the order they are made. -/
inductive AudioEffect where
  | av_thread_txcmd (t : av_thread) (c : av_thread_cmd) (mysocket : Int)
  | rtp_session_send_with_ts (session : Option Nat) (buffer : List Nat) (len : Int)
      (userts : Nat)
  | close (fd : Int)
  deriving DecidableEq, Repr

/-- What one `read` on the serial descriptor reports: the bytes stored at `bufptr`, nothing
for now (`EAGAIN`), or another error. -/
inductive SerialRead where
  | data (bytes : List Nat)
  | eagain
  | fail
  deriving DecidableEq, Repr

/-- Half of `TTY_CHUNK_SIZE`: the size of `audiobuf`. -/
def TTY_CHUNK_HALF : Nat := 160

/-- The local variables of `av_audio_do_serial_read`: `audiobuf` is given by the bytes
stored from its start, `bufptr` by its offset in `audiobuf`, and `nbytes` is the result of
the latest `read`. -/
structure serial_read_vars where
  missing : Nat := 160
  audiobuf : List Nat := []
  bufptr : Nat := 0
  retries : Int := 0
  nbytes : Int := 0
  deriving DecidableEq, Repr

/-- The `while` loop of `av_audio_do_serial_read` on the outcomes of its `read` calls, with
`size_t` arithmetic for `missing`.  A `read` after the listed outcomes finds nothing
(`EAGAIN`).  `fuel` bounds the passes and is never what ends the loop when it starts at 10. -/
def av_audio_do_serial_read_loop : Nat → List SerialRead → serial_read_vars → serial_read_vars
  | 0, _, v => v
  | fuel + 1, reads, v =>
    if v.missing ≠ 0 ∧ v.retries < 10 then
      let v1 := { v with retries := v.retries + 1 }
      match reads.headD SerialRead.eagain with
      | SerialRead.eagain =>
        av_audio_do_serial_read_loop fuel reads.tail { v1 with nbytes := -1 }
      | SerialRead.fail => { v1 with nbytes := -1 }
      | SerialRead.data bytes =>
        av_audio_do_serial_read_loop fuel reads.tail
          { v1 with
            nbytes := bytes.length,
            missing := (v1.missing + 2 ^ 64 - bytes.length % 2 ^ 64) % 2 ^ 64,
            audiobuf := v1.audiobuf ++ bytes,
            bufptr := v1.bufptr + bytes.length }
    else v

/-- Source `av_audio_do_serial_read`: after the loop the first `nbytes` bytes of `audiobuf`
are handed to the RTP session and `user_ts`, a `uint32_t`, advances by `nbytes`. -/
def av_audio_do_serial_read (a : av_audio_state) (reads : List SerialRead) :
    Int × av_audio_state × List AudioEffect :=
  let v := av_audio_do_serial_read_loop 10 reads {}
  (0, { a with user_ts := (((a.user_ts : Int) + v.nbytes) % 2 ^ 32).toNat },
   [AudioEffect.rtp_session_send_with_ts a.session v.audiobuf v.nbytes a.user_ts])

/-- Source `av_audio_close_fd`. -/
def av_audio_close_fd (env : AudioEnv) (fd : Int) : Int × List AudioEffect :=
  if fd < 0 then (1, [])
  else if env.close ≠ 0 then (1, [AudioEffect.close fd])
  else (0, [AudioEffect.close fd])

/-- Source `av_audio_serial_init`: the descriptor is kept when every step succeeds and
closed otherwise. -/
def av_audio_serial_init (env : AudioEnv) (a : av_audio_state) :
    Int × av_audio_state × List AudioEffect :=
  let fd := env.open_fd
  if fd < 0 then (1, a, [])
  else if env.isatty = 0 ∨ env.fcntl_getfd < 0 ∨ env.fcntl_setfd = -1 ∨ env.tcgetattr ≠ 0
      ∨ env.tcsetattr ≠ 0 then
    (1, a, (av_audio_close_fd env fd).2)
  else (0, { a with poll_fd1 := fd }, [])

/-- Source `av_audio_rtp_init`. -/
def av_audio_rtp_init (env : AudioEnv) (a : av_audio_state) : Int × av_audio_state :=
  match env.rtp_session_new with
  | none => (1, { a with session := none })
  | some session => (0, { a with session := some session })

/-- Source `av_audio_sip_msg`; `cmd` is what `av_thread_rxcmd` returned.  No result when
the payload of `CMD_AUDIO_INIT` is not a connection record. -/
def av_audio_sip_msg (env : AudioEnv) (a : av_audio_state) (cmd : Option av_thread_cmd) :
    Option (Int × av_audio_state × List AudioEffect) :=
  match cmd with
  | none => some (0, a, [])
  | some cmd =>
    if cmd.msgtype = CMD_AUDIO_INIT then
      match cmd.payload with
      | Payload.connection _ =>
        match av_audio_rtp_init env a with
        | (r, a1) =>
          if r ≠ 0 then some (1, a1, [])
          else
            match av_audio_serial_init env a1 with
            | (r1, a2, tr) =>
              if r1 ≠ 0 then some (1, a2, tr)
              else if env.cmd_alloc ∧ env.port_alloc then
                some (0, a2, tr ++ [AudioEffect.av_thread_txcmd a2.self
                  { msgtype := AUDIO_EVENT_RTP_OK,
                    payload := Payload.int env.rtp_session_get_local_port } 1])
              else some (0, a2, tr)
      | _ => none
    else if cmd.msgtype = CMD_AUDIO_EXIT then some (1, a, [])
    else some (1, a, [])

/-- What one `poll` of `av_audio_do_poll` reports, with what the chosen handler then reads. -/
inductive AudioPoll where
  | failure
  | sip_msg (env : AudioEnv) (cmd : Option av_thread_cmd)
  | serial (reads : List SerialRead)
  | nothing

/-- Source `av_audio_do_poll`. -/
def av_audio_do_poll (a : av_audio_state) : AudioPoll →
    Option (Int × av_audio_state × List AudioEffect)
  | AudioPoll.failure => some (-1, a, [])
  | AudioPoll.sip_msg env cmd => av_audio_sip_msg env a cmd
  | AudioPoll.serial reads => some (av_audio_do_serial_read a reads)
  | AudioPoll.nothing => some (0, a, [])

/-- Source `av_audio_rtp_deinit`. -/
def av_audio_rtp_deinit (a : av_audio_state) : av_audio_state :=
  { a with user_ts := 0, session := none }

/-- The body of `av_audiothread_startup` from its loop on: `av_audio_do_poll` runs while it
returns zero, then the session is destroyed and the serial descriptor closed.  The polls
left over when the loop ends are never made; when they run out first the actor is still in
its loop and the result says so with `false`. -/
def av_audio_run (last : AudioEnv) : av_audio_state → List AudioPoll →
    Option (Bool × av_audio_state × List AudioEffect)
  | a, [] => some (false, a, [])
  | a, p :: rest =>
    match av_audio_do_poll a p with
    | none => none
    | some (r, a1, tr) =>
      if r ≠ 0 then
        some (true, av_audio_rtp_deinit a1, tr ++ (av_audio_close_fd last a1.poll_fd1).2)
      else
        match av_audio_run last a1 rest with
        | none => none
        | some (b, a2, tr1) => some (b, a2, tr ++ tr1)

/-! ## The entity table and the modem (`av_storage.c`, `av_mm_manager.c`, `av_mm_modem.c`) -/

/-- The enumeration `MMCallState` of libmm-glib; the code compares its values for equality
only. -/
inductive MMCallState where
  | MM_CALL_STATE_UNKNOWN
  | MM_CALL_STATE_DIALING
  | MM_CALL_STATE_RINGING_OUT
  | MM_CALL_STATE_RINGING_IN
  | MM_CALL_STATE_ACTIVE
  | MM_CALL_STATE_HELD
  | MM_CALL_STATE_WAITING
  | MM_CALL_STATE_TERMINATED
  deriving DecidableEq, Repr

/-- An `MMCall` proxy object: its address `ptr`, the bus path `mm_call_get_path` returns and
the state `mm_call_get_state` returns. -/
structure MMCall where
  ptr : Nat
  path : String
  state : MMCallState := MMCallState.MM_CALL_STATE_UNKNOWN
  deriving DecidableEq, Repr

/-- The record `struct MMCall_ctx`; `avm` is the address of the entity. -/
structure MMCall_ctx where
  avm : Nat
  object_path : Option String
  added : Bool
  deriving DecidableEq, Repr

/-- The record `struct _AvModem`, with its own address `ptr`, the address `object` of its
`MMObject`, and the fields the modem code and the call code set. -/
structure AvModem where
  ptr : Nat
  object : Nat
  modem : Option Nat := none
  modem_signal_statechanged : Nat := 0
  voice : Option Nat := none
  mmcalls : List MMCall := []
  active_calls_counter : Int := 0
  sipthread : Option av_thread := none
  deriving DecidableEq, Repr

/-- Outcomes decided outside the main thread while a modem is handled. -/
structure MainEnv where
  av_modem_new : Nat := 0
  mm_object_get_modem : Option Nat := none
  mm_modem_get_state : Int := 0
  handlers_disconnected : Nat := 0
  g_signal_connect : Nat := 1
  mm_object_get_modem_voice : Option Nat := none
  ctx_alloc : Bool := true
  cmd_alloc : Bool := true
  deriving DecidableEq, Repr

/-- Calls of the modem code into the voice code and into GObject, in the order they are
made; the voice code itself is not followed here. -/
inductive MainEffect where
  | av_mm_voice_init (m : Nat)
  | av_mm_voice_deinit (m : Nat)
  | g_object_unref (m : Nat)
  | g_object_ref (o : Nat)
  | g_signal_connect (o : Nat)
  | g_signal_handlers_disconnect_by_func (o : Nat)
  | mm_manager_new
  | mm_modem_voice_list_calls (v : Nat) (callcontext : MMCall_ctx)
  | mm_modem_voice_create_call (v : Option Nat) (number : String) (user_data : Nat)
  | mm_call_start (c : Nat) (user_data : Nat)
  | av_thread_txcmd (t : av_thread) (c : av_thread_cmd) (mysocket : Int)
  | av_mm_deinit
  | g_timeout_add_seconds (interval : Nat)
  | g_main_loop_quit
  deriving DecidableEq, Repr

/-- The `for` loop of `av_storage_find_mmobject` from list node `l` on; `m` is the
variable the loop assigns. -/
def av_storage_find_mmobject_loop (object : Nat) : Option AvModem → List AvModem →
    Option AvModem
  | m, [] => m
  | _, x :: l => if x.object = object then some x else av_storage_find_mmobject_loop object (some x) l

/-- Source `av_storage_find_mmobject` on the list `ll->av_modems`. -/
def av_storage_find_mmobject (av_modems : List AvModem) (object : Nat) : Option AvModem :=
  av_storage_find_mmobject_loop object none av_modems

/-- Source `av_modem_new`. -/
def av_modem_new (env : MainEnv) (mmobject : Nat) : AvModem :=
  { ptr := env.av_modem_new, object := mmobject }

/-- Source `av_storage_add_mmobject`: the new entity and the list after `g_list_append`. -/
def av_storage_add_mmobject (env : MainEnv) (av_modems : List AvModem) (object : Nat) :
    AvModem × List AvModem :=
  let m := av_modem_new env object
  (m, av_modems ++ [m])

/-- The list after `g_list_remove`: the first node whose data is the entity at address `m`
is taken out. -/
def g_list_remove : List AvModem → Nat → List AvModem
  | [], _ => []
  | x :: l, m => if x.ptr = m then l else x :: g_list_remove l m

/-- Source `av_storage_remove_avmodem`. -/
def av_storage_remove_avmodem (av_modems : List AvModem) (object : Nat) :
    Int × List AvModem × List MainEffect :=
  match av_storage_find_mmobject av_modems object with
  | some m => (0, g_list_remove av_modems m.ptr, [MainEffect.g_object_unref m.ptr])
  | none => (1, av_modems, [])

/-- Source `avmodem_get_mmmodem`: the modem interface is fetched once and kept. -/
def avmodem_get_mmmodem (env : MainEnv) (m : AvModem) : Option Nat × AvModem :=
  match m.modem with
  | some modem => (some modem, m)
  | none => (env.mm_object_get_modem, { m with modem := env.mm_object_get_modem })

/-- Source `av_mm_modem_statechange`, for the value `registered` of
`MM_MODEM_STATE_REGISTERED`. -/
def av_mm_modem_statechange (registered : Int) (oldstate newstate : Int) (m : AvModem) :
    List MainEffect :=
  (if newstate < registered then [MainEffect.av_mm_voice_deinit m.ptr] else [])
  ++ (if newstate = registered ∧ oldstate < newstate then [MainEffect.av_mm_voice_init m.ptr]
      else [])

/-- Source `av_mm_modem_gsignals`: the handler id kept in the entity and the number of
handlers disconnected. -/
def av_mm_modem_gsignals (env : MainEnv) (m : AvModem) (connect_signals : Bool) :
    Nat × AvModem :=
  let m1 := (avmodem_get_mmmodem env m).2
  let m2 := { m1 with modem_signal_statechanged := 0 }
  if connect_signals then
    if env.g_signal_connect = 0 then (env.handlers_disconnected, m2)
    else (env.handlers_disconnected, { m2 with modem_signal_statechanged := env.g_signal_connect })
  else (env.handlers_disconnected, m2)

/-- Source `av_mm_modem_register`, for the value `registered` of
`MM_MODEM_STATE_REGISTERED`. -/
def av_mm_modem_register (registered : Int) (env : MainEnv) (m : AvModem) :
    Int × AvModem × List MainEffect :=
  match avmodem_get_mmmodem env m with
  | (none, m1) => (1, m1, [])
  | (some _, m1) =>
    let m2 := (av_mm_modem_gsignals env m1 true).2
    if env.mm_modem_get_state = registered then (0, m2, [MainEffect.av_mm_voice_init m2.ptr])
    else (0, m2, [])

/-- Source `av_mm_manager_addmodem`: the result and the list `ll->av_modems` after it; the
entity appended last is the one registration has worked on. -/
def av_mm_manager_addmodem (registered : Int) (env : MainEnv) (av_modems : List AvModem)
    (object : Nat) : Int × List AvModem × List MainEffect :=
  match av_storage_find_mmobject av_modems object with
  | some _ => (1, av_modems, [])
  | none =>
    match av_storage_add_mmobject env av_modems object with
    | (m, av_modems1) =>
      match av_mm_modem_register registered env m with
      | (r, m1, tr) =>
        if r ≠ 0 then (1, av_modems1.dropLast ++ [m1], tr)
        else (0, av_modems1.dropLast ++ [m1], tr)

/-- Source `av_mm_manager_modem_removed`. -/
def av_mm_manager_modem_removed (av_modems : List AvModem) (object : Nat) :
    List AvModem × List MainEffect :=
  match av_storage_find_mmobject av_modems object with
  | none => (av_modems, [])
  | some _ =>
    match av_storage_remove_avmodem av_modems object with
    | (_, av_modems1, tr) => (av_modems1, tr)

/-! ## The calls of a modem and the async counter (`av_utils.c`, `av_mm_call.c`, `av_mm_voice.c`) -/

/-- A value brought into the range of `gint`, the way 32-bit two's complement wraps. -/
def gint (v : Int) : Int := (v + 2147483648) % 4294967296 - 2147483648

/-- Source `av_utils_async_start` on `ll->async_counter`; `o` is the object it is given. -/
def av_utils_async_start (async_counter : Int) (o : Option Nat) : Int × List MainEffect :=
  (gint (async_counter + 1),
   match o with
   | some p => [MainEffect.g_object_ref p]
   | none => [])

/-- Source `av_utils_async_end` on `ll->async_counter`; `o` is the object it is given. -/
def av_utils_async_end (async_counter : Int) (o : Option Nat) : Int × List MainEffect :=
  (gint (async_counter - 1),
   match o with
   | some p => [MainEffect.g_object_unref p]
   | none => [])

/-- Source `av_utils_mm_call_search`: the first call of the list with the given path. -/
def av_utils_mm_call_search : List MMCall → Option String → Option MMCall
  | [], _ => none
  | k :: l, object_path =>
    if g_strcmp0 (some k.path) object_path = 0 then some k
    else av_utils_mm_call_search l object_path

/-- The list after `g_list_remove` on a list of calls: the first node whose data is the call
at address `c` is taken out. -/
def g_list_remove_mmcall : List MMCall → Nat → List MMCall
  | [], _ => []
  | x :: l, c => if x.ptr = c then l else x :: g_list_remove_mmcall l c

/-- Source `av_mm_call_gsignals`; the number of handlers it returns is only printed. -/
def av_mm_call_gsignals (c : MMCall) (connect : Bool) : List MainEffect :=
  [MainEffect.g_signal_handlers_disconnect_by_func c.ptr]
    ++ (if connect then [MainEffect.g_signal_connect c.ptr] else [])

/-- Source `av_mm_call_unregister_mmcall`. -/
def av_mm_call_unregister_mmcall (c : MMCall) : List MainEffect :=
  av_mm_call_gsignals c false ++ [MainEffect.g_object_unref c.ptr]

/-- Source `av_mm_call_state_eval`. -/
def av_mm_call_state_eval (c : MMCall) (_oldstate newstate : MMCallState) (m : AvModem) :
    AvModem × List MainEffect :=
  let n_calls := m.active_calls_counter
  let n_calls1 :=
    if (newstate = MMCallState.MM_CALL_STATE_RINGING_IN
        ∨ newstate = MMCallState.MM_CALL_STATE_RINGING_OUT
        ∨ newstate = MMCallState.MM_CALL_STATE_WAITING) ∧ n_calls = 0
    then gint (n_calls + 1) else n_calls
  if newstate = MMCallState.MM_CALL_STATE_TERMINATED then
    let n_calls2 := gint (n_calls1 - 1)
    let mmcalls := g_list_remove_mmcall m.mmcalls c.ptr
    ({ m with mmcalls := mmcalls, active_calls_counter := n_calls2 },
     av_mm_call_unregister_mmcall c)
  else ({ m with active_calls_counter := n_calls1 }, [])

/-- Source `av_mm_call_statechange`, the handler of the `state-changed` signal of a call. -/
def av_mm_call_statechange (c : MMCall) (oldstate newstate : MMCallState) (m : AvModem) :
    AvModem × List MainEffect :=
  av_mm_call_state_eval c oldstate newstate m

/-- Source `av_mm_call_register`. -/
def av_mm_call_register (m : AvModem) (call : MMCall) : AvModem × List MainEffect :=
  let m1 := { m with mmcalls := m.mmcalls ++ [call] }
  let r := av_mm_call_state_eval call MMCallState.MM_CALL_STATE_UNKNOWN call.state m1
  (r.1, av_mm_call_gsignals call true ++ r.2)

/-- Source `av_mm_call_unregister`. -/
def av_mm_call_unregister (m : AvModem) (call_path : Option String) :
    AvModem × List MainEffect :=
  match av_utils_mm_call_search m.mmcalls call_path with
  | some current_call =>
    ({ m with mmcalls := g_list_remove_mmcall m.mmcalls current_call.ptr },
     av_mm_call_unregister_mmcall current_call)
  | none => (m, [])

/-- Source `av_mm_voice_find_call`: the async counter after it and the calls it makes. -/
def av_mm_voice_find_call (env : MainEnv) (async_counter : Int) (m : AvModem) (v : Nat)
    (object_path : Option String) (added : Bool) : Int × List MainEffect :=
  if env.ctx_alloc then
    let callcontext : MMCall_ctx := { avm := m.ptr, object_path := object_path, added := added }
    let r := av_utils_async_start async_counter (some m.ptr)
    (r.1, r.2 ++ [MainEffect.mm_modem_voice_list_calls v callcontext])
  else (async_counter, [])

/-- Source `av_mm_voice_find_call_list_ready`; `m` is the entity at `callcontext->avm` and
`calls_list` is what `mm_modem_voice_list_calls_finish` returns.  No result when the
assertion on the list of an added call fails. -/
def av_mm_voice_find_call_list_ready (async_counter : Int) (m : AvModem)
    (callcontext : MMCall_ctx) (calls_list : List MMCall) :
    Option (Int × AvModem × List MainEffect) :=
  let free_list := calls_list.map (fun c => MainEffect.g_object_unref c.ptr)
  if callcontext.added then
    if calls_list = [] then none
    else
      match av_utils_mm_call_search calls_list callcontext.object_path with
      | some current_call =>
        let r := av_mm_call_register m current_call
        let e := av_utils_async_end async_counter (some callcontext.avm)
        some (e.1, r.1, [MainEffect.g_object_ref current_call.ptr] ++ r.2 ++ e.2 ++ free_list)
      | none =>
        let e := av_utils_async_end async_counter (some callcontext.avm)
        some (e.1, m, e.2 ++ free_list)
  else
    let r := av_mm_call_unregister m callcontext.object_path
    let e := av_utils_async_end async_counter (some callcontext.avm)
    some (e.1, r.1, r.2 ++ e.2 ++ free_list)

/-- Source `avmodem_get_mmmodemvoice`: the voice interface is fetched once and kept. -/
def avmodem_get_mmmodemvoice (env : MainEnv) (m : AvModem) : Option Nat × AvModem :=
  match m.voice with
  | some voice => (some voice, m)
  | none => (env.mm_object_get_modem_voice, { m with voice := env.mm_object_get_modem_voice })

/-- Source `av_mm_call_sipcall`; `g_str_to_ascii` is the GLib function of that name with the
locale "C". -/
def av_mm_call_sipcall (g_str_to_ascii : Option String → Option String) (env : MainEnv)
    (async_counter : Int) (m : AvModem) (dest_number : Option String) :
    Int × AvModem × List MainEffect :=
  match g_str_to_ascii dest_number with
  | none => (async_counter, m, [])
  | some normalized_number =>
    if normalized_number = "" then (async_counter, m, [])
    else
      let r := av_utils_async_start async_counter none
      let v := avmodem_get_mmmodemvoice env m
      (r.1, v.2, r.2 ++ [MainEffect.mm_modem_voice_create_call v.1 normalized_number m.ptr])

/-- Source `av_mm_call_sipcall_with_call`; `c` is what `mm_modem_voice_create_call_finish`
returns and `m` the entity passed as user data. -/
def av_mm_call_sipcall_with_call (async_counter : Int) (m : AvModem) (c : Option MMCall) :
    Int × List MainEffect :=
  match c with
  | none => av_utils_async_end async_counter none
  | some c => (async_counter, [MainEffect.mm_call_start c.ptr m.ptr])

/-- Source `av_mm_call_sipcall_start_call`; `started` is what `mm_call_start_finish` returns.
No result when the command is written to a SIP thread that is not there. -/
def av_mm_call_sipcall_start_call (env : MainEnv) (async_counter : Int) (m : AvModem)
    (c : MMCall) (started : Bool) : Option (Int × List MainEffect) :=
  let e := av_utils_async_end async_counter (some c.ptr)
  if started then
    if env.cmd_alloc then
      match m.sipthread with
      | none => none
      | some t =>
        some (e.1, [MainEffect.av_thread_txcmd t
          { msgtype := SIP_CMD_CALL_IN_PROGRESS, payload := Payload.str c.path } 0] ++ e.2)
    else some e
  else some e

/-- Source `av_mm_manager_init`. -/
def av_mm_manager_init (async_counter : Int) : Int × List MainEffect :=
  let r := av_utils_async_start async_counter none
  (r.1, r.2 ++ [MainEffect.mm_manager_new])

/-- The `for` loop of `av_mm_manager_get_modems` on the objects the manager lists, each
with the outcomes of its registration. -/
def av_mm_manager_get_modems_loop (registered : Int) :
    List AvModem → List (MainEnv × Nat) → List AvModem × List MainEffect
  | av_modems, [] => (av_modems, [])
  | av_modems, (env, object) :: l =>
    match av_mm_manager_addmodem registered env av_modems object with
    | (_, av_modems1, tr) =>
      let r := av_mm_manager_get_modems_loop registered av_modems1 l
      (r.1, tr ++ r.2)

/-- Source `av_mm_manager_get_modems`: the listed objects are added one by one and then
released. -/
def av_mm_manager_get_modems (registered : Int) (av_modems : List AvModem)
    (modems : List (MainEnv × Nat)) : List AvModem × List MainEffect :=
  let r := av_mm_manager_get_modems_loop registered av_modems modems
  (r.1, r.2 ++ modems.map (fun x => MainEffect.g_object_unref x.2))

/-- Source `av_mm_manager_init_finish`; `manager` is what `mm_manager_new_finish` returns.
The result is the async counter, `ll->manager`, `ll->av_modems` and the calls made; the
handlers of the manager's signals, which it connects, are not recorded. -/
def av_mm_manager_init_finish (registered : Int) (async_counter : Int)
    (av_modems : List AvModem) (manager : Option Nat) (modems : List (MainEnv × Nat)) :
    Int × Option Nat × List AvModem × List MainEffect :=
  let e := av_utils_async_end async_counter none
  match manager with
  | none => (e.1, none, av_modems, e.2)
  | some mgr =>
    let r := av_mm_manager_get_modems registered av_modems modems
    (e.1, some mgr, r.1, e.2 ++ r.2)

/-- What the main thread gets to see of the calls of one modem: the listing asked for upon a
`call-added` or `call-deleted` signal is ready, or a tracked call changes its state. -/
inductive CallEvent where
  | call_added (object_path : String) (calls_list : List MMCall)
  | call_deleted (object_path : String) (calls_list : List MMCall)
  | state_changed (c : MMCall) (oldstate newstate : MMCallState)
  deriving DecidableEq, Repr

/-- The handler one event runs on the entity `m`: `av_mm_voice_find_call_list_ready` with the
context `av_mm_voice_find_call` has made for the signal, or `av_mm_call_statechange`.  The
async counter is 1 while the listing is pending. -/
def av_mm_call_event (m : AvModem) : CallEvent → Option (AvModem × List MainEffect)
  | CallEvent.call_added object_path calls_list =>
    (av_mm_voice_find_call_list_ready 1 m
      { avm := m.ptr, object_path := some object_path, added := true } calls_list).map
      (fun r => r.2)
  | CallEvent.call_deleted object_path calls_list =>
    (av_mm_voice_find_call_list_ready 1 m
      { avm := m.ptr, object_path := some object_path, added := false } calls_list).map
      (fun r => r.2)
  | CallEvent.state_changed c oldstate newstate =>
    some (av_mm_call_statechange c oldstate newstate m)

/-- The handlers of a sequence of events, one after the other, on the entity `m`. -/
def av_mm_call_events : AvModem → List CallEvent → Option AvModem
  | m, [] => some m
  | m, ev :: rest =>
    match av_mm_call_event m ev with
    | none => none
    | some (m1, _) => av_mm_call_events m1 rest

/-! ## Leaving the main loop (`av.c`) -/

/-- The record `struct av_ll` (the global `ll`), with the fields the exit logic reads. -/
structure av_ll where
  async_counter : Int := 0
  unix_signals_src_tag : Nat := 0
  exit_timeout_src_tag : Nat := 0
  deriving DecidableEq, Repr

/-- The value `G_SOURCE_REMOVE` of GLib. -/
def G_SOURCE_REMOVE : Bool := false

/-- The value `G_SOURCE_CONTINUE` of GLib. -/
def G_SOURCE_CONTINUE : Bool := true

/-- Source `av_handle_exit`. -/
def av_handle_exit (ll : av_ll) : Bool × av_ll × List MainEffect :=
  if ll.async_counter = 0 then
    (G_SOURCE_REMOVE, { ll with exit_timeout_src_tag := 0 }, [MainEffect.g_main_loop_quit])
  else (G_SOURCE_CONTINUE, ll, [])

/-- Source `av_exit`; `tag` is what `g_timeout_add_seconds` returns.  `av_mm_deinit` is
recorded and not followed. -/
def av_exit (tag : Nat) (ll : av_ll) : av_ll × List MainEffect :=
  ({ ll with exit_timeout_src_tag := tag },
   [MainEffect.av_mm_deinit, MainEffect.g_timeout_add_seconds 1])

/-- The timeout source `av_exit` installs, as GLib runs it: the callback is called at every
tick for as long as it returns `G_SOURCE_CONTINUE`.  `counters` lists the value the async
counter has at each tick. -/
def exit_timeout_ticks : av_ll → List Int → av_ll × List MainEffect
  | ll, [] => (ll, [])
  | ll, k :: rest =>
    match av_handle_exit { ll with async_counter := k } with
    | (again, ll1, tr) =>
      if again then
        let r := exit_timeout_ticks ll1 rest
        (r.1, tr ++ r.2)
      else (ll1, tr)

/-! ## Start and end of the SIP actor (`av_sip_init`) -/

/-- Outcomes decided outside the SIP actor while it starts. -/
structure SipInitEnv where
  sstate_alloc : Bool := true
  eXosip_malloc : Bool := true
  eXosip_init : Int := 0
  eXosip_event_geteventsocket : Int := 5
  eXosip_listen_addr : Int := 0
  timerfd_create : Int := 6
  timerfd_settime : Int := 0
  cmd_alloc : Bool := true
  deriving DecidableEq, Repr

/-- The descriptors of `poll_data[1]` and `poll_data[2]` in `sstate`, zeroed by
`g_try_malloc0`; the call handlers never write them. -/
structure sip_poll_data where
  poll_fd1 : Int := 0
  poll_fd2 : Int := 0
  deriving DecidableEq, Repr

/-- Calls the thread function of the SIP actor makes, in order; `actor` is a call made from
its loop. -/
inductive SipInitEffect where
  | close (fd : Int)
  | eXosip_quit
  | av_thread_txcmd (t : av_thread) (c : av_thread_cmd) (mysocket : Int)
  | actor (e : Effect)
  deriving DecidableEq, Repr

/-- Source `av_sip_stackteardown`. -/
def av_sip_stackteardown (d : sip_poll_data) (sipconf : Option av_modem_config) :
    sip_poll_data × List SipInitEffect :=
  ({ d with poll_fd1 := -1 },
   [SipInitEffect.close d.poll_fd1, SipInitEffect.eXosip_quit]
     ++ (match sipconf with
         | some mc => [SipInitEffect.actor (Effect.av_config_free mc)]
         | none => []))

/-- Source `av_sip_stacksetup`; the configuration is not there yet. -/
def av_sip_stacksetup (env : SipInitEnv) (d : sip_poll_data) :
    Int × sip_poll_data × List SipInitEffect :=
  if env.eXosip_malloc = false then (1, d, [])
  else if env.eXosip_init ≠ 0 then
    let r := av_sip_stackteardown d none
    (1, r.1, r.2)
  else
    let d1 := { d with poll_fd1 := env.eXosip_event_geteventsocket }
    if d1.poll_fd1 < 0 then
      let r := av_sip_stackteardown d1 none
      (1, r.1, r.2)
    else if env.eXosip_listen_addr ≠ 0 then
      let r := av_sip_stackteardown d1 none
      (1, r.1, r.2)
    else (0, d1, [])

/-- Source `av_sip_timerfd_setup`. -/
def av_sip_timerfd_setup (env : SipInitEnv) (d : sip_poll_data) : Int × sip_poll_data :=
  let d1 := { d with poll_fd2 := env.timerfd_create }
  if d1.poll_fd2 < 0 then (1, d1)
  else if env.timerfd_settime ≠ 0 then (1, d1)
  else (0, d1)

/-- Source `av_sip_timerfd_teardown`. -/
def av_sip_timerfd_teardown (d : sip_poll_data) : sip_poll_data × List SipInitEffect :=
  if d.poll_fd2 < 0 then (d, [])
  else ({ d with poll_fd2 := -1 }, [SipInitEffect.close d.poll_fd2])

/-- Source `av_sip_init`: the calls the thread function has made when it returns.  No
result when a handler faults or the polls run out before the loop ends. -/
def av_sip_init (L : Lib) (env : SipInitEnv) (last : Env) (t : av_thread)
    (polls : List PollResult) : Option (List SipInitEffect) :=
  if env.sstate_alloc = false then some []
  else
    match av_sip_stacksetup env {} with
    | (r, d1, tr) =>
      if r ≠ 0 then some tr
      else
        match av_sip_timerfd_setup env d1 with
        | (r1, d2) =>
          if r1 ≠ 0 then some (tr ++ (av_sip_stackteardown d2 none).2)
          else
            let ready :=
              if env.cmd_alloc then
                [SipInitEffect.av_thread_txcmd t
                  { msgtype := SIP_EVENT_READY, payload := Payload.null } 1]
              else []
            match av_sip_run L last (av_sip_state_init t) polls with
            | none => none
            | some (false, _, _) => none
            | some (true, s1, tr1) =>
              let td := av_sip_timerfd_teardown d2
              some (tr ++ ready ++ tr1.map SipInitEffect.actor ++ td.2
                ++ (av_sip_stackteardown td.1 s1.sipconf).2)

/-! ## The calls into the SIP stack, in the order the actor makes them -/

/-- The entry points of the SIP stack the handlers call with the stack context. -/
inductive StackCall where
  | eXosip_lock
  | eXosip_unlock
  | eXosip_automatic_action
  | eXosip_event_wait
  | eXosip_get_remote_sdp
  | eXosip_add_authentication_info
  | eXosip_register_build_initial_register
  | eXosip_register_send_register
  | eXosip_call_build_answer
  | eXosip_call_send_answer
  deriving DecidableEq, Repr

/-- The stack calls of `av_sip_protocol_automatic_action`. -/
def av_sip_protocol_automatic_action_calls : List StackCall :=
  [StackCall.eXosip_lock, StackCall.eXosip_automatic_action, StackCall.eXosip_unlock]

/-- The stack calls of `av_sip_stackconfig`. -/
def av_sip_stackconfig_calls (env : Env) : List StackCall :=
  if env.add_authentication_info ≠ 0 then [StackCall.eXosip_add_authentication_info]
  else if env.register_build_initial_register < 1 then
    [StackCall.eXosip_add_authentication_info, StackCall.eXosip_lock,
     StackCall.eXosip_register_build_initial_register, StackCall.eXosip_unlock]
  else
    [StackCall.eXosip_add_authentication_info, StackCall.eXosip_lock,
     StackCall.eXosip_register_build_initial_register,
     StackCall.eXosip_register_send_register, StackCall.eXosip_unlock]

/-- The stack calls of `av_sip_regconf`. -/
def av_sip_regconf_calls (env : Env) (cmd : av_thread_cmd) : List StackCall :=
  match cmd.payload with
  | Payload.config sipconf =>
    if sipconf.username.isSome ∧ sipconf.password.isSome ∧ sipconf.sip_host.isSome
        ∧ sipconf.sip_id.isSome ∧ sipconf.modem_audio_port.isSome
        ∧ sipconf.sip_local_ip_addr.isSome then
      av_sip_stackconfig_calls env
    else []
  | _ => []

/-- The stack calls of `av_sip_protocol_call_stage0`: the remote SDP is fetched when no call
is held and the user name has passed. -/
def av_sip_protocol_call_stage0_calls (s : av_sip_state) (e : eXosip_event) : List StackCall :=
  if s.current_call_event.isSome then []
  else
    match av_sip_protocol_call_stage0_check_username s e with
    | none => []
    | some r => if r ≠ 0 then [] else [StackCall.eXosip_get_remote_sdp]

/-- The stack calls of `av_sip_protocol_call_stage1`. -/
def av_sip_protocol_call_stage1_calls (env : Env) (s : av_sip_state) (rtp_local_port : Int) :
    List StackCall :=
  match s.current_call_event with
  | none => []
  | some _ =>
    if env.call_build_answer ≠ 0 then [StackCall.eXosip_call_build_answer]
    else
      match av_sip_protocol_call_build_sdp env s rtp_local_port none with
      | none => [StackCall.eXosip_call_build_answer]
      | some (r, sdpm) =>
        if r ≠ 0 ∨ sdpm.isNone ∨ env.sdp_message_to_str ≠ 0 ∨ env.message_set_content_type ≠ 0
            ∨ env.message_set_body ≠ 0 then [StackCall.eXosip_call_build_answer]
        else [StackCall.eXosip_call_build_answer, StackCall.eXosip_call_send_answer]

/-- The stack calls of `av_sip_core_msg`. -/
def av_sip_core_msg_calls (env : Env) (s : av_sip_state) (cmd : Option av_thread_cmd) :
    List StackCall :=
  match cmd with
  | none => []
  | some cmd =>
    if cmd.msgtype = SIP_CMD_EXIT then []
    else if cmd.msgtype = SIP_CMD_REGISTER then av_sip_regconf_calls env cmd
    else if cmd.msgtype = SIP_CMD_CALL_IN_PROGRESS then
      match cmd.payload.as_string with
      | none => []
      | some path =>
        av_sip_protocol_call_stage1_calls env { s with current_call_path := path }
          s.local_rtp_port
    else []

/-- The `switch` of `av_sip_protocol_events` on one event: the value of `keep_event`, the
state and the calls that leave the actor, as in `av_sip_protocol_events_loop`. -/
def av_sip_protocol_events_switch (L : Lib) (keep_event : Int) (s : av_sip_state) (env : Env)
    (event : eXosip_event) : Option (Int × av_sip_state × List Effect) :=
  match event.type with
  | eXosip_event_type.EXOSIP_CALL_CLOSED
  | eXosip_event_type.EXOSIP_CALL_CANCELLED
  | eXosip_event_type.EXOSIP_CALL_RELEASED =>
    match av_sip_protocol_call_end env s (some event) with
    | none => none
    | some (s1, tr) => some (keep_event, s1, tr)
  | eXosip_event_type.EXOSIP_CALL_INVITE => av_sip_protocol_call_stage0 L env s event
  | _ => some (keep_event, s, [])

/-- The stack calls of `av_sip_protocol_events`: every pass of the `while` loop starts with
`eXosip_event_wait`, and the last one gets no event. -/
def av_sip_protocol_events_calls (L : Lib) :
    Int → av_sip_state → List (Env × eXosip_event) → List StackCall
  | _, _, [] => [StackCall.eXosip_event_wait]
  | keep_event, s, (env, event) :: rest =>
    [StackCall.eXosip_event_wait, StackCall.eXosip_lock]
      ++ (if event.type = eXosip_event_type.EXOSIP_CALL_INVITE
          then av_sip_protocol_call_stage0_calls s event else [])
      ++ (match av_sip_protocol_events_switch L keep_event s env event with
          | none => []
          | some (keep_event1, s1, _) =>
            StackCall.eXosip_unlock :: av_sip_protocol_events_calls L keep_event1 s1 rest)

/-- The stack calls of one run of `av_sip_loop`. -/
def av_sip_loop_calls (L : Lib) (s : av_sip_state) : PollResult → List StackCall
  | PollResult.core_msg env cmd => av_sip_core_msg_calls env s cmd
  | PollResult.sip_events events => av_sip_protocol_events_calls L 0 s events
  | PollResult.timer => av_sip_protocol_automatic_action_calls
  | _ => []

/-! ## Notions the statements use -/

/-- The user part of the URI of the `From` header, when header, URI and user part are there. -/
def from_user (e : eXosip_event) : Option String :=
  (e.request.from_hdr.bind (fun f => f.url)).bind (fun u => u.username)

/-- Some attribute of the media is an `rtpmap` that maps the payload `p` to `PCMU/8000`. -/
def has_rtpmap (m : sdp_media) (p : String) : Prop :=
  ∃ a ∈ m.a_attributes,
    a.a_att_field = some "rtpmap" ∧ a.a_att_value = some (p ++ " " ++ "PCMU/8000")

/-- The slot holds a call: held event, connection and audio thread are all there. -/
def slot_populated (s : av_sip_state) : Prop :=
  s.current_call_event.isSome = true ∧ s.current_call_connection.isSome = true
    ∧ s.audiothread.isSome = true

/-- The slot holds nothing: no held event, connection, call path or audio thread. -/
def slot_empty (s : av_sip_state) : Prop :=
  s.current_call_event = none ∧ s.current_call_connection = none
    ∧ s.current_call_path = none ∧ s.audiothread = none

/-- Whether the command records asked for while the poll result is handled can all be
allocated. -/
def PollResult.cmd_alloc : PollResult → Bool
  | PollResult.core_msg env _ => env.cmd_alloc
  | PollResult.sip_events events => events.all (fun p => p.1.cmd_alloc)
  | PollResult.audio_msg env _ => env.cmd_alloc
  | _ => true

/-- The states the actor of thread `t` gets to from its start by runs of `av_sip_loop` and
of the closing `av_sip_protocol_call_end(NULL)`, as long as no handler faults and every
command record can be allocated. -/
inductive Reachable (L : Lib) (t : av_thread) : av_sip_state → Prop where
  | init : Reachable L t (av_sip_state_init t)
  | loop (s s1 : av_sip_state) (p : PollResult) (r : Int) (tr : List Effect) :
      Reachable L t s → p.cmd_alloc = true → av_sip_loop L s p = some (r, s1, tr) →
      Reachable L t s1
  | call_end (s s1 : av_sip_state) (env : Env) (tr : List Effect) :
      Reachable L t s → env.cmd_alloc = true →
      av_sip_protocol_call_end env s none = some (s1, tr) → Reachable L t s1

/-- The answer C11 describes: version 0, origin of user airvoice on `IN IP4` at the local
address, session name DongleCall, one session-level connection `IN IP4` at the local
address, and the one media `audio <port> RTP/AVP 0` with `a=rtpmap:0 PCMU/8000`. -/
def sdp_answer_described (local_ip : Option String) (session_id session_version : String)
    (port : Int) : sdp_message :=
  { v_version := some "0",
    o_username := some "airvoice",
    o_sess_id := some session_id,
    o_sess_version := some session_version,
    o_nettype := some "IN",
    o_addrtype := some "IP4",
    o_addr := local_ip,
    s_name := some "DongleCall",
    c_connection := some { c_nettype := some "IN", c_addrtype := some "IP4", c_addr := local_ip },
    m_medias := [{ m_media := some "audio", m_port := some (toString port),
                   m_number_of_port := none, m_proto := some "RTP/AVP", m_payloads := ["0"],
                   c_connections := [],
                   a_attributes := [{ a_att_field := some "rtpmap",
                                      a_att_value := some "0 PCMU/8000" }] }] }

/-- The payload pointer that carries a call path. -/
def path_payload : Option String → Payload
  | none => Payload.null
  | some p => Payload.str p

/-- Every one of the six fields of the configuration is present. -/
def config_complete (c : av_modem_config) : Bool :=
  c.username.isSome && c.password.isSome && c.sip_host.isSome && c.sip_id.isSome
    && c.modem_audio_port.isSome && c.sip_local_ip_addr.isSome

/-- The stack calls of stage 1 and of the SDP builder all succeed, the sending apart. -/
def stage1_stack_ok (env : Env) : Prop :=
  env.call_build_answer = 0 ∧ env.sdp_message_init = 0 ∧ env.sdp_message_m_media_add = 0
    ∧ env.sdp_message_c_connection_add = 0 ∧ env.sdp_message_a_attribute_add = 0
    ∧ env.sdp_message_to_str = 0 ∧ env.message_set_content_type = 0
    ∧ env.message_set_body = 0

/-- The time stamps of the packets handed to the RTP session, in order. -/
def packet_timestamps : List AudioEffect → List Nat
  | [] => []
  | AudioEffect.rtp_session_send_with_ts _ _ _ userts :: rest => userts :: packet_timestamps rest
  | _ :: rest => packet_timestamps rest

/-- The length arguments of the packets handed to the RTP session, in order. -/
def packet_lengths : List AudioEffect → List Int
  | [] => []
  | AudioEffect.rtp_session_send_with_ts _ _ len _ :: rest => len :: packet_lengths rest
  | _ :: rest => packet_lengths rest

/-- Each listed read that is made returns at most the bytes asked for, which are the bytes
still missing; no read is made once nothing is missing. -/
def reads_within : Nat → List SerialRead → Bool
  | 0, _ => true
  | _, [] => true
  | missing, SerialRead.data bytes :: rest =>
    decide (bytes.length ≤ missing) && reads_within (missing - bytes.length) rest
  | missing, SerialRead.eagain :: rest => reads_within missing rest
  | _, SerialRead.fail :: _ => true

/-- An asynchronous operation the main thread has issued and whose completion callback has
not run yet. -/
inductive AsyncOp where
  | manager_new
  | list_calls (callcontext : MMCall_ctx)
  | create_call (user_data : Nat)
  | call_start (c : Nat) (user_data : Nat)
  deriving DecidableEq, Repr

/-- The asynchronous operations issued by a run of calls; a request on a voice interface
that is not there is refused by the library and issues nothing. -/
def issued : List MainEffect → List AsyncOp
  | [] => []
  | MainEffect.mm_manager_new :: l => AsyncOp.manager_new :: issued l
  | MainEffect.mm_modem_voice_list_calls _ callcontext :: l =>
    AsyncOp.list_calls callcontext :: issued l
  | MainEffect.mm_modem_voice_create_call (some _) _ user_data :: l =>
    AsyncOp.create_call user_data :: issued l
  | MainEffect.mm_call_start c user_data :: l => AsyncOp.call_start c user_data :: issued l
  | _ :: l => issued l

/-- The async counter and the pending operations the main thread gets to from its start,
where the counter is zero, by issuing operations (manager creation when the service
appears, a listing upon a call signal, a call upon a SIP event of a modem that has its voice
interface) and by completion callbacks, each run for an operation that is pending, which
then is pending no longer. -/
inductive AsyncReachable (g_str_to_ascii : Option String → Option String) :
    Int → List AsyncOp → Prop where
  | start : AsyncReachable g_str_to_ascii 0 []
  | manager_init (c : Int) (p : List AsyncOp) :
      AsyncReachable g_str_to_ascii c p →
      AsyncReachable g_str_to_ascii (av_mm_manager_init c).1
        (p ++ issued (av_mm_manager_init c).2)
  | manager_init_finish (c : Int) (p : List AsyncOp) (registered : Int)
      (av_modems : List AvModem) (manager : Option Nat) (modems : List (MainEnv × Nat)) :
      AsyncReachable g_str_to_ascii c p → AsyncOp.manager_new ∈ p →
      AsyncReachable g_str_to_ascii
        (av_mm_manager_init_finish registered c av_modems manager modems).1
        (p.erase AsyncOp.manager_new
          ++ issued (av_mm_manager_init_finish registered c av_modems manager modems).2.2.2)
  | find_call (c : Int) (p : List AsyncOp) (env : MainEnv) (m : AvModem) (v : Nat)
      (object_path : Option String) (added : Bool) :
      AsyncReachable g_str_to_ascii c p →
      AsyncReachable g_str_to_ascii (av_mm_voice_find_call env c m v object_path added).1
        (p ++ issued (av_mm_voice_find_call env c m v object_path added).2)
  | find_call_list_ready (c : Int) (p : List AsyncOp) (m : AvModem) (callcontext : MMCall_ctx)
      (calls_list : List MMCall) (r : Int × AvModem × List MainEffect) :
      AsyncReachable g_str_to_ascii c p → AsyncOp.list_calls callcontext ∈ p →
      av_mm_voice_find_call_list_ready c m callcontext calls_list = some r →
      AsyncReachable g_str_to_ascii r.1 (p.erase (AsyncOp.list_calls callcontext) ++ issued r.2.2)
  | sipcall (c : Int) (p : List AsyncOp) (env : MainEnv) (m : AvModem)
      (dest_number : Option String) :
      AsyncReachable g_str_to_ascii c p → m.voice.isSome = true →
      AsyncReachable g_str_to_ascii (av_mm_call_sipcall g_str_to_ascii env c m dest_number).1
        (p ++ issued (av_mm_call_sipcall g_str_to_ascii env c m dest_number).2.2)
  | sipcall_with_call (c : Int) (p : List AsyncOp) (m : AvModem) (call : Option MMCall) :
      AsyncReachable g_str_to_ascii c p → AsyncOp.create_call m.ptr ∈ p →
      AsyncReachable g_str_to_ascii (av_mm_call_sipcall_with_call c m call).1
        (p.erase (AsyncOp.create_call m.ptr)
          ++ issued (av_mm_call_sipcall_with_call c m call).2)
  | sipcall_start_call (c : Int) (p : List AsyncOp) (env : MainEnv) (m : AvModem)
      (call : MMCall) (started : Bool) (r : Int × List MainEffect) :
      AsyncReachable g_str_to_ascii c p → AsyncOp.call_start call.ptr m.ptr ∈ p →
      av_mm_call_sipcall_start_call env c m call started = some r →
      AsyncReachable g_str_to_ascii r.1
        (p.erase (AsyncOp.call_start call.ptr m.ptr) ++ issued r.2)

/-- The paths C21 says have a handle, after the paths `acc`: a path is taken in when a
`call-added` listing holds its call, and taken out when the call is observed Terminated, at
registration or by a state change. -/
def paths_added_not_terminated : List String → List CallEvent → List String
  | acc, [] => acc
  | acc, CallEvent.call_added object_path calls_list :: rest =>
    match av_utils_mm_call_search calls_list (some object_path) with
    | some c =>
      if c.state = MMCallState.MM_CALL_STATE_TERMINATED then paths_added_not_terminated acc rest
      else paths_added_not_terminated (acc ++ [object_path]) rest
    | none => paths_added_not_terminated acc rest
  | acc, CallEvent.call_deleted _ _ :: rest => paths_added_not_terminated acc rest
  | acc, CallEvent.state_changed c _ newstate :: rest =>
    if newstate = MMCallState.MM_CALL_STATE_TERMINATED
    then paths_added_not_terminated (acc.erase c.path) rest
    else paths_added_not_terminated acc rest

/-- The paths C21 amended says have a handle: as before, and a path is also taken out when
the deletion of its call is notified. -/
def paths_tracked : List String → List CallEvent → List String
  | acc, [] => acc
  | acc, CallEvent.call_added object_path calls_list :: rest =>
    match av_utils_mm_call_search calls_list (some object_path) with
    | some c =>
      if c.state = MMCallState.MM_CALL_STATE_TERMINATED then paths_tracked acc rest
      else paths_tracked (acc ++ [object_path]) rest
    | none => paths_tracked acc rest
  | acc, CallEvent.call_deleted object_path _ :: rest =>
    paths_tracked (acc.erase object_path) rest
  | acc, CallEvent.state_changed c _ newstate :: rest =>
    if newstate = MMCallState.MM_CALL_STATE_TERMINATED
    then paths_tracked (acc.erase c.path) rest
    else paths_tracked acc rest

/-- What the bus and GObject see to for one event on the entity `m`: the listing of an
added call is not empty, a call is announced once while it is tracked and its proxy object
is a new one, and a state change is signalled for a call the entity is subscribed to. -/
def call_event_wf (m : AvModem) : CallEvent → Bool
  | CallEvent.call_added object_path calls_list =>
    !calls_list.isEmpty
    && match av_utils_mm_call_search calls_list (some object_path) with
       | some c =>
         !(m.mmcalls.map (fun x => x.path)).contains object_path
         && !(m.mmcalls.map (fun x => x.ptr)).contains c.ptr
       | none => true
  | CallEvent.call_deleted _ _ => true
  | CallEvent.state_changed c _ _ => m.mmcalls.contains c

/-- Every event of the sequence is well-formed for the entity it finds. -/
def call_events_wf : AvModem → List CallEvent → Bool
  | _, [] => true
  | m, ev :: rest =>
    call_event_wf m ev
    && match av_mm_call_event m ev with
       | none => true
       | some (m1, _) => call_events_wf m1 rest

/-- How often the reference count of the object at address `o` is raised, less how often
it is dropped, in a run of calls. -/
def refcount_change (o : Nat) : List MainEffect → Int
  | [] => 0
  | MainEffect.g_object_ref p :: l => (if p = o then 1 else 0) + refcount_change o l
  | MainEffect.g_object_unref p :: l => (if p = o then -1 else 0) + refcount_change o l
  | _ :: l => refcount_change o l

/-- The calls C28 lists as reading or changing the transaction tables of the stack. -/
def StackCall.claimed : StackCall → Bool
  | StackCall.eXosip_automatic_action => true
  | StackCall.eXosip_event_wait => true
  | StackCall.eXosip_get_remote_sdp => true
  | StackCall.eXosip_register_build_initial_register => true
  | StackCall.eXosip_register_send_register => true
  | StackCall.eXosip_call_build_answer => true
  | StackCall.eXosip_call_send_answer => true
  | _ => false

/-- The calls of `StackCall.claimed` other than `eXosip_event_wait`. -/
def StackCall.claimed_but_wait (c : StackCall) : Bool :=
  c.claimed && decide (c ≠ StackCall.eXosip_event_wait)

/-- The call is `eXosip_event_wait`. -/
def StackCall.is_wait (c : StackCall) : Bool :=
  decide (c = StackCall.eXosip_event_wait)

/-- Whether the actor holds the stack lock after the calls, when `held` says whether it
holds it before them. -/
def lock_held_after : Bool → List StackCall → Bool
  | held, [] => held
  | _, StackCall.eXosip_lock :: l => lock_held_after true l
  | _, StackCall.eXosip_unlock :: l => lock_held_after false l
  | held, _ :: l => lock_held_after held l

/-- Every call that `pick` picks is made while the actor holds the stack lock (`want` is
true) or while it does not hold it (`want` is false); `held` says whether it holds the lock
before the calls. -/
def calls_with_lock (want : Bool) (pick : StackCall → Bool) : Bool → List StackCall → Bool
  | _, [] => true
  | _, StackCall.eXosip_lock :: l => calls_with_lock want pick true l
  | _, StackCall.eXosip_unlock :: l => calls_with_lock want pick false l
  | held, c :: l => (!pick c || held == want) && calls_with_lock want pick held l

/-! ## Concrete inputs -/

/-- The offer `m=audio 20000 RTP/AVP 0`, `a=rtpmap:0 PCMU/8000`, `c=IN IP4 192.0.2.9`. -/
def offer_pcmu : sdp_message :=
  { c_connection := some { c_nettype := some "IN", c_addrtype := some "IP4",
                           c_addr := some "192.0.2.9" },
    m_medias := [{ m_media := some "audio", m_port := some "20000", m_proto := some "RTP/AVP",
                   m_payloads := ["0"],
                   a_attributes := [{ a_att_field := some "rtpmap",
                                      a_att_value := some "0 PCMU/8000" }] }] }

/-- The media `m=audio 20000 RTP/AVP 8` with `a=rtpmap:8 PCMA/8000`. -/
def media_pcma : sdp_media :=
  { m_media := some "audio", m_port := some "20000", m_proto := some "RTP/AVP",
    m_payloads := ["8"],
    a_attributes := [{ a_att_field := some "rtpmap", a_att_value := some "8 PCMA/8000" }] }

/-- The offer `m=audio 20000 RTP/AVP 8`, `a=rtpmap:8 PCMA/8000`, `c=IN IP4 192.0.2.9`. -/
def offer_pcma : sdp_message :=
  { c_connection := some { c_nettype := some "IN", c_addrtype := some "IP4",
                           c_addr := some "192.0.2.9" },
    m_medias := [media_pcma] }

/-- The offer `m=audio 20000 RTP/AVP 96`, `a=rtpmap:96 PCMU/8000`, `c=IN IP4 192.0.2.9`. -/
def offer_pcmu_96 : sdp_message :=
  { c_connection := some { c_nettype := some "IN", c_addrtype := some "IP4",
                           c_addr := some "192.0.2.9" },
    m_medias := [{ m_media := some "audio", m_port := some "20000", m_proto := some "RTP/AVP",
                   m_payloads := ["96"],
                   a_attributes := [{ a_att_field := some "rtpmap",
                                      a_att_value := some "96 PCMU/8000" }] }] }

/-- A complete configuration for the user `alice`. -/
def config_alice : av_modem_config :=
  { username := some "alice", password := some "secret", sip_host := some "sip:pbx.example",
    sip_id := some "sip:alice@pbx.example", modem_audio_port := some "/dev/ttyUSB2",
    sip_local_ip_addr := some "192.0.2.1" }

/-- The thread record of the SIP actor. -/
def sip_thread : av_thread := { sockets0 := 7, sockets1 := 8, thread := 1 }

/-- The thread record `av_thread_setup` hands out for the audio actor. -/
def audio_thread : av_thread := { sockets0 := 9, sockets1 := 10, thread := 2 }

/-- The registered actor with no call. -/
def state_idle : av_sip_state := { self := sip_thread, reg_id := 1, sipconf := some config_alice }

/-- An INVITE from `user` to `15550123` with the given offer. -/
def invite_of (user : String) (sdp : sdp_message) : eXosip_event :=
  { ptr := 100, type := eXosip_event_type.EXOSIP_CALL_INVITE, tid := 11, did := 12, cid := 13,
    request := { from_hdr := some { url := some { username := some user } },
                 req_uri := some { username := some "15550123" } },
    remote_sdp := some sdp }

/-- The INVITE of the configured user with the PCMU offer. -/
def invite_valid : eXosip_event := invite_of "alice" offer_pcmu

/-- The connection stage 0 stores for `invite_valid`. -/
def connection_valid : av_rtp_connection :=
  { addr := some "192.0.2.9", port := 20000, call_direction := SIP_CALL_INCOMING,
    serial_device := some "/dev/ttyUSB2" }

/-- The actor holding the call of `invite_valid`. -/
def state_in_call : av_sip_state :=
  { state_idle with
    current_call_event := some invite_valid,
    current_call_connection := some connection_valid,
    audiothread := some audio_thread,
    poll_fd3 := 9 }

/-- The actor after the call of `invite_valid` has ended. -/
def state_after_call : av_sip_state := { state_idle with poll_fd3 := -1 }

/-- Everything outside the actor succeeds and the audio thread can be created. -/
def env_ok : Env := { thread_setup := some audio_thread }

/-- The audio thread cannot be created. -/
def env_no_thread : Env := { thread_setup := none }

/-- Neither the audio thread nor a command record can be had. -/
def env_no_thread_no_cmd : Env := { thread_setup := none, cmd_alloc := false }

/-- A successful registration reported in the same batch as an INVITE. -/
def event_registered : eXosip_event :=
  { ptr := 101, type := eXosip_event_type.EXOSIP_REGISTRATION_SUCCESS }

/-- The peer hangs up the call of `invite_valid`. -/
def event_closed : eXosip_event :=
  { ptr := 102, type := eXosip_event_type.EXOSIP_CALL_CLOSED, tid := 14, did := 12, cid := 13 }

/-- A termination event of another call. -/
def event_closed_other : eXosip_event :=
  { ptr := 103, type := eXosip_event_type.EXOSIP_CALL_CLOSED, tid := 15, did := 16, cid := 17 }

/-- The configuration of `alice` with an empty audio port. -/
def config_empty_audio_port : av_modem_config :=
  { config_alice with modem_audio_port := some "" }

/-- The configuration of `alice` without the audio port. -/
def config_no_audio_port : av_modem_config := { config_alice with modem_audio_port := none }

/-- The audio actor in a call, with its session and serial descriptor. -/
def audio_in_call : av_audio_state :=
  { self := audio_thread, poll_fd0 := 10, poll_fd1 := 3, session := some 1, user_ts := 0 }

/-- The only entity of the table: the modem at object 10. -/
def modem_a : AvModem :=
  { ptr := 1, object := 10, modem := some 11, modem_signal_statechanged := 1 }

/-- The outcomes for a modem at a fresh address that is registered to the network. -/
def main_env_registered : MainEnv :=
  { av_modem_new := 3, mm_object_get_modem := some 31, mm_modem_get_state := 8,
    g_signal_connect := 3 }

/-- A stand-in for `g_str_to_ascii`: the characters of 7-bit ASCII are kept and every other
character is left out. -/
def ascii_only : Option String → Option String
  | none => none
  | some s => some (String.mk (s.toList.filter (fun ch => decide (ch.toNat < 128))))

/-- The SIP thread record of a modem. -/
def modem_sip_thread : av_thread := { sockets0 := 11, sockets1 := 12, thread := 3 }

/-- The entity of a modem registered to the network, with its voice interface and its SIP
thread, and no call. -/
def modem_voice : AvModem :=
  { ptr := 1, object := 10, modem := some 11, modem_signal_statechanged := 1,
    voice := some 12, sipthread := some modem_sip_thread }

/-- An incoming cellular call that rings. -/
def call_ringing : MMCall :=
  { ptr := 21, path := "/org/freedesktop/ModemManager1/Call/1",
    state := MMCallState.MM_CALL_STATE_RINGING_IN }

/-- A second incoming cellular call, waiting while the first one is there. -/
def call_waiting : MMCall :=
  { ptr := 22, path := "/org/freedesktop/ModemManager1/Call/2",
    state := MMCallState.MM_CALL_STATE_WAITING }

/-- The call `create_call` hands out for the number of `invite_valid`. -/
def call_dialing : MMCall :=
  { ptr := 23, path := "/org/freedesktop/ModemManager1/Call/3",
    state := MMCallState.MM_CALL_STATE_DIALING }

/-- The entity of `modem_voice` while the call it has placed is tracked. -/
def modem_in_call : AvModem :=
  { modem_voice with mmcalls := [call_dialing], active_calls_counter := 1 }

/-- The SIP actor holding the call of `invite_valid`, with the cellular call in progress. -/
def state_call_in_progress : av_sip_state :=
  { state_in_call with
    current_call_path := some "/org/freedesktop/ModemManager1/Call/3",
    local_rtp_port := 7078 }

/-- The command the main thread writes when the cellular call has started. -/
def cmd_call_in_progress : av_thread_cmd :=
  { msgtype := SIP_CMD_CALL_IN_PROGRESS,
    payload := Payload.str "/org/freedesktop/ModemManager1/Call/3" }

/-- An offer with two audio medias: `m=audio 30000 RTP/AVP 8` with `a=rtpmap:8 PCMA/8000`
and `c=IN IP4 198.51.100.1`, then `m=audio 20000 RTP/AVP 0` with `a=rtpmap:0 PCMU/8000` and
`c=IN IP4 192.0.2.9`. -/
def offer_two_audio : sdp_message :=
  { m_medias :=
      [{ m_media := some "audio", m_port := some "30000", m_proto := some "RTP/AVP",
         m_payloads := ["8"],
         c_connections := [{ c_nettype := some "IN", c_addrtype := some "IP4",
                             c_addr := some "198.51.100.1" }],
         a_attributes := [{ a_att_field := some "rtpmap", a_att_value := some "8 PCMA/8000" }] },
       { m_media := some "audio", m_port := some "20000", m_proto := some "RTP/AVP",
         m_payloads := ["0"],
         c_connections := [{ c_nettype := some "IN", c_addrtype := some "IP4",
                             c_addr := some "192.0.2.9" }],
         a_attributes := [{ a_att_field := some "rtpmap", a_att_value := some "0 PCMU/8000" }] }] }

/-- Everything outside the actor succeeds, but the connection record cannot be allocated. -/
def env_no_connection : Env := { thread_setup := some audio_thread, connection_alloc := false }

/-- Everything outside the actor succeeds, but no command record can be allocated. -/
def env_no_cmd : Env := { thread_setup := some audio_thread, cmd_alloc := false }

/-- The actor after call end for the call of `invite_valid` without an exit command: held
event and connection are gone, the audio thread is still there. -/
def state_half_cleared : av_sip_state :=
  { state_in_call with current_call_event := none, current_call_connection := none }

/-! ## Lemmas on the handlers -/

/-- The comparison is zero exactly for equal arguments. -/
theorem g_strcmp0_eq_zero_iff (a b : Option String) : g_strcmp0 a b = 0 ↔ a = b := by
  cases a <;> cases b <;> simp [g_strcmp0]
  split_ifs <;> simp_all

/-- The attribute loop runs over what `sdp_message_attribute_get` enumerates. -/
theorem attribute_get_eq (sdp : sdp_message) (pos_media pos : Nat) :
    sdp_message_attribute_get sdp pos_media pos =
      ((sdp.m_medias.get? pos_media).elim [] (fun m => m.a_attributes)).get? pos := by
  unfold sdp_message_attribute_get
  cases sdp.m_medias.get? pos_media <;> rfl

/-- The payload loop runs over what `sdp_message_m_payload_get` enumerates. -/
theorem payload_get_eq (sdp : sdp_message) (pos_media pos : Nat) :
    sdp_message_m_payload_get sdp pos_media pos =
      ((sdp.m_medias.get? pos_media).elim [] (fun m => m.m_payloads)).get? pos := by
  unfold sdp_message_m_payload_get
  cases sdp.m_medias.get? pos_media <;> rfl

/-- The media loop runs over the positions before `sdp_message_endof_media`, and reads at
each what `sdp_message_m_media_get` returns. -/
theorem media_get_eq (sdp : sdp_message) (i : Nat) :
    (sdp_message_endof_media sdp i = true ↔ sdp.m_medias.length ≤ i)
    ∧ sdp_message_m_media_get sdp i = (sdp.m_medias.get? i).bind (fun m => m.m_media) := by
  refine ⟨?_, rfl⟩
  unfold sdp_message_endof_media
  rw [Option.isNone_iff_eq_none]
  exact List.get?_eq_none

/-- The port check in closed form. -/
theorem check_supported_eq (L : Lib) (c : sdp_connection) (rtp_port : String) :
    av_sip_protocol_call_stage0_connection_check_supported L c rtp_port =
      if c.c_nettype = some "IN" ∧ c.c_addrtype = some "IP4" ∧ 0 ≤ L.atoi rtp_port
          ∧ L.atoi rtp_port % 2 = 0 ∧ L.atoi rtp_port ≤ 65534
      then L.atoi rtp_port else 0 := by
  unfold av_sip_protocol_call_stage0_connection_check_supported
  simp only [ne_eq, g_strcmp0_eq_zero_iff, ge_iff_le]
  by_cases h1 : c.c_nettype = some "IN"
  · by_cases h2 : c.c_addrtype = some "IP4"
    · by_cases h3 : 0 ≤ L.atoi rtp_port
      · simp [h1, h2, h3, Int.tmod_eq_emod h3 (by decide : (0 : Int) ≤ 2)]
      · simp [h1, h2, h3]
    · simp [h1, h2]
  · simp [h1]

/-- The user name check in terms of the From user. -/
theorem check_username_eq (s : av_sip_state) (e : eXosip_event) :
    av_sip_protocol_call_stage0_check_username s e =
      match from_user e with
      | none => some 1
      | some user =>
        match s.sipconf with
        | none => none
        | some conf => if conf.username = some user then some 0 else some 1 := by
  unfold av_sip_protocol_call_stage0_check_username from_user
  cases h1 : e.request.from_hdr with
  | none => simp
  | some f =>
    cases h2 : f.url with
    | none => simp [h2]
    | some u =>
      cases h3 : u.username with
      | none => simp [h2, h3]
      | some user =>
        cases h4 : s.sipconf with
        | none => simp [h2, h3]
        | some conf =>
          simp only [h2, h3, Option.bind_some, Option.some_bind, ne_eq, g_strcmp0_eq_zero_iff]
          by_cases h5 : conf.username = some user <;> simp [h5]

/-- Stage 0 with a held event does nothing. -/
theorem stage0_slot_held (L : Lib) (env : Env) (s : av_sip_state) (e : eXosip_event)
    (h : s.current_call_event.isSome = true) :
    av_sip_protocol_call_stage0 L env s e = some (0, s, []) := by
  unfold av_sip_protocol_call_stage0
  simp [h]

/-- Stage 0 does nothing when the user name check fails. -/
theorem stage0_username_rejected (L : Lib) (env : Env) (s : av_sip_state) (e : eXosip_event)
    (h : av_sip_protocol_call_stage0_check_username s e = some 1) :
    av_sip_protocol_call_stage0 L env s e = some (0, s, []) := by
  unfold av_sip_protocol_call_stage0
  simp [h]

/-- A drain of one INVITE: stage 0, then the event is freed unless it is kept. -/
theorem events_single_invite (L : Lib) (env : Env) (s : av_sip_state) (e : eXosip_event)
    (hty : e.type = eXosip_event_type.EXOSIP_CALL_INVITE) :
    av_sip_protocol_events L s [(env, e)] =
      match av_sip_protocol_call_stage0 L env s e with
      | none => none
      | some (keep, s1, tr) =>
        some (0, s1, if keep = 0 then tr ++ [Effect.eXosip_event_free e] else tr) := by
  unfold av_sip_protocol_events
  simp only [av_sip_protocol_events_loop, hty]
  cases h : av_sip_protocol_call_stage0 L env s e with
  | none => simp
  | some r =>
    obtain ⟨keep, s1, tr⟩ := r
    simp

/-- A drain of one termination event: call end, then the event is freed. -/
theorem events_single_termination (L : Lib) (env : Env) (s : av_sip_state) (e : eXosip_event)
    (hty : e.type = eXosip_event_type.EXOSIP_CALL_CLOSED
      ∨ e.type = eXosip_event_type.EXOSIP_CALL_CANCELLED
      ∨ e.type = eXosip_event_type.EXOSIP_CALL_RELEASED) :
    av_sip_protocol_events L s [(env, e)] =
      match av_sip_protocol_call_end env s (some e) with
      | none => none
      | some (s1, tr) => some (0, s1, tr ++ [Effect.eXosip_event_free e]) := by
  unfold av_sip_protocol_events
  rcases hty with hty | hty | hty <;>
  · simp only [av_sip_protocol_events_loop, hty]
    cases h : av_sip_protocol_call_end env s (some e) with
    | none => simp
    | some r =>
      obtain ⟨s1, tr⟩ := r
      simp

/-- Call end for the held call, with an audio thread and an exit command at hand. -/
theorem call_end_matching (env : Env) (s : av_sip_state) (e : Option eXosip_event)
    (held : eXosip_event) (t : av_thread)
    (hheld : s.current_call_event = some held) (ht : s.audiothread = some t)
    (hcid : ∀ ev, e = some ev → ev.cid = held.cid) (halloc : env.cmd_alloc = true) :
    av_sip_protocol_call_end env s e =
      some ({ s with current_call_event := none, current_call_connection := none,
                     current_call_path := none, audiothread := none, poll_fd3 := -1 },
            [Effect.av_thread_txcmd t { msgtype := CMD_AUDIO_EXIT, payload := Payload.null } 0,
             Effect.av_thread_teardown t, Effect.eXosip_event_free held]) := by
  unfold av_sip_protocol_call_end
  cases e with
  | none => simp [hheld, ht, halloc, av_thread_cmd_new, av_sip_protocol_call_end_free_state]
  | some ev =>
    have := hcid ev rfl
    simp [hheld, ht, halloc, this, av_thread_cmd_new, av_sip_protocol_call_end_free_state]

/-- Call end for an event of another call does nothing. -/
theorem call_end_other_call (env : Env) (s : av_sip_state) (e held : eXosip_event)
    (hheld : s.current_call_event = some held) (hcid : e.cid ≠ held.cid) :
    av_sip_protocol_call_end env s (some e) = some (s, []) := by
  unfold av_sip_protocol_call_end
  simp [hheld, hcid]

/-- Call end without a held event does nothing. -/
theorem call_end_no_call (env : Env) (s : av_sip_state) (e : Option eXosip_event)
    (hheld : s.current_call_event = none) :
    av_sip_protocol_call_end env s e = some (s, []) := by
  unfold av_sip_protocol_call_end
  simp [hheld]

/-- The attribute loop fails when no attribute is the expected `rtpmap`. -/
theorem payload_ok_loop_no_match (L : Lib) (env : Env) (s : av_sip_state) (sdp : sdp_message)
    (pos : Nat) (expected : String) (attrs : List sdp_attribute) (c : Option av_rtp_connection)
    (h : ∀ a ∈ attrs, ¬ (a.a_att_field = some "rtpmap" ∧ a.a_att_value = some expected)) :
    av_sip_protocol_call_stage0_check_audio_media_payload_ok_loop L env s sdp pos expected
      attrs c = some (1, c) := by
  induction attrs with
  | nil => rfl
  | cons a rest ih =>
    unfold av_sip_protocol_call_stage0_check_audio_media_payload_ok_loop
    have ha := h a (List.mem_cons_self a rest)
    simp only [g_strcmp0_eq_zero_iff, ha, if_false]
    exact ih (fun x hx => h x (List.mem_cons_of_mem a hx))

/-- The attribute loop ends with connection setup at the first expected `rtpmap`. -/
theorem payload_ok_loop_match (L : Lib) (env : Env) (s : av_sip_state) (sdp : sdp_message)
    (pos : Nat) (expected : String) (attrs : List sdp_attribute) (c : Option av_rtp_connection)
    (h : ∃ a ∈ attrs, a.a_att_field = some "rtpmap" ∧ a.a_att_value = some expected) :
    av_sip_protocol_call_stage0_check_audio_media_payload_ok_loop L env s sdp pos expected
      attrs c =
      match av_sip_protocol_call_stage0_connection_setup L env s sdp pos c with
      | none => none
      | some (r, c1) => if r = 0 then some (0, c1) else some (1, c1) := by
  induction attrs with
  | nil => obtain ⟨a, ha, _⟩ := h; cases ha
  | cons a rest ih =>
    unfold av_sip_protocol_call_stage0_check_audio_media_payload_ok_loop
    by_cases ha : a.a_att_field = some "rtpmap" ∧ a.a_att_value = some expected
    · simp only [g_strcmp0_eq_zero_iff, ha, and_self, if_true]
    · simp only [g_strcmp0_eq_zero_iff, ha, if_false]
      apply ih
      obtain ⟨x, hx, hm⟩ := h
      rcases List.mem_cons.mp hx with rfl | hx
      · exact absurd hm ha
      · exact ⟨x, hx, hm⟩

/-- The payload loop fails when no listed payload is mapped to PCMU/8000. -/
theorem payload_loop_no_match (L : Lib) (env : Env) (s : av_sip_state) (sdp : sdp_message)
    (pos : Nat) (m : sdp_media) (hm : sdp.m_medias.get? pos = some m)
    (payloads : List String) (c : Option av_rtp_connection)
    (h : ∀ p ∈ payloads, ¬ has_rtpmap m p) :
    av_sip_protocol_call_stage0_check_audio_media_payload_loop L env s sdp pos payloads c
      = some (1, c) := by
  induction payloads with
  | nil => rfl
  | cons p rest ih =>
    unfold av_sip_protocol_call_stage0_check_audio_media_payload_loop
    have hp := h p (List.mem_cons_self p rest)
    have h1 : av_sip_protocol_call_stage0_check_audio_media_payload_ok L env s sdp pos p
        "PCMU/8000" c = some (1, c) := by
      unfold av_sip_protocol_call_stage0_check_audio_media_payload_ok
      simp only [hm, Option.elim]
      apply payload_ok_loop_no_match
      intro a ha hmatch
      exact hp ⟨a, ha, hmatch⟩
    simp only [h1]
    simp
    exact ih (fun x hx => h x (List.mem_cons_of_mem p hx))

/-- The payload loop succeeds when some listed payload is mapped to PCMU/8000 and connection
setup succeeds. -/
theorem payload_loop_match (L : Lib) (env : Env) (s : av_sip_state) (sdp : sdp_message)
    (pos : Nat) (m : sdp_media) (hm : sdp.m_medias.get? pos = some m)
    (payloads : List String) (c c1 : Option av_rtp_connection)
    (hsetup : av_sip_protocol_call_stage0_connection_setup L env s sdp pos c = some (0, c1))
    (h : ∃ p ∈ payloads, has_rtpmap m p) :
    av_sip_protocol_call_stage0_check_audio_media_payload_loop L env s sdp pos payloads c
      = some (0, c1) := by
  induction payloads with
  | nil => obtain ⟨p, hp, _⟩ := h; cases hp
  | cons p rest ih =>
    unfold av_sip_protocol_call_stage0_check_audio_media_payload_loop
    by_cases hp : has_rtpmap m p
    · have h1 : av_sip_protocol_call_stage0_check_audio_media_payload_ok L env s sdp pos p
          "PCMU/8000" c = some (0, c1) := by
        unfold av_sip_protocol_call_stage0_check_audio_media_payload_ok
        simp only [hm, Option.elim]
        rw [payload_ok_loop_match L env s sdp pos _ _ c hp, hsetup]
        simp
      simp [h1]
    · have h1 : av_sip_protocol_call_stage0_check_audio_media_payload_ok L env s sdp pos p
          "PCMU/8000" c = some (1, c) := by
        unfold av_sip_protocol_call_stage0_check_audio_media_payload_ok
        simp only [hm, Option.elim]
        apply payload_ok_loop_no_match
        intro a ha hmatch
        exact hp ⟨a, ha, hmatch⟩
      simp only [h1]
      simp
      apply ih
      obtain ⟨x, hx, hxm⟩ := h
      rcases List.mem_cons.mp hx with rfl | hx
      · exact absurd hxm hp
      · exact ⟨x, hx, hxm⟩

/-- The media loop passes over medias that are not audio or list no payload mapped to
PCMU/8000. -/
theorem media_loop_skip (L : Lib) (env : Env) (s : av_sip_state) (sdp : sdp_message)
    (pre rest : List sdp_media) (i : Nat) (c : Option av_rtp_connection)
    (hdrop : sdp.m_medias.drop i = pre ++ rest)
    (h : ∀ x ∈ pre, x.m_media = some "audio" → ∀ p ∈ x.m_payloads, ¬ has_rtpmap x p) :
    av_sip_protocol_call_stage0_handle_remote_sdp_loop L env s sdp i (pre ++ rest) c =
      av_sip_protocol_call_stage0_handle_remote_sdp_loop L env s sdp (i + pre.length) rest c := by
  induction pre generalizing i with
  | nil => simp
  | cons x xs ih =>
    have hx := h x (List.mem_cons_self x xs)
    have hget : sdp.m_medias.get? i = some x := by
      rw [List.get?_eq_getElem?, ← List.head?_drop, hdrop]; rfl
    have hnext : sdp.m_medias.drop (i + 1) = xs ++ rest := by
      rw [← List.tail_drop, hdrop]; rfl
    simp only [List.cons_append, List.length_cons]
    have step : av_sip_protocol_call_stage0_handle_remote_sdp_loop L env s sdp i
        (x :: (xs ++ rest)) c =
        av_sip_protocol_call_stage0_handle_remote_sdp_loop L env s sdp (i + 1) (xs ++ rest) c := by
      rw [av_sip_protocol_call_stage0_handle_remote_sdp_loop]
      by_cases ha : x.m_media = some "audio"
      · simp only [g_strcmp0_eq_zero_iff, ha, if_true]
        have h1 : av_sip_protocol_call_stage0_check_audio_media_payload L env s sdp i c
            = some (1, c) := by
          unfold av_sip_protocol_call_stage0_check_audio_media_payload
          simp only [hget, Option.elim]
          exact payload_loop_no_match L env s sdp i x hget x.m_payloads c (hx ha)
        simp only [h1]
        simp
      · simp only [g_strcmp0_eq_zero_iff, ha, if_false]
    have harith : i + 1 + xs.length = i + (xs.length + 1) := by omega
    rw [step, ih (i + 1) hnext (fun y hy => h y (List.mem_cons_of_mem x hy)), harith]

/-- Call end keeps the slot populated or empty when the exit command can be allocated. -/
theorem call_end_keeps_slot (env : Env) (s s1 : av_sip_state) (e : Option eXosip_event)
    (tr : List Effect) (halloc : env.cmd_alloc = true)
    (hinv : slot_populated s ∨ slot_empty s)
    (h : av_sip_protocol_call_end env s e = some (s1, tr)) :
    slot_populated s1 ∨ slot_empty s1 := by
  unfold av_sip_protocol_call_end at h
  cases hev : s.current_call_event with
  | none =>
    simp only [hev, Option.some.injEq, Prod.mk.injEq] at h
    rw [← h.1]; exact hinv
  | some held =>
    simp only [hev] at h
    split at h
    · simp only [Option.some.injEq, Prod.mk.injEq] at h
      rw [← h.1]; exact hinv
    · simp only [av_thread_cmd_new, halloc, if_true] at h
      cases ht : s.audiothread with
      | none => simp [ht] at h
      | some t =>
        simp only [ht, Option.some.injEq, Prod.mk.injEq] at h
        right
        rw [← h.1]
        simp [slot_empty, av_sip_protocol_call_end_free_state]

/-- Stage 0 keeps the slot populated or empty when the exit command can be allocated. -/
theorem stage0_keeps_slot (L : Lib) (env : Env) (s s1 : av_sip_state) (e : eXosip_event)
    (r : Int) (tr : List Effect) (halloc : env.cmd_alloc = true)
    (hinv : slot_populated s ∨ slot_empty s)
    (h : av_sip_protocol_call_stage0 L env s e = some (r, s1, tr)) :
    slot_populated s1 ∨ slot_empty s1 := by
  unfold av_sip_protocol_call_stage0 at h
  split at h
  · simp only [Option.some.injEq, Prod.mk.injEq] at h
    rw [← h.2.1]; exact hinv
  · split at h
    · cases h
    · split at h
      · simp only [Option.some.injEq, Prod.mk.injEq] at h
        rw [← h.2.1]; exact hinv
      · split at h
        · cases h
        · split at h
          · simp only [Option.some.injEq, Prod.mk.injEq] at h
            rw [← h.2.1]; exact hinv
          · split at h
            · cases h
            · rename_i conn
              cases hts : env.thread_setup with
              | none =>
                simp [av_sip_start_audio_thread, hts, av_sip_protocol_call_end,
                  av_thread_cmd_new, halloc] at h
              | some t =>
                simp [av_sip_start_audio_thread, hts] at h
                left
                rw [← h.2.1]
                simp [slot_populated]

/-- The drain loop keeps the slot populated or empty. -/
theorem events_loop_keeps_slot (L : Lib) (events : List (Env × eXosip_event))
    (keep : Int) (s s1 : av_sip_state) (tr : List Effect)
    (halloc : ∀ p ∈ events, p.1.cmd_alloc = true)
    (hinv : slot_populated s ∨ slot_empty s)
    (h : av_sip_protocol_events_loop L keep s events = some (s1, tr)) :
    slot_populated s1 ∨ slot_empty s1 := by
  induction events generalizing keep s tr with
  | nil =>
    simp only [av_sip_protocol_events_loop, Option.some.injEq, Prod.mk.injEq] at h
    rw [← h.1]; exact hinv
  | cons p rest ih =>
    obtain ⟨env, event⟩ := p
    have henv : env.cmd_alloc = true := halloc (env, event) (List.mem_cons_self _ _)
    have hrest : ∀ q ∈ rest, q.1.cmd_alloc = true :=
      fun q hq => halloc q (List.mem_cons_of_mem _ hq)
    rw [av_sip_protocol_events_loop] at h
    split at h
    · cases h
    · rename_i keep1 s2 tr2 hstep
      have hinv2 : slot_populated s2 ∨ slot_empty s2 := by
        split at hstep
        · split at hstep
          · cases hstep
          · rename_i s3 tr3 hend
            simp only [Option.some.injEq, Prod.mk.injEq] at hstep
            rw [← hstep.2.1]
            exact call_end_keeps_slot env s s3 (some event) tr3 henv hinv hend
        · split at hstep
          · cases hstep
          · rename_i s3 tr3 hend
            simp only [Option.some.injEq, Prod.mk.injEq] at hstep
            rw [← hstep.2.1]
            exact call_end_keeps_slot env s s3 (some event) tr3 henv hinv hend
        · split at hstep
          · cases hstep
          · rename_i s3 tr3 hend
            simp only [Option.some.injEq, Prod.mk.injEq] at hstep
            rw [← hstep.2.1]
            exact call_end_keeps_slot env s s3 (some event) tr3 henv hinv hend
        · exact stage0_keeps_slot L env s s2 event keep1 tr2 henv hinv hstep
        · simp only [Option.some.injEq, Prod.mk.injEq] at hstep
          rw [← hstep.2.1]; exact hinv
      cases hloop : av_sip_protocol_events_loop L keep1 s2 rest with
      | none => simp [hloop] at h
      | some q =>
        obtain ⟨s4, tr4⟩ := q
        simp only [hloop] at h
        simp only [Option.some.injEq, Prod.mk.injEq] at h
        have hs4 : s4 = s1 := h.1
        subst hs4
        exact ih keep1 s2 tr4 hrest hinv2 hloop

/-- Registration does not touch the slot. -/
theorem stackconfig_slot (env : Env) (s : av_sip_state) (mc : av_modem_config) :
    (av_sip_stackconfig env s mc).2.1.current_call_event = s.current_call_event
    ∧ (av_sip_stackconfig env s mc).2.1.current_call_connection = s.current_call_connection
    ∧ (av_sip_stackconfig env s mc).2.1.current_call_path = s.current_call_path
    ∧ (av_sip_stackconfig env s mc).2.1.audiothread = s.audiothread := by
  unfold av_sip_stackconfig
  dsimp only
  split_ifs <;> simp

/-- The slot condition reads four fields only. -/
theorem slot_congr (s s1 : av_sip_state)
    (h1 : s1.current_call_event = s.current_call_event)
    (h2 : s1.current_call_connection = s.current_call_connection)
    (h3 : s1.current_call_path = s.current_call_path)
    (h4 : s1.audiothread = s.audiothread)
    (hinv : slot_populated s ∨ slot_empty s) : slot_populated s1 ∨ slot_empty s1 := by
  unfold slot_populated slot_empty at *
  rw [h1, h2, h3, h4]; exact hinv

/-- A command of the main thread keeps the slot populated or empty. -/
theorem core_msg_keeps_slot (env : Env) (s s1 : av_sip_state) (cmd : Option av_thread_cmd)
    (r : Int) (tr : List Effect)
    (hinv : slot_populated s ∨ slot_empty s)
    (h : av_sip_core_msg env s cmd = some (r, s1, tr)) :
    slot_populated s1 ∨ slot_empty s1 := by
  unfold av_sip_core_msg at h
  split at h
  · simp only [Option.some.injEq, Prod.mk.injEq] at h
    rw [← h.2.1]; exact hinv
  · rename_i c
    split at h
    · simp only [Option.some.injEq, Prod.mk.injEq] at h
      rw [← h.2.1]; exact hinv
    · split at h
      · unfold av_sip_regconf at h
        split at h
        · rename_i sipconf hpl
          have hsc := stackconfig_slot env s sipconf
          split at h
          · split at h
            rename_i retval s2 tr2 hst
            have hs2 : s2 = (av_sip_stackconfig env s sipconf).2.1 := by rw [hst]
            have hs1 : s1 = s2 := by
              split at h <;>
              · simp only [Option.some.injEq, Prod.mk.injEq] at h
                exact h.2.1.symm
            rw [hs1, hs2]
            exact slot_congr s _ hsc.1 hsc.2.1 hsc.2.2.1 hsc.2.2.2 hinv
          · simp only [Option.some.injEq, Prod.mk.injEq] at h
            rw [← h.2.1]; exact hinv
        · cases h
      · split at h
        · split at h
          · cases h
          · rename_i path hpath
            dsimp only at h
            split at h
            · cases h
            · rename_i retval tr2 hst1
              simp only [Option.some.injEq, Prod.mk.injEq] at h
              rw [← h.2.1]
              unfold av_sip_protocol_call_stage1 at hst1
              cases hev : s.current_call_event with
              | none => simp [hev] at hst1
              | some held =>
                rcases hinv with hp | he
                · left
                  exact ⟨rfl, hp.2.1, hp.2.2⟩
                · rw [he.1] at hev; cases hev
        · simp only [Option.some.injEq, Prod.mk.injEq] at h
          rw [← h.2.1]; exact hinv

/-- An event of the audio thread keeps the slot populated or empty. -/
theorem audio_msg_keeps_slot (env : Env) (s s1 : av_sip_state) (cmd : Option av_thread_cmd)
    (r : Int) (tr : List Effect)
    (hinv : slot_populated s ∨ slot_empty s)
    (h : av_sip_audio_msg env s cmd = some (r, s1, tr)) :
    slot_populated s1 ∨ slot_empty s1 := by
  unfold av_sip_audio_msg at h
  split at h
  · cases h
  · split at h
    · simp only [Option.some.injEq, Prod.mk.injEq] at h
      rw [← h.2.1]; exact hinv
    · split at h
      · split at h <;>
        · simp only [Option.some.injEq, Prod.mk.injEq] at h
          rw [← h.2.1]; exact hinv
      · split at h
        · split at h
          · dsimp only at h
            split at h
            · cases h
            · split at h
              · simp only [Option.some.injEq, Prod.mk.injEq] at h
                rw [← h.2.1]
                exact slot_congr s _ rfl rfl rfl rfl hinv
              · split at h <;>
                · simp only [Option.some.injEq, Prod.mk.injEq] at h
                  rw [← h.2.1]
                  exact slot_congr s _ rfl rfl rfl rfl hinv
          · cases h
        · simp only [Option.some.injEq, Prod.mk.injEq] at h
          rw [← h.2.1]; exact hinv

/-- The expected `rtpmap` value of any payload ends in ` PCMU/8000`. -/
theorem rtpmap_value_suffix (p : String) :
    " PCMU/8000".toList <:+ (p ++ " " ++ "PCMU/8000").toList := by
  refine ⟨p.toList, ?_⟩
  simp [String.toList, String.data_append]

/-- Call end for the held call when the exit command cannot be allocated: nothing is written
and the audio thread is neither joined nor cleared, while held event, connection and call
path are cleared. -/
theorem call_end_without_exit_command (env : Env) (s : av_sip_state) (held : eXosip_event)
    (hheld : s.current_call_event = some held) (halloc : env.cmd_alloc = false) :
    av_sip_protocol_call_end env s none =
      some ({ s with current_call_event := none, current_call_connection := none,
                     current_call_path := none },
            [Effect.eXosip_event_free held]) := by
  unfold av_sip_protocol_call_end
  simp [hheld, halloc, av_thread_cmd_new, av_sip_protocol_call_end_free_state]

/-- Call end for the held call, for a termination event of that call or on leaving the loop,
when the exit command cannot be allocated: nothing is written and the audio thread is
neither joined nor cleared, while held event, connection and call path are cleared. -/
theorem call_end_matching_without_command (env : Env) (s : av_sip_state)
    (e : Option eXosip_event) (held : eXosip_event)
    (hheld : s.current_call_event = some held)
    (hcid : ∀ ev, e = some ev → ev.cid = held.cid) (halloc : env.cmd_alloc = false) :
    av_sip_protocol_call_end env s e =
      some ({ s with current_call_event := none, current_call_connection := none,
                     current_call_path := none },
            [Effect.eXosip_event_free held]) := by
  unfold av_sip_protocol_call_end
  cases e with
  | none => simp [hheld, halloc, av_thread_cmd_new, av_sip_protocol_call_end_free_state]
  | some ev =>
    have := hcid ev rfl
    simp [hheld, halloc, this, av_thread_cmd_new, av_sip_protocol_call_end_free_state]

/-- Stage 0 before any configuration is stored: an INVITE that carries a From user makes the
user name check read a null configuration. -/
theorem stage0_without_configuration (L : Lib) (env : Env) (s : av_sip_state)
    (e : eXosip_event) (user : String) (hslot : s.current_call_event = none)
    (hconf : s.sipconf = none) (hfrom : from_user e = some user) :
    av_sip_protocol_call_stage0 L env s e = none := by
  have hu : av_sip_protocol_call_stage0_check_username s e = none := by
    rw [check_username_eq, hfrom]
    simp [hconf]
  unfold av_sip_protocol_call_stage0
  simp [hslot, hu]

/-! ## The claims -/

/-- One run of the poll loop keeps the slot populated or empty. -/
theorem loop_keeps_slot (L : Lib) (s s1 : av_sip_state) (p : PollResult) (r : Int)
    (tr : List Effect) (halloc : p.cmd_alloc = true)
    (hinv : slot_populated s ∨ slot_empty s)
    (h : av_sip_loop L s p = some (r, s1, tr)) : slot_populated s1 ∨ slot_empty s1 := by
  cases p with
  | failure =>
    simp only [av_sip_loop, Option.some.injEq, Prod.mk.injEq] at h
    rw [← h.2.1]; exact hinv
  | core_msg env cmd => exact core_msg_keeps_slot env s s1 cmd r tr hinv h
  | sip_events events =>
    simp only [av_sip_loop, av_sip_protocol_events] at h
    cases hl : av_sip_protocol_events_loop L 0 s events with
    | none => simp [hl] at h
    | some q =>
      obtain ⟨s2, tr2⟩ := q
      simp only [hl, Option.some.injEq, Prod.mk.injEq] at h
      rw [← h.2.1]
      refine events_loop_keeps_slot L events 0 s s2 tr2 ?_ hinv hl
      intro q hq
      exact List.all_eq_true.mp halloc q hq
  | timer =>
    simp only [av_sip_loop, av_sip_protocol_automatic_action, Option.some.injEq,
      Prod.mk.injEq] at h
    rw [← h.2.1]; exact hinv
  | audio_msg env cmd => exact audio_msg_keeps_slot env s s1 cmd r tr hinv h
  | nothing =>
    simp only [av_sip_loop, Option.some.injEq, Prod.mk.injEq] at h
    rw [← h.2.1]; exact hinv

/-- The start state registers `alice` and becomes `state_idle`. -/
theorem run_register_alice :
    av_sip_loop refLib (av_sip_state_init sip_thread)
        (PollResult.core_msg env_ok
          (some { msgtype := SIP_CMD_REGISTER, payload := Payload.config config_alice })) =
      some (0, state_idle, [Effect.register_send_register 1 config_alice]) := by
  decide

/-- The idle actor accepts the INVITE of `alice` and becomes `state_in_call`. -/
theorem run_accept_invite :
    av_sip_loop refLib state_idle (PollResult.sip_events [(env_ok, invite_valid)]) =
      some (0, state_in_call, [Effect.av_thread_setup (some audio_thread)]) := by
  decide

/-- The closing of the held call is drained while no command record can be allocated. -/
theorem run_close_without_exit_command :
    av_sip_loop refLib state_in_call (PollResult.sip_events [(env_no_cmd, event_closed)]) =
      some (0, state_half_cleared,
        [Effect.eXosip_event_free invite_valid, Effect.eXosip_event_free event_closed]) := by
  decide

/-- C1 as stated fails: the actor registers, accepts the INVITE of `alice` and then drains
the closing of that call while no command record can be allocated.  Call end clears the held
event and the connection and keeps the audio thread, so the slot is neither populated nor
empty. -/
theorem slot_half_cleared_without_exit_command :
    av_sip_loop refLib (av_sip_state_init sip_thread)
        (PollResult.core_msg env_ok
          (some { msgtype := SIP_CMD_REGISTER, payload := Payload.config config_alice })) =
      some (0, state_idle, [Effect.register_send_register 1 config_alice])
    ∧ av_sip_loop refLib state_idle (PollResult.sip_events [(env_ok, invite_valid)]) =
      some (0, state_in_call, [Effect.av_thread_setup (some audio_thread)])
    ∧ av_sip_loop refLib state_in_call (PollResult.sip_events [(env_no_cmd, event_closed)]) =
      some (0, state_half_cleared,
        [Effect.eXosip_event_free invite_valid, Effect.eXosip_event_free event_closed])
    ∧ ¬ (slot_populated state_half_cleared ∨ slot_empty state_half_cleared) := by
  refine ⟨run_register_alice, run_accept_invite, run_close_without_exit_command, ?_⟩
  rintro (h | h)
  · exact absurd h.1 (by decide)
  · exact absurd h.2.2.2 (by decide)

/-- C1 amended: in every state the SIP actor reaches through its handlers (the drain loop
with stage 0 and call termination, the commands of the main thread, the events of the audio
thread, the closing call end) in runs in which every command record can be allocated, the
current-call slot is fully populated (held event, connection and audio thread all there)
or fully empty (held event, connection, call path and audio thread all absent). -/
theorem slot_populated_or_empty_of_reachable (L : Lib) (t : av_thread) (s : av_sip_state)
    (h : Reachable L t s) : slot_populated s ∨ slot_empty s := by
  induction h with
  | init => right; exact ⟨rfl, rfl, rfl, rfl⟩
  | loop s0 s1 p r tr _ halloc hstep ih => exact loop_keeps_slot L s0 s1 p r tr halloc ih hstep
  | call_end s0 s1 env tr _ halloc hstep ih =>
    exact call_end_keeps_slot env s0 s1 none tr halloc ih hstep

/-- Witness for C1 amended: the state after the valid INVITE is reachable, and its slot is
populated or empty. -/
theorem slot_populated_or_empty_of_reachable_witness :
    slot_populated state_in_call ∨ slot_empty state_in_call :=
  slot_populated_or_empty_of_reachable refLib sip_thread state_in_call
    (Reachable.loop (av_sip_state_init sip_thread)
        { av_sip_state_init sip_thread with reg_id := 1, sipconf := some config_alice }
        (PollResult.core_msg env_ok
          (some { msgtype := SIP_CMD_REGISTER, payload := Payload.config config_alice }))
        0 [Effect.register_send_register 1 config_alice]
        Reachable.init (by decide) (by decide)
      |> fun h0 => Reachable.loop state_idle state_in_call
        (PollResult.sip_events [(env_ok, invite_valid)]) 0
        [Effect.av_thread_setup (some audio_thread)] h0 (by decide) (by decide))

/-- Stage 0 on an offer with one audio connection: an INVITE arrives while the slot is
empty, its From user is the configured user name, and in its offer the first audio media
that lists a payload mapped to PCMU/8000 lists payload 0 with `a=rtpmap:0 PCMU/8000` and has
a port string whose integer value is even and in [2, 65534]; the connection the library
picks for the offer is `IN IP4 addr`.  When the audio thread can be created and the
connection record allocated, stage 0 returns 1, holds the event and stores the connection
`addr`, that port, the configured audio port, direction incoming. -/
theorem stage0_accepts_valid_invite (L : Lib) (env : Env) (s : av_sip_state)
    (e : eXosip_event) (conf : av_modem_config) (user : String) (sdp : sdp_message)
    (pre post : List sdp_media) (m : sdp_media) (addr port : String) (t : av_thread)
    (hslot : s.current_call_event = none)
    (hconf : s.sipconf = some conf) (huser : conf.username = some user)
    (hfrom : from_user e = some user)
    (hsdp : e.remote_sdp = some sdp) (hmedias : sdp.m_medias = pre ++ m :: post)
    (hpre : ∀ x ∈ pre, x.m_media = some "audio" → ∀ p ∈ x.m_payloads, ¬ has_rtpmap x p)
    (haudio : m.m_media = some "audio") (hpayload : "0" ∈ m.m_payloads)
    (hrtpmap : { a_att_field := some "rtpmap", a_att_value := some "0 PCMU/8000" }
      ∈ m.a_attributes)
    (hconn : L.eXosip_get_audio_connection sdp
      = some { c_nettype := some "IN", c_addrtype := some "IP4", c_addr := some addr })
    (hport : m.m_port = some port)
    (heven : L.atoi port % 2 = 0) (hlo : 2 ≤ L.atoi port) (hhi : L.atoi port ≤ 65534)
    (hspawn : env.thread_setup = some t) (halloc : env.connection_alloc = true) :
    av_sip_protocol_call_stage0 L env s e =
      some (1,
        { s with
          current_call_event := some e,
          current_call_connection := some
            { addr := some addr, port := L.atoi port, call_direction := SIP_CALL_INCOMING,
              serial_device := conf.modem_audio_port },
          audiothread := some t,
          poll_fd3 := t.sockets0 },
        [Effect.av_thread_setup (some t)]) := by
  have hget : sdp.m_medias.get? pre.length = some m := by
    rw [hmedias, List.get?_eq_getElem?, List.getElem?_append_right (le_refl _)]; simp
  have hsetup : av_sip_protocol_call_stage0_connection_setup L env s sdp pre.length none
      = some (0, some { addr := some addr, port := L.atoi port, call_direction := 0,
                        serial_device := conf.modem_audio_port }) := by
    unfold av_sip_protocol_call_stage0_connection_setup
    have hp : sdp_message_m_port_get sdp pre.length = some port := by
      unfold sdp_message_m_port_get; rw [hget]; exact hport
    have hcs : av_sip_protocol_call_stage0_connection_check_supported L
        { c_nettype := some "IN", c_addrtype := some "IP4", c_addr := some addr } port
        = L.atoi port := by
      rw [check_supported_eq]
      have h0 : 0 ≤ L.atoi port := by omega
      simp [h0, heven, hhi]
    have hne : L.atoi port ≠ 0 := by omega
    simp [hconn, hp, hcs, hne, hconf, av_sip_rtp_connection_alloc, halloc]
  have hmatch : has_rtpmap m "0" := ⟨_, hrtpmap, rfl, by decide⟩
  have hcheck : av_sip_protocol_call_stage0_check_audio_media_payload L env s sdp
      pre.length none
      = some (0, some { addr := some addr, port := L.atoi port, call_direction := 0,
                        serial_device := conf.modem_audio_port }) := by
    unfold av_sip_protocol_call_stage0_check_audio_media_payload
    simp only [hget, Option.elim]
    exact payload_loop_match L env s sdp pre.length m hget m.m_payloads none _ hsetup
      ⟨"0", hpayload, hmatch⟩
  have hloop : av_sip_protocol_call_stage0_handle_remote_sdp_loop L env s sdp 0 sdp.m_medias
      none = some (1, some { addr := some addr, port := L.atoi port, call_direction := 0,
                             serial_device := conf.modem_audio_port }) := by
    rw [hmedias, media_loop_skip L env s sdp pre (m :: post) 0 none (by simpa using hmedias) hpre,
      Nat.zero_add]
    rw [av_sip_protocol_call_stage0_handle_remote_sdp_loop]
    simp [g_strcmp0_eq_zero_iff, haudio, hcheck]
  have huser1 : av_sip_protocol_call_stage0_check_username s e = some 0 := by
    rw [check_username_eq, hfrom]
    simp [hconf, huser]
  unfold av_sip_protocol_call_stage0
  simp [hslot, huser1, av_sip_protocol_call_stage0_handle_remote_sdp, hsdp, hloop,
    av_sip_start_audio_thread, hspawn]

/-- Stage 0 on the offer `m=audio 20000 RTP/AVP 0`, `a=rtpmap:0 PCMU/8000`,
`c=IN IP4 192.0.2.9` from the configured user. -/
theorem stage0_accepts_valid_invite_witness :
    av_sip_protocol_call_stage0 refLib env_ok state_idle invite_valid =
      some (1, state_in_call, [Effect.av_thread_setup (some audio_thread)]) :=
  stage0_accepts_valid_invite refLib env_ok state_idle invite_valid config_alice "alice"
    offer_pcmu [] [] _ "192.0.2.9" "20000" audio_thread rfl rfl rfl rfl rfl rfl
    (by simp) rfl (by decide) (by decide) (by decide) rfl (by decide) (by decide) (by decide)
    rfl rfl

/-- Stage 0 on the offer with two audio medias stores the port of the second with the
address of the first. -/
theorem stage0_two_audio_medias :
    av_sip_protocol_call_stage0 refLib env_ok state_idle (invite_of "alice" offer_two_audio) =
      some (1,
        { state_idle with
          current_call_event := some (invite_of "alice" offer_two_audio),
          current_call_connection := some
            { addr := some "198.51.100.1", port := 20000,
              call_direction := SIP_CALL_INCOMING, serial_device := some "/dev/ttyUSB2" },
          audiothread := some audio_thread,
          poll_fd3 := 9 },
        [Effect.av_thread_setup (some audio_thread)]) := by
  decide

/-- Stage 0 on the valid INVITE reads the connection record through a null pointer when the
record cannot be allocated. -/
theorem stage0_without_connection_record :
    av_sip_protocol_call_stage0 refLib env_no_connection state_idle invite_valid = none := by
  decide

/-- C2 on the code: the offer has two audio medias, of which the second lists payload 0
with `a=rtpmap:0 PCMU/8000`, port 20000 and `c=IN IP4 192.0.2.9`.  Stage 0 accepts the
INVITE and stores the port of that media with the address 198.51.100.1, which is the
connection of the first audio media.  And when the connection record cannot be allocated,
stage 0 on the offer of the claim's witness has no result: connection setup returns 0 with
no record and stage 0 reads the address through the null pointer. -/
theorem stage0_pairs_port_with_other_address :
    av_sip_protocol_call_stage0 refLib env_ok state_idle (invite_of "alice" offer_two_audio) =
      some (1,
        { state_idle with
          current_call_event := some (invite_of "alice" offer_two_audio),
          current_call_connection := some
            { addr := some "198.51.100.1", port := 20000,
              call_direction := SIP_CALL_INCOMING, serial_device := some "/dev/ttyUSB2" },
          audiothread := some audio_thread,
          poll_fd3 := 9 },
        [Effect.av_thread_setup (some audio_thread)])
    ∧ av_sip_protocol_call_stage0 refLib env_no_connection state_idle invite_valid = none :=
  ⟨stage0_two_audio_medias, stage0_without_connection_record⟩

/-- C3 on the code: an offer whose only mapping is `a=rtpmap:96 PCMU/8000` on payload 96 is
accepted by stage 0: the result is 1, the event is held and the audio thread is spawned,
although payload 0 is neither listed nor mapped. -/
theorem stage0_accepts_pcmu_on_payload_96 :
    av_sip_protocol_call_stage0 refLib env_ok state_idle (invite_of "alice" offer_pcmu_96) =
      some (1,
        { state_in_call with current_call_event := some (invite_of "alice" offer_pcmu_96) },
        [Effect.av_thread_setup (some audio_thread)]) := by
  decide

/-- C5: an INVITE whose From header is missing, has no URI or no user part, or whose user
differs from the configured user name, makes stage 0 return 0 with the state unchanged and
nothing spawned; the event handler then frees the event. -/
theorem stage0_rejects_foreign_from_user (L : Lib) (env : Env) (s : av_sip_state)
    (e : eXosip_event) (hty : e.type = eXosip_event_type.EXOSIP_CALL_INVITE)
    (hfrom : from_user e = none ∨
      ∃ conf user, s.sipconf = some conf ∧ from_user e = some user
        ∧ conf.username ≠ some user) :
    av_sip_protocol_call_stage0 L env s e = some (0, s, [])
    ∧ av_sip_protocol_events L s [(env, e)] = some (0, s, [Effect.eXosip_event_free e]) := by
  have h0 : av_sip_protocol_call_stage0 L env s e = some (0, s, []) := by
    cases hheld : s.current_call_event.isSome with
    | true => exact stage0_slot_held L env s e hheld
    | false =>
      apply stage0_username_rejected
      rw [check_username_eq]
      rcases hfrom with hnone | ⟨conf, user, hconf, huser, hne⟩
      · rw [hnone]
      · rw [huser]
        simp [hconf, hne]
  refine ⟨h0, ?_⟩
  rw [events_single_invite L env s e hty, h0]
  simp

/-- Witness for C5: the From user `attacker` against the configured user `alice`. -/
theorem stage0_rejects_foreign_from_user_witness :
    av_sip_protocol_call_stage0 refLib env_ok state_idle (invite_of "attacker" offer_pcmu)
      = some (0, state_idle, [])
    ∧ av_sip_protocol_events refLib state_idle [(env_ok, invite_of "attacker" offer_pcmu)]
      = some (0, state_idle, [Effect.eXosip_event_free (invite_of "attacker" offer_pcmu)]) :=
  stage0_rejects_foreign_from_user refLib env_ok state_idle (invite_of "attacker" offer_pcmu)
    rfl (Or.inr ⟨config_alice, "attacker", rfl, rfl, by decide⟩)

/-- C6: while the slot holds an INVITE event, stage 0 on any further event returns 0, leaves
the whole state as it was and calls nothing outside the actor, so no second audio thread is
spawned. -/
theorem stage0_rejects_second_invite (L : Lib) (env : Env) (s : av_sip_state)
    (e held : eXosip_event) (hheld : s.current_call_event = some held) :
    av_sip_protocol_call_stage0 L env s e = some (0, s, []) :=
  stage0_slot_held L env s e (by rw [hheld]; rfl)

/-- Witness for C6: a second valid INVITE while the first call is held. -/
theorem stage0_rejects_second_invite_witness :
    av_sip_protocol_call_stage0 refLib env_ok state_in_call
      { invite_valid with ptr := 104, cid := 18 } = some (0, state_in_call, []) :=
  stage0_rejects_second_invite refLib env_ok state_in_call
    { invite_valid with ptr := 104, cid := 18 } invite_valid rfl

/-- Stage 0 with a configuration stored: an INVITE whose offer has no audio media with an
`rtpmap` attribute for PCMU/8000 makes stage 0 return 0 with the state unchanged (an empty
slot stays empty) and nothing spawned; the event handler then frees the event. -/
theorem stage0_rejects_offer_without_pcmu (L : Lib) (env : Env) (s : av_sip_state)
    (e : eXosip_event) (conf : av_modem_config)
    (hty : e.type = eXosip_event_type.EXOSIP_CALL_INVITE)
    (hconf : s.sipconf = some conf)
    (hsdp : ∀ sdp, e.remote_sdp = some sdp →
      ∀ m ∈ sdp.m_medias, m.m_media = some "audio" → ∀ p, ¬ has_rtpmap m p) :
    av_sip_protocol_call_stage0 L env s e = some (0, s, [])
    ∧ av_sip_protocol_events L s [(env, e)] = some (0, s, [Effect.eXosip_event_free e]) := by
  have h0 : av_sip_protocol_call_stage0 L env s e = some (0, s, []) := by
    cases hheld : s.current_call_event.isSome with
    | true => exact stage0_slot_held L env s e hheld
    | false =>
      have hsdp1 : av_sip_protocol_call_stage0_handle_remote_sdp L env s e none
          = some (1, none) := by
        unfold av_sip_protocol_call_stage0_handle_remote_sdp
        cases hr : e.remote_sdp with
        | none => rfl
        | some sdp =>
          have hl := media_loop_skip L env s sdp sdp.m_medias [] 0 none (by simp)
            (fun x hx ha p _ => hsdp sdp hr x hx ha p)
          rw [List.append_nil] at hl
          simp only [hl, av_sip_protocol_call_stage0_handle_remote_sdp_loop]
          simp
      have hu := check_username_eq s e
      unfold av_sip_protocol_call_stage0
      cases hfu : from_user e with
      | none =>
        rw [hfu] at hu
        simp [hheld, hu]
      | some user =>
        rw [hfu] at hu
        simp only [hconf] at hu
        by_cases hc : conf.username = some user
        · simp only [hc, if_true] at hu
          simp [hheld, hu, hsdp1]
        · simp only [hc, if_false] at hu
          simp [hheld, hu]
  refine ⟨h0, ?_⟩
  rw [events_single_invite L env s e hty, h0]
  simp

/-- Stage 0 of the registered actor on an offer whose only mapping is
`a=rtpmap:8 PCMA/8000`. -/
theorem stage0_rejects_offer_without_pcmu_witness :
    av_sip_protocol_call_stage0 refLib env_ok state_idle (invite_of "alice" offer_pcma)
      = some (0, state_idle, [])
    ∧ av_sip_protocol_events refLib state_idle [(env_ok, invite_of "alice" offer_pcma)]
      = some (0, state_idle, [Effect.eXosip_event_free (invite_of "alice" offer_pcma)]) :=
  stage0_rejects_offer_without_pcmu refLib env_ok state_idle (invite_of "alice" offer_pcma)
    config_alice rfl rfl (by
      intro sdp hs m hm _ p hp
      have hs1 : offer_pcma = sdp := Option.some.inj hs
      subst hs1
      have hm1 : m = media_pcma := by simpa [offer_pcma] using hm
      subst hm1
      obtain ⟨a, ha, _, hv⟩ := hp
      have ha1 : a = { a_att_field := some "rtpmap", a_att_value := some "8 PCMA/8000" } := by
        simpa [media_pcma] using ha
      subst ha1
      have hv1 : "8 PCMA/8000" = p ++ " " ++ "PCMU/8000" := Option.some.inj hv
      have hsfx := rtpmap_value_suffix p
      rw [← hv1] at hsfx
      exact absurd hsfx (by decide))

/-- C7 on the code: an INVITE of `alice` whose offer maps PCMA only arrives before any
configuration is stored.  The user name check reads the configuration through a null
pointer: stage 0 has no result, and neither has the event handler, which frees nothing. -/
theorem stage0_reads_null_configuration :
    av_sip_protocol_call_stage0 refLib env_ok (av_sip_state_init sip_thread)
        (invite_of "alice" offer_pcma) = none
    ∧ av_sip_loop refLib (av_sip_state_init sip_thread)
        (PollResult.sip_events [(env_ok, invite_of "alice" offer_pcma)]) = none :=
  ⟨by decide, by decide⟩

/-- C8 as stated fails: the peer closes the held call while the exit command cannot be
allocated.  Call end writes nothing and joins nothing; the held event is freed and held
event, connection and call path are cleared, and the audio thread stays in the state. -/
theorem call_end_keeps_audio_thread_without_command :
    av_sip_protocol_call_end env_no_cmd state_in_call (some event_closed) =
      some (state_half_cleared, [Effect.eXosip_event_free invite_valid])
    ∧ state_half_cleared.audiothread = some audio_thread :=
  ⟨by decide, rfl⟩

/-- C8 amended: a call-termination event `e` arrives while the slot is populated.  When the
call id of `e` is that of the held event and the exit command can be allocated, call end
writes `CMD_AUDIO_EXIT` to the audio thread, joins it, frees the held event, and leaves held
event, connection, call path and audio thread absent.  When the call id is that of the held
event and the exit command cannot be allocated, nothing is written or joined and the audio
thread stays, while the held event is freed and held event, connection and call path are
left absent.  When the call id differs, or the slot holds no event, nothing is written and
the state is unchanged.  The event handler runs call end for the three termination events
and then frees `e`. -/
theorem call_end_spec (L : Lib) (env : Env) (s : av_sip_state) (e held : eXosip_event)
    (hpop : slot_populated s) (hheld : s.current_call_event = some held) :
    (e.cid = held.cid → env.cmd_alloc = true → ∃ t, s.audiothread = some t ∧
      av_sip_protocol_call_end env s (some e) =
        some ({ s with current_call_event := none, current_call_connection := none,
                       current_call_path := none, audiothread := none, poll_fd3 := -1 },
              [Effect.av_thread_txcmd t { msgtype := CMD_AUDIO_EXIT, payload := Payload.null } 0,
               Effect.av_thread_teardown t, Effect.eXosip_event_free held]))
    ∧ (e.cid = held.cid → env.cmd_alloc = false →
      av_sip_protocol_call_end env s (some e) =
        some ({ s with current_call_event := none, current_call_connection := none,
                       current_call_path := none },
              [Effect.eXosip_event_free held]))
    ∧ (e.cid ≠ held.cid → av_sip_protocol_call_end env s (some e) = some (s, []))
    ∧ (∀ s0 : av_sip_state, s0.current_call_event = none →
        av_sip_protocol_call_end env s0 (some e) = some (s0, []))
    ∧ (e.type = eXosip_event_type.EXOSIP_CALL_CLOSED
        ∨ e.type = eXosip_event_type.EXOSIP_CALL_CANCELLED
        ∨ e.type = eXosip_event_type.EXOSIP_CALL_RELEASED →
      av_sip_protocol_events L s [(env, e)] =
        match av_sip_protocol_call_end env s (some e) with
        | none => none
        | some (s1, tr) => some (0, s1, tr ++ [Effect.eXosip_event_free e])) := by
  refine ⟨?_, ?_, ?_, ?_, ?_⟩
  · intro hcid halloc
    cases ht : s.audiothread with
    | none =>
      have := hpop.2.2
      rw [ht] at this
      cases this
    | some t =>
      refine ⟨t, rfl, ?_⟩
      exact call_end_matching env s (some e) held t hheld ht
        (fun ev hev => by cases hev; exact hcid) halloc
  · intro hcid halloc
    exact call_end_matching_without_command env s (some e) held hheld
      (fun ev hev => by cases hev; exact hcid) halloc
  · intro hcid
    exact call_end_other_call env s e held hheld hcid
  · intro s0 h0
    exact call_end_no_call env s0 (some e) h0
  · intro hty
    exact events_single_termination L env s e hty

/-- Witness for C8 amended: the peer closes the held call. -/
theorem call_end_spec_witness :
    ∃ t, state_in_call.audiothread = some t ∧
      av_sip_protocol_call_end env_ok state_in_call (some event_closed) =
        some (state_after_call,
              [Effect.av_thread_txcmd t { msgtype := CMD_AUDIO_EXIT, payload := Payload.null } 0,
               Effect.av_thread_teardown t, Effect.eXosip_event_free invite_valid]) :=
  (call_end_spec refLib env_ok state_in_call event_closed invite_valid
    ⟨rfl, rfl, rfl⟩ rfl).1 (by decide) rfl

/-- C9 on the code: in one drain a registration event follows an accepted INVITE.  The flag
`keep_event` still holds the result of stage 0, so the registration event is not freed: the
drain frees nothing at all. -/
theorem events_keep_flag_outlives_invite :
    av_sip_protocol_events refLib state_idle
        [(env_ok, invite_valid), (env_ok, event_registered)] =
      some (0, state_in_call, [Effect.av_thread_setup (some audio_thread)])
    ∧ av_sip_protocol_events refLib state_idle
        [(env_ok, invite_valid), (env_ok, event_closed_other)] =
      some (0, state_in_call, [Effect.av_thread_setup (some audio_thread)]) :=
  ⟨by decide, by decide⟩

/-- C10 on the code: the audio thread cannot be created for a valid INVITE.  Stage 0 runs
call end with no audio thread: with an exit command at hand the command is written through
the null thread pointer and the drain has no result; when the command cannot be allocated
either, call end frees the event and the drain frees it a second time. -/
theorem invite_freed_twice_on_spawn_failure :
    av_sip_protocol_events refLib state_idle [(env_no_thread, invite_valid)] = none
    ∧ av_sip_protocol_events refLib state_idle [(env_no_thread_no_cmd, invite_valid)] =
        some (0, state_idle,
          [Effect.av_thread_setup none, Effect.eXosip_event_free invite_valid,
           Effect.eXosip_event_free invite_valid]) :=
  ⟨by decide, by decide⟩

/-! ## The claims on the answer, registration, the thread pipe, the audio pump and the modem table -/

/-- The SDP builder in closed form when its stack calls succeed. -/
theorem build_sdp_eq (env : Env) (s : av_sip_state) (conf : av_modem_config) (P : Int)
    (hconf : s.sipconf = some conf)
    (h1 : env.sdp_message_init = 0) (h2 : env.sdp_message_m_media_add = 0)
    (h3 : env.sdp_message_c_connection_add = 0) (h4 : env.sdp_message_a_attribute_add = 0) :
    av_sip_protocol_call_build_sdp env s P none =
      some (0, some (sdp_answer_described conf.sip_local_ip_addr (toString env.random1)
        (toString env.random2) P)) := by
  unfold av_sip_protocol_call_build_sdp
  simp [hconf, h1, h2, h3, h4, sdp_answer_described, sdp_media_update]

/-- Stage 1 in closed form when the stack calls before the sending succeed. -/
theorem stage1_eq (env : Env) (s : av_sip_state) (conf : av_modem_config)
    (held : eXosip_event) (P : Int)
    (hconf : s.sipconf = some conf) (hheld : s.current_call_event = some held)
    (hlib : stage1_stack_ok env) :
    av_sip_protocol_call_stage1 env s P =
      some (if env.call_send_answer ≠ 0 then 1 else 0,
        [Effect.call_send_answer held.tid 183
          (sdp_answer_described conf.sip_local_ip_addr (toString env.random1)
            (toString env.random2) P)]) := by
  obtain ⟨b0, b1, b2, b3, b4, b5, b6, b7⟩ := hlib
  unfold av_sip_protocol_call_stage1
  rw [build_sdp_eq env s conf P hconf b1 b2 b3 b4]
  simp only [hheld, b0, b5, b6, b7]
  by_cases hs : env.call_send_answer = 0 <;> simp [hs]

/-- The event `AUDIO_EVENT_RTP_OK` with a held call: the port is cached and the loop goes on. -/
theorem audio_msg_rtp_ok (env : Env) (s : av_sip_state) (held : eXosip_event) (t : av_thread)
    (P : Int) (hheld : s.current_call_event = some held) (ht : s.audiothread = some t) :
    ∃ tr, av_sip_audio_msg env s (some { msgtype := AUDIO_EVENT_RTP_OK, payload := Payload.int P })
      = some (0, { s with local_rtp_port := P }, tr) := by
  unfold av_sip_audio_msg
  simp only [ht, hheld, AUDIO_EVENT_RTP_OK, AUDIO_EVENT_READY]
  cases hd : av_sip_protocol_call_stage0_extract_dest_number held.request with
  | none => exact ⟨[], by simp⟩
  | some number =>
    cases ha : av_thread_cmd_new env SIP_EVENT_INCOMING_CALL Payload.null with
    | none => exact ⟨[], by simp [ha]⟩
    | some c => exact ⟨_, by simp [ha]; rfl⟩

/-- C11: the audio thread reports `AUDIO_EVENT_RTP_OK` with local port `P` for the held
call, then `SIP_CMD_CALL_IN_PROGRESS` is handled and the stack calls succeed.  The SDP
builder is run for port `P` and yields version 0, the origin `airvoice ... IN IP4` at the
configured local address, session name DongleCall, the session-level connection `IN IP4` at
that address and the one media `audio P RTP/AVP 0` with the single attribute
`rtpmap:0 PCMU/8000`; this answer is what the 183 response is sent with. -/
theorem sdp_answer_of_call_in_progress (env1 env2 : Env) (s : av_sip_state)
    (conf : av_modem_config) (held : eXosip_event) (t : av_thread) (P : Int)
    (path : Option String)
    (hconf : s.sipconf = some conf) (hheld : s.current_call_event = some held)
    (ht : s.audiothread = some t) (hlib : stage1_stack_ok env2) :
    ∃ s1 tr1,
      av_sip_audio_msg env1 s (some { msgtype := AUDIO_EVENT_RTP_OK, payload := Payload.int P })
        = some (0, s1, tr1)
      ∧ av_sip_protocol_call_build_sdp env2 s1 s1.local_rtp_port none =
          some (0, some (sdp_answer_described conf.sip_local_ip_addr (toString env2.random1)
            (toString env2.random2) P))
      ∧ av_sip_core_msg env2 s1
          (some { msgtype := SIP_CMD_CALL_IN_PROGRESS, payload := path_payload path }) =
          some (if env2.call_send_answer ≠ 0 then 1 else 0,
            { s1 with current_call_path := path },
            [Effect.call_send_answer held.tid 183
              (sdp_answer_described conf.sip_local_ip_addr (toString env2.random1)
                (toString env2.random2) P)]) := by
  obtain ⟨tr1, h1⟩ := audio_msg_rtp_ok env1 s held t P hheld ht
  obtain ⟨b0, b1, b2, b3, b4, b5, b6, b7⟩ := hlib
  refine ⟨_, tr1, h1, ?_, ?_⟩
  · exact build_sdp_eq env2 _ conf P hconf b1 b2 b3 b4
  · have hp : (path_payload path).as_string = some path := by
      cases path <;> rfl
    have hst := stage1_eq env2 { s with local_rtp_port := P, current_call_path := path } conf
      held P hconf hheld ⟨b0, b1, b2, b3, b4, b5, b6, b7⟩
    unfold av_sip_core_msg
    simp only [SIP_CMD_CALL_IN_PROGRESS, SIP_CMD_EXIT, SIP_CMD_REGISTER, hp]
    rw [hst]
    simp

/-- Witness for C11: the call of the valid INVITE, local port 40000. -/
theorem sdp_answer_of_call_in_progress_witness :
    ∃ s1 tr1,
      av_sip_audio_msg env_ok state_in_call
          (some { msgtype := AUDIO_EVENT_RTP_OK, payload := Payload.int 40000 })
        = some (0, s1, tr1)
      ∧ av_sip_protocol_call_build_sdp env_ok s1 s1.local_rtp_port none =
          some (0, some (sdp_answer_described (some "192.0.2.1") "0" "0" 40000))
      ∧ av_sip_core_msg env_ok s1
          (some { msgtype := SIP_CMD_CALL_IN_PROGRESS,
                  payload := path_payload (some "/org/freedesktop/ModemManager1/Call/0") }) =
          some (0,
            { s1 with current_call_path := some "/org/freedesktop/ModemManager1/Call/0" },
            [Effect.call_send_answer 11 183
              (sdp_answer_described (some "192.0.2.1") "0" "0" 40000)]) :=
  sdp_answer_of_call_in_progress env_ok env_ok state_in_call config_alice invite_valid
    audio_thread 40000 (some "/org/freedesktop/ModemManager1/Call/0") rfl rfl rfl
    ⟨rfl, rfl, rfl, rfl, rfl, rfl, rfl, rfl⟩

/-- Registration of a configuration with an absent field is refused. -/
theorem regconf_incomplete (env : Env) (s : av_sip_state) (msgtype : Int)
    (conf : av_modem_config) (h : config_complete conf = false) :
    av_sip_regconf env s { msgtype := msgtype, payload := Payload.config conf } =
      some (1, s, [Effect.av_config_free conf]) := by
  unfold av_sip_regconf
  have hn : ¬ (conf.username.isSome = true ∧ conf.password.isSome = true
      ∧ conf.sip_host.isSome = true ∧ conf.sip_id.isSome = true
      ∧ conf.modem_audio_port.isSome = true ∧ conf.sip_local_ip_addr.isSome = true) := by
    intro hc
    simp [config_complete, hc.1, hc.2.1, hc.2.2.1, hc.2.2.2.1, hc.2.2.2.2.1, hc.2.2.2.2.2] at h
  simp only [hn, if_false]

/-- Registration of a complete configuration goes on to the stack. -/
theorem regconf_complete (env : Env) (s : av_sip_state) (msgtype : Int)
    (conf : av_modem_config) (h : config_complete conf = true) :
    av_sip_regconf env s { msgtype := msgtype, payload := Payload.config conf } =
      some ((av_sip_stackconfig env s conf).1, (av_sip_stackconfig env s conf).2.1,
        if (av_sip_stackconfig env s conf).1 ≠ 0
        then (av_sip_stackconfig env s conf).2.2 ++ [Effect.av_config_free conf]
        else (av_sip_stackconfig env s conf).2.2) := by
  unfold av_sip_regconf
  have hc : conf.username.isSome = true ∧ conf.password.isSome = true
      ∧ conf.sip_host.isSome = true ∧ conf.sip_id.isSome = true
      ∧ conf.modem_audio_port.isSome = true ∧ conf.sip_local_ip_addr.isSome = true := by
    simpa [config_complete, and_assoc] using h
  simp only [hc, and_self, if_true]
  by_cases hr : (av_sip_stackconfig env s conf).1 = 0 <;> simp [hr]

/-- C12 as stated fails: a configuration whose audio port is the empty string is not
refused.  The REGISTER is built and sent, the configuration is stored and the result is 0. -/
theorem regconf_accepts_empty_audio_port :
    av_sip_regconf env_ok (av_sip_state_init sip_thread)
        { msgtype := SIP_CMD_REGISTER, payload := Payload.config config_empty_audio_port } =
      some (0,
        { av_sip_state_init sip_thread with
          reg_id := 1, sipconf := some config_empty_audio_port },
        [Effect.register_send_register 1 config_empty_audio_port]) := by
  decide

/-- C12 amended: registration sends a REGISTER or stores the configuration only if every one
of the six fields is present; when some field is absent it is refused: the result is 1, the
state is unchanged and no REGISTER is sent.  With every field present and the stack calls
succeeding, the REGISTER is sent, the configuration is stored and the result is 0.  For a
configuration with every field present the result is the result of `av_sip_stackconfig`,
and it is the same whatever strings, empty or not, the audio port and the local address
are. -/
theorem regconf_requires_present_fields (env : Env) (s : av_sip_state) (msgtype : Int)
    (conf : av_modem_config) :
    (config_complete conf = false →
      av_sip_regconf env s { msgtype := msgtype, payload := Payload.config conf } =
        some (1, s, [Effect.av_config_free conf]))
    ∧ (∀ r s1 tr,
        av_sip_regconf env s { msgtype := msgtype, payload := Payload.config conf } =
          some (r, s1, tr) →
        (r = 0 ∨ s1.sipconf ≠ s.sipconf
          ∨ (∃ reg_id mc, Effect.register_send_register reg_id mc ∈ tr)) →
        config_complete conf = true)
    ∧ (config_complete conf = true → env.add_authentication_info = 0 →
        1 ≤ env.register_build_initial_register → env.register_send_register = 0 →
        av_sip_regconf env s { msgtype := msgtype, payload := Payload.config conf } =
          some (0,
            { s with reg_id := env.register_build_initial_register, sipconf := some conf },
            [Effect.register_send_register env.register_build_initial_register conf]))
    ∧ (config_complete conf = true →
        (av_sip_regconf env s
          { msgtype := msgtype, payload := Payload.config conf }).map (fun r => r.1)
        = some (av_sip_stackconfig env s conf).1)
    ∧ (config_complete conf = true → ∀ audio_port local_ip : String,
        (av_sip_regconf env s
          { msgtype := msgtype,
            payload := Payload.config
              { conf with modem_audio_port := some audio_port,
                          sip_local_ip_addr := some local_ip } }).map (fun r => r.1)
        = (av_sip_regconf env s
            { msgtype := msgtype, payload := Payload.config conf }).map (fun r => r.1)) := by
  refine ⟨regconf_incomplete env s msgtype conf, ?_, ?_, ?_, ?_⟩
  rotate_left
  · intro hc h1 h2 h3
    rw [regconf_complete env s msgtype conf hc]
    have hlt : ¬ env.register_build_initial_register < 1 := by omega
    simp [av_sip_stackconfig, h1, hlt, h3]
  · intro hc
    rw [regconf_complete env s msgtype conf hc]
    rfl
  · intro hc audio_port local_ip
    have hc2 : config_complete
        { conf with modem_audio_port := some audio_port, sip_local_ip_addr := some local_ip }
        = true := by
      simp only [config_complete, Bool.and_eq_true] at hc ⊢
      exact ⟨⟨⟨⟨⟨hc.1.1.1.1.1, hc.1.1.1.1.2⟩, hc.1.1.1.2⟩, hc.1.1.2⟩, rfl⟩, rfl⟩
    rw [regconf_complete env s msgtype conf hc, regconf_complete env s msgtype _ hc2]
    simp only [Option.map_some', Option.some.injEq]
    unfold av_sip_stackconfig
    dsimp only
    split_ifs <;> rfl
  intro r s1 tr h hdone
  cases hc : config_complete conf with
  | true => rfl
  | false =>
    rw [regconf_incomplete env s msgtype conf hc] at h
    simp only [Option.some.injEq, Prod.mk.injEq] at h
    obtain ⟨hr, hs, htr⟩ := h
    rcases hdone with h0 | hst | ⟨reg_id, mc, hmem⟩
    · rw [← hr] at h0; cases h0
    · rw [← hs] at hst; exact absurd rfl hst
    · rw [← htr] at hmem; simp at hmem

/-- Witness for C12 amended: the configuration without the audio port is refused. -/
theorem regconf_requires_present_fields_witness :
    av_sip_regconf env_ok (av_sip_state_init sip_thread)
        { msgtype := SIP_CMD_REGISTER, payload := Payload.config config_no_audio_port } =
      some (1, av_sip_state_init sip_thread, [Effect.av_config_free config_no_audio_port]) :=
  (regconf_requires_present_fields env_ok (av_sip_state_init sip_thread) SIP_CMD_REGISTER
    config_no_audio_port).1 (by decide)

/-- C14 as stated fails: `av_thread_rxcmd` returns no record to `av_sip_core_msg` and the
loop step of the SIP actor returns 0. -/
theorem loop_step_zero_on_failed_read :
    av_sip_loop refLib state_in_call (PollResult.core_msg env_ok none) =
      some (0, state_in_call, []) := by
  decide

/-- C14 amended: when `av_thread_rxcmd` returns no record, each of the three handlers returns
0 with the state unchanged and nothing done, and the SIP actor goes on with its next poll;
and no handler result depends on what `av_thread_txcmd` returns. -/
theorem handlers_ignore_pipe_failures (L : Lib) (env last : Env) (aenv : AudioEnv)
    (s : av_sip_state) (a : av_audio_state) (t : av_thread) (r : Int)
    (cmd : Option av_thread_cmd) (rest : List PollResult)
    (ht : s.audiothread = some t) :
    av_sip_core_msg env s none = some (0, s, [])
    ∧ av_sip_audio_msg env s none = some (0, s, [])
    ∧ av_audio_sip_msg aenv a none = some (0, a, [])
    ∧ av_sip_run L last s (PollResult.core_msg env none :: rest) = av_sip_run L last s rest
    ∧ av_sip_run L last s (PollResult.audio_msg env none :: rest) = av_sip_run L last s rest
    ∧ av_sip_core_msg { env with txcmd := r } s cmd = av_sip_core_msg env s cmd
    ∧ av_sip_audio_msg { env with txcmd := r } s cmd = av_sip_audio_msg env s cmd
    ∧ av_audio_sip_msg { aenv with txcmd := r } a cmd = av_audio_sip_msg aenv a cmd := by
  have h1 : av_sip_core_msg env s none = some (0, s, []) := rfl
  have h2 : av_sip_audio_msg env s none = some (0, s, []) := by
    unfold av_sip_audio_msg
    simp [ht]
  have hrun : ∀ p, av_sip_loop L s p = some (0, s, []) →
      av_sip_run L last s (p :: rest) = av_sip_run L last s rest := by
    intro p hp
    rw [av_sip_run, hp]
    simp only [ne_eq, not_true_eq_false, if_false]
    cases av_sip_run L last s rest with
    | none => rfl
    | some q => obtain ⟨b, s2, tr⟩ := q; simp
  refine ⟨h1, h2, rfl, hrun _ h1, hrun _ h2, rfl, rfl, rfl⟩

/-- Witness for C14 amended: the SIP actor in a call. -/
theorem handlers_ignore_pipe_failures_witness :
    av_sip_core_msg env_ok state_in_call none = some (0, state_in_call, [])
    ∧ av_sip_audio_msg env_ok state_in_call none = some (0, state_in_call, [])
    ∧ av_audio_sip_msg {} audio_in_call none = some (0, audio_in_call, []) :=
  have h := handlers_ignore_pipe_failures refLib env_ok env_ok {} state_in_call audio_in_call
    audio_thread 1 none [] rfl
  ⟨h.1, h.2.1, h.2.2.1⟩

/-- More fuel than the ten passes the retry counter allows changes nothing. -/
theorem serial_read_loop_fuel (fuel k : Nat) (reads : List SerialRead) (v : serial_read_vars)
    (h : 10 ≤ v.retries + fuel) :
    av_audio_do_serial_read_loop (fuel + k) reads v = av_audio_do_serial_read_loop fuel reads v := by
  induction fuel generalizing reads v with
  | zero =>
    have hr : ¬ v.retries < 10 := by omega
    cases k with
    | zero => rfl
    | succ k => simp [av_audio_do_serial_read_loop, hr]
  | succ fuel ih =>
    have e : fuel + 1 + k = (fuel + k) + 1 := by omega
    rw [e]
    simp only [av_audio_do_serial_read_loop]
    split
    · cases reads.headD SerialRead.eagain with
      | eagain => exact ih _ _ (by simp; omega)
      | fail => rfl
      | data bytes => exact ih _ _ (by simp; omega)
    · rfl

/-- The serial read handler returns 0 whatever the reads report, and the packet it hands
over has the result of the latest read as its length. -/
theorem serial_read_result (a : av_audio_state) (reads : List SerialRead) :
    (av_audio_do_serial_read a reads).1 = 0
    ∧ packet_lengths (av_audio_do_serial_read a reads).2.2
        = [(av_audio_do_serial_read_loop 10 reads {}).nbytes] :=
  ⟨rfl, rfl⟩

/-- C15 on the code: 100 bytes and then 60 bytes are read in one tick.  The buffer holds
all 160 bytes, but the packet is handed over with length 60, the result of the second read. -/
theorem serial_packet_length_is_last_read :
    av_audio_do_serial_read audio_in_call
        [SerialRead.data (List.replicate 100 7), SerialRead.data (List.replicate 60 9)] =
      (0, { audio_in_call with user_ts := 60 },
       [AudioEffect.rtp_session_send_with_ts (some 1)
          (List.replicate 100 7 ++ List.replicate 60 9) 60 0]) := by
  decide

set_option maxRecDepth 20000 in
/-- C16 on the code: a full tick of 160 bytes, a tick in which every read reports `EAGAIN`,
and another full tick.  The packets carry the time stamps 0, 160 and 159 and the lengths
160, -1 and 160: the second packet is handed over with length -1 and the time stamp goes
back by one. -/
theorem timestamp_decreases_after_eagain :
    (av_audio_run {} audio_in_call
        [AudioPoll.serial [SerialRead.data (List.replicate 160 7)],
         AudioPoll.serial [],
         AudioPoll.serial [SerialRead.data (List.replicate 160 7)]]).map
      (fun r => (r.1, packet_timestamps r.2.2, packet_lengths r.2.2)) =
      some (false, [0, 160, 159], [160, -1, 160]) := by
  decide

/-- C17 on the code: the first read of a tick fails with an error other than `EAGAIN`.  The
handler returns 0 after handing over a packet of length -1, the poll step returns 0 and the
actor goes on with its next poll; and the handler returns 0 for every list of outcomes. -/
theorem serial_read_error_not_terminal :
    av_audio_do_poll audio_in_call (AudioPoll.serial [SerialRead.fail]) =
      some (0, { audio_in_call with user_ts := 4294967295 },
        [AudioEffect.rtp_session_send_with_ts (some 1) [] (-1) 0])
    ∧ (av_audio_run {} audio_in_call [AudioPoll.serial [SerialRead.fail]]).map (fun r => r.1)
        = some false
    ∧ ∀ (a : av_audio_state) (reads : List SerialRead), (av_audio_do_serial_read a reads).1 = 0 :=
  ⟨by decide, by decide, fun _ _ => rfl⟩

/-- The search loop returns the first entity of the object when there is one. -/
theorem find_mmobject_loop_match (object : Nat) (m0 : Option AvModem) (pre post : List AvModem)
    (x : AvModem) (hx : x.object = object) (hpre : ∀ y ∈ pre, y.object ≠ object) :
    av_storage_find_mmobject_loop object m0 (pre ++ x :: post) = some x := by
  induction pre generalizing m0 with
  | nil => simp [av_storage_find_mmobject_loop, hx]
  | cons y ys ih =>
    have hy := hpre y (List.mem_cons_self y ys)
    simp only [List.cons_append, av_storage_find_mmobject_loop, hy, if_false]
    exact ih (some y) (fun z hz => hpre z (List.mem_cons_of_mem y hz))

/-- The search loop returns the last entity it has looked at when none matches. -/
theorem find_mmobject_loop_no_match (object : Nat) (m0 : Option AvModem) (l : List AvModem)
    (h : ∀ y ∈ l, y.object ≠ object) :
    av_storage_find_mmobject_loop object m0 l = (l.getLast?).or m0 := by
  induction l generalizing m0 with
  | nil => cases m0 <;> rfl
  | cons y ys ih =>
    have hy := h y (List.mem_cons_self y ys)
    simp only [av_storage_find_mmobject_loop, hy, if_false]
    rw [ih (some y) (fun z hz => h z (List.mem_cons_of_mem y hz))]
    cases ys with
    | nil => rfl
    | cons z zs =>
      rw [List.getLast?_cons_cons, List.getLast?_eq_getLast _ (List.cons_ne_nil z zs)]
      rfl

/-- The search over a table without the object returns the last entity of the table. -/
theorem find_mmobject_no_match (l : List AvModem) (object : Nat)
    (h : ∀ y ∈ l, y.object ≠ object) :
    av_storage_find_mmobject l object = l.getLast? := by
  unfold av_storage_find_mmobject
  rw [find_mmobject_loop_no_match object none l h]
  cases l.getLast? <;> rfl

/-- C18 on the code: the table holds the entity of object 10 and object 20 is announced.
The search returns the entity of object 10, so the new modem is taken for a duplicate: the
result is 1 and nothing is appended.  Only an empty table takes a new entity. -/
theorem addmodem_rejects_second_modem :
    av_storage_find_mmobject [modem_a] 20 = some modem_a
    ∧ av_mm_manager_addmodem 8 main_env_registered [modem_a] 20 = (1, [modem_a], [])
    ∧ av_mm_manager_addmodem 8 main_env_registered [] 20 =
        (0, [{ ptr := 3, object := 20, modem := some 31, modem_signal_statechanged := 3 }],
         [MainEffect.av_mm_voice_init 3]) :=
  ⟨by decide, by decide, by decide⟩

/-- C19 on the code: the table holds the entity of object 10 and the removal of object 20,
which has no entity, is notified.  The search returns the entity of object 10, so that
entity is taken out of the table and released, and the result is 0. -/
theorem remove_destroys_other_modem :
    av_storage_remove_avmodem [modem_a] 20 = (0, [], [MainEffect.g_object_unref 1])
    ∧ av_mm_manager_modem_removed [modem_a] 20 = ([], [MainEffect.g_object_unref 1]) :=
  ⟨by decide, by decide⟩

/-- C20: for every value of `MM_MODEM_STATE_REGISTERED`, a state change stops voice exactly
when the new state is below it, starts voice exactly when the new state equals it and the
old state is below it, and does nothing otherwise; registration starts voice exactly when
the modem interface is there and its state equals it. -/
theorem modem_statechange_spec (registered oldstate newstate : Int) (m : AvModem)
    (env : MainEnv) :
    av_mm_modem_statechange registered oldstate newstate m =
      (if newstate < registered then [MainEffect.av_mm_voice_deinit m.ptr]
       else if newstate = registered ∧ oldstate < registered
         then [MainEffect.av_mm_voice_init m.ptr]
       else [])
    ∧ (av_mm_modem_register registered env m).2.2 =
      (if (avmodem_get_mmmodem env m).1.isSome ∧ env.mm_modem_get_state = registered
         then [MainEffect.av_mm_voice_init m.ptr]
       else []) := by
  constructor
  · unfold av_mm_modem_statechange
    by_cases h1 : newstate < registered
    · have h2 : ¬ (newstate = registered ∧ oldstate < newstate) := fun h => by omega
      simp [h1, h2]
    · by_cases h3 : newstate = registered
      · subst h3
        simp
      · simp [h1, h3]
  · unfold av_mm_modem_register
    cases hm : m.modem with
    | some modem =>
      simp only [avmodem_get_mmmodem, hm]
      by_cases hs : env.mm_modem_get_state = registered
      · simp [hs, av_mm_modem_gsignals, avmodem_get_mmmodem, hm]
        split_ifs <;> rfl
      · simp [hs]
    | none =>
      simp only [avmodem_get_mmmodem, hm]
      cases hg : env.mm_object_get_modem with
      | none => simp
      | some modem =>
        by_cases hs : env.mm_modem_get_state = registered
        · simp [hs, av_mm_modem_gsignals, avmodem_get_mmmodem]
          split_ifs <;> rfl
        · simp [hs]

/-! ## The claims on the calls of a modem, the async counter, the stack lock and the descriptors -/

/-- The call the search returns has the path searched for and is in the list. -/
theorem mm_call_search_path (l : List MMCall) (p : Option String) (c : MMCall)
    (h : av_utils_mm_call_search l p = some c) : some c.path = p ∧ c ∈ l := by
  induction l with
  | nil => simp [av_utils_mm_call_search] at h
  | cons x xs ih =>
    simp only [av_utils_mm_call_search] at h
    split at h
    · rename_i hx
      injection h with h
      subst h
      exact ⟨(g_strcmp0_eq_zero_iff _ _).mp hx, List.mem_cons_self _ _⟩
    · exact ⟨(ih h).1, List.mem_cons_of_mem _ (ih h).2⟩

/-- When the search returns nothing, no call of the list has the path. -/
theorem mm_call_search_none (l : List MMCall) (p : String)
    (h : av_utils_mm_call_search l (some p) = none) : p ∉ l.map (fun x => x.path) := by
  induction l with
  | nil => simp
  | cons x xs ih =>
    simp only [av_utils_mm_call_search] at h
    split at h
    · exact absurd h (by simp)
    · rename_i hx
      have hne : x.path ≠ p := fun e => hx ((g_strcmp0_eq_zero_iff _ _).mpr (by rw [e]))
      simp only [List.map_cons, List.mem_cons, not_or]
      exact ⟨fun e => hne e.symm, ih h⟩

/-- On the addresses of the calls, `g_list_remove` takes out the first occurrence. -/
theorem g_list_remove_mmcall_ptrs (l : List MMCall) (p : Nat) :
    (g_list_remove_mmcall l p).map (fun x => x.ptr) = (l.map (fun x => x.ptr)).erase p := by
  induction l with
  | nil => rfl
  | cons x xs ih =>
    simp only [g_list_remove_mmcall, List.map_cons]
    by_cases h : x.ptr = p
    · simp [h]
    · rw [if_neg h, List.erase_cons_tail (by simpa using h), List.map_cons, ih]

/-- Taking out a call that is not in the list changes nothing. -/
theorem g_list_remove_mmcall_not_mem (l : List MMCall) (p : Nat)
    (h : p ∉ l.map (fun x => x.ptr)) : g_list_remove_mmcall l p = l := by
  induction l with
  | nil => rfl
  | cons x xs ih =>
    simp only [List.map_cons, List.mem_cons, not_or] at h
    simp only [g_list_remove_mmcall]
    rw [if_neg (fun e => h.1 e.symm), ih h.2]

/-- Taking out the call appended last, when its address is new, gives the list before. -/
theorem g_list_remove_mmcall_append (l : List MMCall) (c : MMCall)
    (h : c.ptr ∉ l.map (fun x => x.ptr)) : g_list_remove_mmcall (l ++ [c]) c.ptr = l := by
  induction l with
  | nil => simp [g_list_remove_mmcall]
  | cons x xs ih =>
    simp only [List.map_cons, List.mem_cons, not_or] at h
    simp only [List.cons_append, g_list_remove_mmcall]
    rw [if_neg (fun e => h.1 e.symm)]
    exact congrArg (List.cons x) (ih h.2)

/-- Taking a tracked call out by its address takes its path out of the paths. -/
theorem g_list_remove_mmcall_paths (l : List MMCall) (c : MMCall) (hc : c ∈ l)
    (hq : (l.map (fun x => x.ptr)).Nodup) (hp : (l.map (fun x => x.path)).Nodup) :
    (g_list_remove_mmcall l c.ptr).map (fun x => x.path)
      = (l.map (fun x => x.path)).erase c.path := by
  induction l with
  | nil => simp at hc
  | cons x xs ih =>
    simp only [List.map_cons, List.nodup_cons] at hq hp
    simp only [g_list_remove_mmcall, List.map_cons]
    by_cases hx : x = c
    · subst hx
      simp
    · have hcx : c ∈ xs := by
        rcases List.mem_cons.mp hc with h | h
        · exact absurd h.symm hx
        · exact h
      have hptr : x.ptr ≠ c.ptr := fun e =>
        hq.1 (e ▸ List.mem_map_of_mem (fun x => x.ptr) hcx)
      have hpath : x.path ≠ c.path := fun e =>
        hp.1 (e ▸ List.mem_map_of_mem (fun x => x.path) hcx)
      rw [if_neg hptr, List.erase_cons_tail (by simpa using hpath), List.map_cons,
        ih hcx hq.2 hp.2]

/-- The state handler takes the call out of the list exactly for the state Terminated. -/
theorem state_eval_mmcalls (c : MMCall) (o n : MMCallState) (m : AvModem) :
    (av_mm_call_state_eval c o n m).1.mmcalls =
      if n = MMCallState.MM_CALL_STATE_TERMINATED then g_list_remove_mmcall m.mmcalls c.ptr
      else m.mmcalls := by
  unfold av_mm_call_state_eval
  dsimp only
  split <;> rfl

/-- One event moves the paths of the calls list as the tracked paths move. -/
theorem call_event_tracks (m : AvModem) (ev : CallEvent) (hwf : call_event_wf m ev = true)
    (hp : (m.mmcalls.map (fun x => x.path)).Nodup)
    (hq : (m.mmcalls.map (fun x => x.ptr)).Nodup) :
    ∃ m1, (av_mm_call_event m ev).map (fun r => r.1) = some m1
      ∧ m1.mmcalls.map (fun x => x.path) = paths_tracked (m.mmcalls.map (fun x => x.path)) [ev]
      ∧ (m1.mmcalls.map (fun x => x.path)).Nodup
      ∧ (m1.mmcalls.map (fun x => x.ptr)).Nodup := by
  cases ev with
  | call_added object_path calls_list =>
    simp only [call_event_wf, Bool.and_eq_true, Bool.not_eq_true', List.isEmpty_eq_false] at hwf
    obtain ⟨hne, hfound⟩ := hwf
    have hne2 : calls_list ≠ [] := by
      intro e
      rw [e] at hne
      simp at hne
    cases hs : av_utils_mm_call_search calls_list (some object_path) with
    | none =>
      refine ⟨m, ?_, ?_, hp, hq⟩
      · simp [av_mm_call_event, av_mm_voice_find_call_list_ready, hne2, hs]
      · simp [paths_tracked, hs]
    | some c =>
      rw [hs] at hfound
      simp only [Bool.and_eq_true, Bool.not_eq_true', List.contains_eq_any_beq,
        List.any_eq_false, beq_iff_eq, List.mem_map, forall_exists_index, and_imp,
        forall_apply_eq_imp_iff₂] at hfound
      have hpath : c.path = object_path := by
        have := (mm_call_search_path _ _ _ hs).1
        injection this
      have hnp : object_path ∉ m.mmcalls.map (fun x => x.path) := by
        intro hmem
        obtain ⟨y, hy, hye⟩ := List.mem_map.mp hmem
        exact hfound.1 y hy hye.symm
      have hnq : c.ptr ∉ m.mmcalls.map (fun x => x.ptr) := by
        intro hmem
        obtain ⟨y, hy, hye⟩ := List.mem_map.mp hmem
        exact hfound.2 y hy hye.symm
      refine ⟨(av_mm_call_register m c).1, ?_, ?_, ?_, ?_⟩
      · simp [av_mm_call_event, av_mm_voice_find_call_list_ready, hne2, hs]
      · simp only [paths_tracked, hs, av_mm_call_register, state_eval_mmcalls]
        by_cases ht : c.state = MMCallState.MM_CALL_STATE_TERMINATED
        · simp only [ht, if_true]
          rw [g_list_remove_mmcall_append _ _ hnq]
        · simp only [ht, if_false, List.map_append, List.map_cons, List.map_nil, hpath]
      · simp only [av_mm_call_register, state_eval_mmcalls]
        by_cases ht : c.state = MMCallState.MM_CALL_STATE_TERMINATED
        · simp only [ht, if_true]
          rw [g_list_remove_mmcall_append _ _ hnq]
          exact hp
        · simp only [ht, if_false, List.map_append, List.map_cons, List.map_nil, hpath]
          exact List.Nodup.append hp (List.nodup_singleton _)
            (by simpa [List.Disjoint] using hnp)
      · simp only [av_mm_call_register, state_eval_mmcalls]
        by_cases ht : c.state = MMCallState.MM_CALL_STATE_TERMINATED
        · simp only [ht, if_true]
          rw [g_list_remove_mmcall_append _ _ hnq]
          exact hq
        · simp only [ht, if_false, List.map_append, List.map_cons, List.map_nil]
          exact List.Nodup.append hq (List.nodup_singleton _)
            (by simpa [List.Disjoint] using hnq)
  | call_deleted object_path calls_list =>
    cases hs : av_utils_mm_call_search m.mmcalls (some object_path) with
    | none =>
      refine ⟨m, ?_, ?_, hp, hq⟩
      · simp [av_mm_call_event, av_mm_voice_find_call_list_ready, av_mm_call_unregister, hs]
      · simp only [paths_tracked]
        rw [List.erase_of_not_mem (mm_call_search_none _ _ hs)]
    | some c =>
      have hc := mm_call_search_path _ _ _ hs
      have hpath : c.path = object_path := by
        have := hc.1
        injection this
      refine ⟨{ m with mmcalls := g_list_remove_mmcall m.mmcalls c.ptr }, ?_, ?_, ?_, ?_⟩
      · simp [av_mm_call_event, av_mm_voice_find_call_list_ready, av_mm_call_unregister, hs]
      · simp only [paths_tracked]
        rw [g_list_remove_mmcall_paths _ _ hc.2 hq hp, hpath]
      · show ((g_list_remove_mmcall m.mmcalls c.ptr).map (fun x => x.path)).Nodup
        rw [g_list_remove_mmcall_paths _ _ hc.2 hq hp]
        exact hp.erase _
      · show ((g_list_remove_mmcall m.mmcalls c.ptr).map (fun x => x.ptr)).Nodup
        rw [g_list_remove_mmcall_ptrs]
        exact hq.erase _
  | state_changed c oldstate newstate =>
    simp only [call_event_wf, List.contains_eq_any_beq, List.any_eq_true, beq_iff_eq] at hwf
    have hc : c ∈ m.mmcalls := by
      obtain ⟨y, hy, hye⟩ := hwf
      rw [hye]
      exact hy
    refine ⟨(av_mm_call_state_eval c oldstate newstate m).1, rfl, ?_, ?_, ?_⟩
    · simp only [paths_tracked, state_eval_mmcalls]
      by_cases ht : newstate = MMCallState.MM_CALL_STATE_TERMINATED
      · simp only [ht, if_true]
        exact g_list_remove_mmcall_paths _ _ hc hq hp
      · simp only [ht, if_false]
    · rw [state_eval_mmcalls]
      by_cases ht : newstate = MMCallState.MM_CALL_STATE_TERMINATED
      · simp only [ht, if_true]
        rw [g_list_remove_mmcall_paths _ _ hc hq hp]
        exact hp.erase _
      · simp only [ht, if_false]
        exact hp
    · rw [state_eval_mmcalls]
      by_cases ht : newstate = MMCallState.MM_CALL_STATE_TERMINATED
      · simp only [ht, if_true]
        rw [g_list_remove_mmcall_ptrs]
        exact hq.erase _
      · simp only [ht, if_false]
        exact hq

/-- The tracked paths of a sequence are those of its rest after its first event. -/
theorem paths_tracked_cons (acc : List String) (ev : CallEvent) (rest : List CallEvent) :
    paths_tracked acc (ev :: rest) = paths_tracked (paths_tracked acc [ev]) rest := by
  cases ev with
  | call_added object_path calls_list =>
    simp only [paths_tracked]
    split
    · split <;> rfl
    · rfl
  | call_deleted object_path calls_list => rfl
  | state_changed c o n =>
    simp only [paths_tracked]
    split <;> rfl

/-- C21 as stated fails: the call at `/org/freedesktop/ModemManager1/Call/1` is added while
it rings and then its deletion is notified.  The calls list is empty, though the path has
been observed added and never observed Terminated. -/
theorem call_leaves_list_on_deletion :
    (av_mm_call_events modem_voice
        [CallEvent.call_added "/org/freedesktop/ModemManager1/Call/1" [call_ringing],
         CallEvent.call_deleted "/org/freedesktop/ModemManager1/Call/1" []]).map
      (fun m => m.mmcalls) = some []
    ∧ paths_added_not_terminated []
        [CallEvent.call_added "/org/freedesktop/ModemManager1/Call/1" [call_ringing],
         CallEvent.call_deleted "/org/freedesktop/ModemManager1/Call/1" []]
      = ["/org/freedesktop/ModemManager1/Call/1"] :=
  ⟨by decide, by decide⟩

/-- C21 amended: for every entity whose calls have their own paths and addresses and every
well-formed sequence of events, the handlers return and the calls list then holds exactly
one handle for each path that a `call-added` listing has held and that has since neither
been observed Terminated nor been notified deleted, and no other handle. -/
theorem calls_list_tracks_paths (m : AvModem) (events : List CallEvent)
    (hwf : call_events_wf m events = true)
    (hp : (m.mmcalls.map (fun x => x.path)).Nodup)
    (hq : (m.mmcalls.map (fun x => x.ptr)).Nodup) :
    ∃ m1, av_mm_call_events m events = some m1
      ∧ m1.mmcalls.map (fun x => x.path)
          = paths_tracked (m.mmcalls.map (fun x => x.path)) events
      ∧ (m1.mmcalls.map (fun x => x.path)).Nodup := by
  induction events generalizing m with
  | nil => exact ⟨m, rfl, rfl, hp⟩
  | cons ev rest ih =>
    simp only [call_events_wf, Bool.and_eq_true] at hwf
    obtain ⟨hev, hrest⟩ := hwf
    obtain ⟨m1, hm1, hpaths, hp1, hq1⟩ := call_event_tracks m ev hev hp hq
    cases hr : av_mm_call_event m ev with
    | none => rw [hr] at hm1; exact absurd hm1 (by simp)
    | some r =>
      obtain ⟨m2, tr⟩ := r
      rw [hr] at hm1 hrest
      simp only [Option.map_some', Option.some.injEq] at hm1
      subst hm1
      obtain ⟨m3, hm3, hpaths3, hp3⟩ := ih m2 hrest hp1 hq1
      refine ⟨m3, ?_, ?_, hp3⟩
      · simp only [av_mm_call_events, hr]
        exact hm3
      · rw [hpaths3, hpaths, ← paths_tracked_cons]

/-- Witness for C21 amended: two calls are added, the first is observed Terminated and the
deletion of the second is notified. -/
theorem calls_list_tracks_paths_witness :
    ∃ m1, av_mm_call_events modem_voice
        [CallEvent.call_added "/org/freedesktop/ModemManager1/Call/1" [call_ringing],
         CallEvent.call_added "/org/freedesktop/ModemManager1/Call/2"
           [call_ringing, call_waiting],
         CallEvent.state_changed call_ringing MMCallState.MM_CALL_STATE_RINGING_IN
           MMCallState.MM_CALL_STATE_TERMINATED,
         CallEvent.call_deleted "/org/freedesktop/ModemManager1/Call/2" []] = some m1
      ∧ m1.mmcalls.map (fun x => x.path)
          = paths_tracked (modem_voice.mmcalls.map (fun x => x.path))
              [CallEvent.call_added "/org/freedesktop/ModemManager1/Call/1" [call_ringing],
               CallEvent.call_added "/org/freedesktop/ModemManager1/Call/2"
                 [call_ringing, call_waiting],
               CallEvent.state_changed call_ringing MMCallState.MM_CALL_STATE_RINGING_IN
                 MMCallState.MM_CALL_STATE_TERMINATED,
               CallEvent.call_deleted "/org/freedesktop/ModemManager1/Call/2" []]
      ∧ (m1.mmcalls.map (fun x => x.path)).Nodup :=
  calls_list_tracks_paths modem_voice _ (by decide) (by decide) (by decide)

/-- C22 on the code: a call that rings is registered, a second call that waits is
registered, then the first and the second are observed Terminated.  The counter is 1 after
both registrations, 0 while the second call is still tracked, and -1 in the end. -/
theorem active_calls_counter_goes_negative :
    (av_mm_call_events modem_voice
        [CallEvent.call_added "/org/freedesktop/ModemManager1/Call/1" [call_ringing],
         CallEvent.call_added "/org/freedesktop/ModemManager1/Call/2"
           [call_ringing, call_waiting]]).map
      (fun m => (m.mmcalls, m.active_calls_counter)) = some ([call_ringing, call_waiting], 1)
    ∧ (av_mm_call_events modem_voice
        [CallEvent.call_added "/org/freedesktop/ModemManager1/Call/1" [call_ringing],
         CallEvent.call_added "/org/freedesktop/ModemManager1/Call/2"
           [call_ringing, call_waiting],
         CallEvent.state_changed call_ringing MMCallState.MM_CALL_STATE_RINGING_IN
           MMCallState.MM_CALL_STATE_TERMINATED]).map
      (fun m => (m.mmcalls, m.active_calls_counter)) = some ([call_waiting], 0)
    ∧ (av_mm_call_events modem_voice
        [CallEvent.call_added "/org/freedesktop/ModemManager1/Call/1" [call_ringing],
         CallEvent.call_added "/org/freedesktop/ModemManager1/Call/2"
           [call_ringing, call_waiting],
         CallEvent.state_changed call_ringing MMCallState.MM_CALL_STATE_RINGING_IN
           MMCallState.MM_CALL_STATE_TERMINATED,
         CallEvent.state_changed call_waiting MMCallState.MM_CALL_STATE_WAITING
           MMCallState.MM_CALL_STATE_TERMINATED]).map
      (fun m => (m.mmcalls, m.active_calls_counter)) = some ([], -1) :=
  ⟨by decide, by decide, by decide⟩

/-- Raising by one commutes with wrapping. -/
theorem gint_succ (n : Int) : gint (gint n + 1) = gint (n + 1) := by
  unfold gint
  omega

/-- Lowering by one commutes with wrapping. -/
theorem gint_pred (n : Int) : gint (gint n - 1) = gint (n - 1) := by
  unfold gint
  omega

/-- A number below 2^31 is in the range of `gint`. -/
theorem gint_of_lt (n : Nat) (h : n < 2147483648) : gint (n : Int) = n := by
  unfold gint
  omega

/-- The operations issued by two runs of calls, one after the other. -/
theorem issued_append (a b : List MainEffect) : issued (a ++ b) = issued a ++ issued b := by
  induction a with
  | nil => rfl
  | cons x xs ih =>
    cases x <;> simp [issued, ih]
    rename_i v number user_data
    cases v <;> simp [issued, ih]

/-- Releasing the listed calls issues nothing. -/
theorem issued_unrefs (l : List MMCall) :
    issued (l.map (fun c => MainEffect.g_object_unref c.ptr)) = [] := by
  induction l with
  | nil => rfl
  | cons x xs ih => simp [issued, ih]

/-- Registering a modem issues nothing. -/
theorem issued_modem_register (registered : Int) (env : MainEnv) (m : AvModem) :
    issued (av_mm_modem_register registered env m).2.2 = [] := by
  unfold av_mm_modem_register
  split
  · rfl
  · dsimp only
    split <;> rfl

/-- Adding a modem issues nothing. -/
theorem issued_addmodem (registered : Int) (env : MainEnv) (av_modems : List AvModem)
    (object : Nat) : issued (av_mm_manager_addmodem registered env av_modems object).2.2 = [] := by
  unfold av_mm_manager_addmodem
  split
  · rfl
  · dsimp only
    have h := issued_modem_register registered env
      (av_storage_add_mmobject env av_modems object).1
    split <;> exact h

/-- Adding the modems the manager lists issues nothing. -/
theorem issued_get_modems (registered : Int) (modems : List (MainEnv × Nat))
    (av_modems : List AvModem) :
    issued (av_mm_manager_get_modems registered av_modems modems).2 = [] := by
  have hloop : ∀ (l : List (MainEnv × Nat)) (a : List AvModem),
      issued (av_mm_manager_get_modems_loop registered a l).2 = [] := by
    intro l
    induction l with
    | nil => intro a; rfl
    | cons x xs ih =>
      intro a
      obtain ⟨env, object⟩ := x
      simp only [av_mm_manager_get_modems_loop]
      rw [issued_append, ih, issued_addmodem]
      rfl
  have hfree : ∀ l : List (MainEnv × Nat),
      issued (l.map (fun x => MainEffect.g_object_unref x.2)) = [] := by
    intro l
    induction l with
    | nil => rfl
    | cons x xs ih => simp [issued, ih]
  unfold av_mm_manager_get_modems
  dsimp only
  rw [issued_append, hloop, hfree]
  rfl

/-- Connecting and disconnecting the handler of a call issues nothing. -/
theorem issued_call_gsignals (c : MMCall) (connect : Bool) :
    issued (av_mm_call_gsignals c connect) = [] := by
  cases connect <;> rfl

/-- The state handler issues nothing. -/
theorem issued_state_eval (c : MMCall) (o n : MMCallState) (m : AvModem) :
    issued (av_mm_call_state_eval c o n m).2 = [] := by
  unfold av_mm_call_state_eval
  dsimp only
  split <;> rfl

/-- Registering a call issues nothing. -/
theorem issued_call_register (m : AvModem) (call : MMCall) :
    issued (av_mm_call_register m call).2 = [] := by
  unfold av_mm_call_register
  dsimp only
  rw [issued_append, issued_call_gsignals, issued_state_eval]
  rfl

/-- Unregistering a call issues nothing. -/
theorem issued_call_unregister (m : AvModem) (call_path : Option String) :
    issued (av_mm_call_unregister m call_path).2 = [] := by
  unfold av_mm_call_unregister
  split <;> rfl

/-- The counter is the number of pending operations, brought into the range of `gint`. -/
theorem async_counter_gint (g : Option String → Option String) (c : Int) (p : List AsyncOp)
    (h : AsyncReachable g c p) : c = gint (p.length : Int) := by
  induction h with
  | start => rfl
  | manager_init c p _ ih =>
    simp only [av_mm_manager_init, av_utils_async_start, List.nil_append, issued,
      List.length_append, List.length_singleton, Nat.cast_add, Nat.cast_one]
    rw [ih, gint_succ]
  | manager_init_finish c p registered av_modems manager modems _ hmem ih =>
    have hlen := List.length_erase_of_mem hmem
    have hpos : 0 < p.length := List.length_pos_of_mem hmem
    have hi : issued (av_mm_manager_init_finish registered c av_modems manager modems).2.2.2
        = [] := by
      unfold av_mm_manager_init_finish
      cases manager with
      | none => rfl
      | some mgr =>
        simp only [av_utils_async_end, List.nil_append]
        exact issued_get_modems registered modems av_modems
    have hc : (av_mm_manager_init_finish registered c av_modems manager modems).1
        = gint (c - 1) := by
      unfold av_mm_manager_init_finish
      cases manager <;> rfl
    rw [hi, hc, ih, gint_pred, List.append_nil, hlen]
    congr 1
    omega
  | find_call c p env m v object_path added _ ih =>
    unfold av_mm_voice_find_call
    by_cases ha : env.ctx_alloc = true
    · simp only [ha, if_true, av_utils_async_start, issued, List.cons_append, List.nil_append,
        List.length_append, List.length_singleton, Nat.cast_add, Nat.cast_one]
      rw [ih, gint_succ]
    · simp only [ha, issued, List.append_nil]
      exact ih
  | find_call_list_ready c p m callcontext calls_list r _ hmem hr ih =>
    have hlen := List.length_erase_of_mem hmem
    have hpos : 0 < p.length := List.length_pos_of_mem hmem
    have key : r.1 = gint (c - 1) ∧ issued r.2.2 = [] := by
      unfold av_mm_voice_find_call_list_ready at hr
      dsimp only at hr
      split at hr
      · split at hr
        · exact absurd hr (by simp)
        · split at hr
          · injection hr with hr
            subst hr
            refine ⟨rfl, ?_⟩
            simp only [av_utils_async_end, issued_append, issued_unrefs, issued_call_register]
            rfl
          · injection hr with hr
            subst hr
            refine ⟨rfl, ?_⟩
            simp only [av_utils_async_end, issued_append, issued_unrefs]
            rfl
      · injection hr with hr
        subst hr
        refine ⟨rfl, ?_⟩
        simp only [av_utils_async_end, issued_append, issued_unrefs, issued_call_unregister]
        rfl
    rw [key.1, key.2, ih, gint_pred, List.append_nil, hlen]
    congr 1
    omega
  | sipcall c p env m dest_number _ hv ih =>
    unfold av_mm_call_sipcall
    cases hg : g dest_number with
    | none =>
      simp only [issued, List.append_nil]
      exact ih
    | some normalized_number =>
      by_cases he : normalized_number = ""
      · simp only [he, if_true, issued, List.append_nil]
        exact ih
      · obtain ⟨voice, hvoice⟩ := Option.isSome_iff_exists.mp hv
        simp only [he, if_false, av_utils_async_start, avmodem_get_mmmodemvoice, hvoice,
          List.nil_append, issued, List.length_append, List.length_singleton, Nat.cast_add,
          Nat.cast_one]
        rw [ih, gint_succ]
  | sipcall_with_call c p m call _ hmem ih =>
    have hlen := List.length_erase_of_mem hmem
    have hpos : 0 < p.length := List.length_pos_of_mem hmem
    cases call with
    | none =>
      simp only [av_mm_call_sipcall_with_call, av_utils_async_end, issued, List.append_nil]
      rw [ih, gint_pred, hlen]
      congr 1
      omega
    | some call =>
      simp only [av_mm_call_sipcall_with_call, issued, List.length_append,
        List.length_singleton, hlen]
      rw [ih]
      congr 1
      omega
  | sipcall_start_call c p env m call started r _ hmem hr ih =>
    have hlen := List.length_erase_of_mem hmem
    have hpos : 0 < p.length := List.length_pos_of_mem hmem
    have key : r.1 = gint (c - 1) ∧ issued r.2 = [] := by
      unfold av_mm_call_sipcall_start_call at hr
      dsimp only at hr
      split at hr
      · split at hr
        · split at hr
          · exact absurd hr (by simp)
          · injection hr with hr
            subst hr
            exact ⟨rfl, rfl⟩
        · injection hr with hr
          subst hr
          exact ⟨rfl, rfl⟩
      · injection hr with hr
        subst hr
        exact ⟨rfl, rfl⟩
    rw [key.1, key.2, ih, gint_pred, List.append_nil, hlen]
    congr 1
    omega

/-- C23: in every state the main thread reaches by issuing asynchronous operations and by
running the completion callback of a pending operation, the async counter equals the number
of pending operations as long as these are fewer than 2^31; so it is not negative, and it is
zero when nothing is pending. -/
theorem async_counter_counts_pending (g : Option String → Option String) (c : Int)
    (p : List AsyncOp) (h : AsyncReachable g c p) (hp : p.length < 2147483648) :
    c = p.length ∧ 0 ≤ c ∧ (p = [] → c = 0) := by
  have hc := async_counter_gint g c p h
  rw [gint_of_lt p.length hp] at hc
  refine ⟨hc, by omega, fun he => ?_⟩
  rw [hc, he]
  rfl

/-- Witness for C23: the manager creation and the call creation of `modem_voice` are pending
and the counter is 2. -/
theorem async_counter_counts_pending_witness :
    AsyncReachable ascii_only 2 [AsyncOp.manager_new, AsyncOp.create_call 1]
    ∧ (2 : Int) = ([AsyncOp.manager_new, AsyncOp.create_call 1].length : Nat) :=
  have h : AsyncReachable ascii_only 2 [AsyncOp.manager_new, AsyncOp.create_call 1] :=
    AsyncReachable.sipcall 1 [AsyncOp.manager_new] {} modem_voice (some "15550123")
      (AsyncReachable.manager_init 0 [] AsyncReachable.start) rfl
  ⟨h, (async_counter_counts_pending ascii_only 2 _ h (by decide)).1⟩

/-- The timeout source quits nothing at ticks that find the counter away from zero. -/
theorem exit_timeout_ticks_nonzero (pre : List Int) (ll : av_ll) (hpre : ∀ k ∈ pre, k ≠ 0) :
    (exit_timeout_ticks ll pre).2 = [] := by
  induction pre generalizing ll with
  | nil => rfl
  | cons k rest ih =>
    have hk : k ≠ 0 := hpre k (List.mem_cons_self k rest)
    simp only [exit_timeout_ticks, av_handle_exit, hk, if_false, G_SOURCE_CONTINUE, if_true,
      List.nil_append]
    exact ih _ (fun j hj => hpre j (List.mem_cons_of_mem k hj))

/-- The timeout source quits the loop at the first tick that finds the counter at zero. -/
theorem exit_timeout_ticks_zero (pre post : List Int) (ll : av_ll) (hpre : ∀ k ∈ pre, k ≠ 0) :
    exit_timeout_ticks ll (pre ++ 0 :: post) =
      ({ ll with async_counter := 0, exit_timeout_src_tag := 0 },
       [MainEffect.g_main_loop_quit]) := by
  induction pre generalizing ll with
  | nil => rfl
  | cons k rest ih =>
    have hk : k ≠ 0 := hpre k (List.mem_cons_self k rest)
    have h := ih { ll with async_counter := k } (fun j hj => hpre j (List.mem_cons_of_mem k hj))
    simp only [List.cons_append, exit_timeout_ticks, av_handle_exit, hk, if_false,
      G_SOURCE_CONTINUE, if_true, List.nil_append]
    exact h

/-- C24: `av_handle_exit` quits the main loop, clears the tag of its timeout source and has
the source removed when the async counter is zero; for every other value it quits nothing
and stays installed.  So it quits nothing while an asynchronous operation is pending, and
the timeout source `av_exit` installs quits the loop at the first tick that finds the counter
at zero, once, and at no tick before. -/
theorem exit_waits_for_async_counter (ll : av_ll) (g : Option String → Option String)
    (p : List AsyncOp) (pre post : List Int) (hr : AsyncReachable g ll.async_counter p)
    (hne : p ≠ []) (hp : p.length < 2147483648) (hpre : ∀ k ∈ pre, k ≠ 0) :
    (∀ l : av_ll, l.async_counter = 0 →
      av_handle_exit l =
        (G_SOURCE_REMOVE, { l with exit_timeout_src_tag := 0 }, [MainEffect.g_main_loop_quit]))
    ∧ (∀ l : av_ll, l.async_counter ≠ 0 → av_handle_exit l = (G_SOURCE_CONTINUE, l, []))
    ∧ av_handle_exit ll = (G_SOURCE_CONTINUE, ll, [])
    ∧ (exit_timeout_ticks ll pre).2 = []
    ∧ exit_timeout_ticks ll (pre ++ 0 :: post) =
        ({ ll with async_counter := 0, exit_timeout_src_tag := 0 },
         [MainEffect.g_main_loop_quit]) := by
  have h0 : ∀ l : av_ll, l.async_counter = 0 →
      av_handle_exit l =
        (G_SOURCE_REMOVE, { l with exit_timeout_src_tag := 0 }, [MainEffect.g_main_loop_quit]) := by
    intro l hl
    simp [av_handle_exit, hl]
  have h1 : ∀ l : av_ll, l.async_counter ≠ 0 → av_handle_exit l = (G_SOURCE_CONTINUE, l, []) := by
    intro l hl
    simp [av_handle_exit, hl]
  refine ⟨h0, h1, h1 ll ?_, exit_timeout_ticks_nonzero pre ll hpre,
    exit_timeout_ticks_zero pre post ll hpre⟩
  have hc := async_counter_gint g ll.async_counter p hr
  rw [gint_of_lt p.length hp] at hc
  have hpos : 0 < p.length := List.length_pos.mpr hne
  omega

/-- Witness for C24: exit is asked for while the manager creation is pending; the counter is
1 at the first tick and 0 at the second. -/
theorem exit_waits_for_async_counter_witness :
    av_handle_exit { async_counter := 1, exit_timeout_src_tag := 4 } =
      (G_SOURCE_CONTINUE, { async_counter := 1, exit_timeout_src_tag := 4 }, [])
    ∧ exit_timeout_ticks { async_counter := 1, exit_timeout_src_tag := 4 } ([1] ++ 0 :: []) =
      ({ async_counter := 0, exit_timeout_src_tag := 0 }, [MainEffect.g_main_loop_quit]) :=
  have h := exit_waits_for_async_counter { async_counter := 1, exit_timeout_src_tag := 4 }
    ascii_only [AsyncOp.manager_new] [1] []
    (AsyncReachable.manager_init 0 [] AsyncReachable.start) (by decide) (by decide)
    (by decide)
  ⟨h.2.2.1, h.2.2.2.2⟩

/-- C25 on the code: the chain that places the call to 15550123 for the modem entity at
address 1.  Issuing `create_call` raises the async counter and takes no reference;
its completion issues `call.start` and leaves the counter as it is; the completion of
`call.start` lowers the counter and drops a reference on the call, at address 23.  When the
call cannot be created the counter is lowered and nothing else is done.  The reference count
of the entity does not change at any leg, while the listing of calls, next to it, takes a
reference on the entity when it is issued. -/
theorem sipcall_chain_takes_no_modem_reference :
    av_mm_call_sipcall ascii_only {} 0 modem_voice (some "15550123") =
      (1, modem_voice, [MainEffect.mm_modem_voice_create_call (some 12) "15550123" 1])
    ∧ av_mm_call_sipcall_with_call 1 modem_voice (some call_dialing) =
      (1, [MainEffect.mm_call_start 23 1])
    ∧ av_mm_call_sipcall_start_call {} 1 modem_voice call_dialing true =
      some (0, [MainEffect.av_thread_txcmd modem_sip_thread
                  { msgtype := SIP_CMD_CALL_IN_PROGRESS,
                    payload := Payload.str "/org/freedesktop/ModemManager1/Call/3" } 0,
                MainEffect.g_object_unref 23])
    ∧ av_mm_call_sipcall_with_call 1 modem_voice none = (0, [])
    ∧ refcount_change 1 (av_mm_call_sipcall ascii_only {} 0 modem_voice (some "15550123")).2.2 = 0
    ∧ refcount_change 1 (av_mm_call_sipcall_with_call 1 modem_voice (some call_dialing)).2 = 0
    ∧ refcount_change 1
        (av_mm_voice_find_call {} 0 modem_voice 12
          (some "/org/freedesktop/ModemManager1/Call/3") true).2 = 1 :=
  ⟨by decide, by decide, by decide, by decide, by decide, by decide, by decide⟩

/-- C26: when the normalised number is not there or is empty, `av_mm_call_sipcall` makes no
call and leaves the async counter as it is; for every other number it makes the one call of
`mm_modem_voice_create_call`, with the normalised number, which issues one request on the
voice interface of the modem, and the async counter is one higher.  This holds for every
function in the place of `g_str_to_ascii`. -/
theorem sipcall_drops_empty_number (g : Option String → Option String) (env : MainEnv)
    (c : Int) (m : AvModem) (dest_number : Option String) (voice : Nat)
    (hv : (avmodem_get_mmmodemvoice env m).1 = some voice)
    (hc : -2147483648 ≤ c ∧ c < 2147483647) :
    ((g dest_number = none ∨ g dest_number = some "") →
      av_mm_call_sipcall g env c m dest_number = (c, m, []))
    ∧ (∀ n, g dest_number = some n → n ≠ "" →
        av_mm_call_sipcall g env c m dest_number =
          (c + 1, (avmodem_get_mmmodemvoice env m).2,
           [MainEffect.mm_modem_voice_create_call (some voice) n m.ptr])
        ∧ issued (av_mm_call_sipcall g env c m dest_number).2.2 = [AsyncOp.create_call m.ptr]) := by
  constructor
  · intro h
    unfold av_mm_call_sipcall
    rcases h with h | h <;> simp [h]
  · intro n hn hne
    have hg : gint (c + 1) = c + 1 := by
      unfold gint
      omega
    have e : av_mm_call_sipcall g env c m dest_number =
        (c + 1, (avmodem_get_mmmodemvoice env m).2,
         [MainEffect.mm_modem_voice_create_call (some voice) n m.ptr]) := by
      unfold av_mm_call_sipcall
      simp only [hn, hne, if_false, av_utils_async_start, hg, hv, List.nil_append]
    rw [e]
    exact ⟨rfl, rfl⟩

/-- Witness for C26: the number of `invite_valid` for the modem with a voice interface, and
a number made of characters outside 7-bit ASCII only. -/
theorem sipcall_drops_empty_number_witness :
    av_mm_call_sipcall ascii_only {} 0 modem_voice (some "15550123") =
      (1, modem_voice, [MainEffect.mm_modem_voice_create_call (some 12) "15550123" 1])
    ∧ av_mm_call_sipcall ascii_only {} 0 modem_voice (some "é") = (0, modem_voice, []) :=
  have h := sipcall_drops_empty_number ascii_only {} 0 modem_voice (some "15550123") 12 rfl
    (by decide)
  have h2 := sipcall_drops_empty_number ascii_only {} 0 modem_voice (some "é") 12 rfl
    (by decide)
  ⟨(h.2 "15550123" (by decide) (by decide)).1, h2.1 (Or.inr (by decide))⟩

/-- C27 as stated fails: the cellular call of the SIP call in flight goes from Active to
Terminated.  The handler of the main thread takes the call out of the list of the modem and
releases it, and writes nothing to the SIP thread; the SIP actor, with nothing to read,
keeps the held INVITE, the connection and the audio thread. -/
theorem cellular_termination_reaches_no_actor :
    av_mm_call_event modem_in_call
        (CallEvent.state_changed call_dialing MMCallState.MM_CALL_STATE_ACTIVE
          MMCallState.MM_CALL_STATE_TERMINATED) =
      some ({ modem_voice with mmcalls := [], active_calls_counter := 0 },
            [MainEffect.g_signal_handlers_disconnect_by_func 23, MainEffect.g_object_unref 23])
    ∧ av_sip_loop refLib state_call_in_progress PollResult.nothing =
        some (0, state_call_in_progress, [])
    ∧ state_call_in_progress.current_call_event = some invite_valid
    ∧ state_call_in_progress.audiothread = some audio_thread :=
  ⟨by decide, by decide, by decide, by decide⟩

/-- C27 amended: when a cellular call is observed Terminated, `av_mm_call_statechange` takes
it out of the list of the modem, disconnects its handler and releases it, and makes no other
call: nothing is written to the SIP thread.  While the INVITE is held and the audio thread
is there, the audio thread is sent `CMD_AUDIO_EXIT` and joined, the held INVITE is freed and
the slot is cleared when the SIP actor runs call end for a termination event with the call
id of the held INVITE, or on leaving its loop, provided the exit command can be allocated. -/
theorem cellular_termination_stays_on_main_thread (c : MMCall) (oldstate : MMCallState)
    (m : AvModem) (env : Env) (s : av_sip_state) (e : Option eXosip_event)
    (held : eXosip_event) (t : av_thread)
    (hheld : s.current_call_event = some held) (ht : s.audiothread = some t)
    (hcid : ∀ ev, e = some ev → ev.cid = held.cid) (halloc : env.cmd_alloc = true) :
    (av_mm_call_statechange c oldstate MMCallState.MM_CALL_STATE_TERMINATED m).2 =
      [MainEffect.g_signal_handlers_disconnect_by_func c.ptr, MainEffect.g_object_unref c.ptr]
    ∧ (av_mm_call_statechange c oldstate MMCallState.MM_CALL_STATE_TERMINATED m).1.mmcalls =
      g_list_remove_mmcall m.mmcalls c.ptr
    ∧ av_sip_protocol_call_end env s e =
      some ({ s with current_call_event := none, current_call_connection := none,
                     current_call_path := none, audiothread := none, poll_fd3 := -1 },
            [Effect.av_thread_txcmd t { msgtype := CMD_AUDIO_EXIT, payload := Payload.null } 0,
             Effect.av_thread_teardown t, Effect.eXosip_event_free held]) := by
  refine ⟨rfl, ?_, call_end_matching env s e held t hheld ht hcid halloc⟩
  unfold av_mm_call_statechange
  rw [state_eval_mmcalls]
  rfl

/-- Witness for C27 amended: the call placed for `invite_valid` ends and the peer closes the
SIP call. -/
theorem cellular_termination_stays_on_main_thread_witness :
    (av_mm_call_statechange call_dialing MMCallState.MM_CALL_STATE_ACTIVE
        MMCallState.MM_CALL_STATE_TERMINATED modem_in_call).2 =
      [MainEffect.g_signal_handlers_disconnect_by_func 23, MainEffect.g_object_unref 23]
    ∧ av_sip_protocol_call_end env_ok state_call_in_progress (some event_closed) =
      some ({ state_call_in_progress with
                current_call_event := none, current_call_connection := none,
                current_call_path := none, audiothread := none, poll_fd3 := -1 },
            [Effect.av_thread_txcmd audio_thread
               { msgtype := CMD_AUDIO_EXIT, payload := Payload.null } 0,
             Effect.av_thread_teardown audio_thread, Effect.eXosip_event_free invite_valid]) :=
  have h := cellular_termination_stays_on_main_thread call_dialing
    MMCallState.MM_CALL_STATE_ACTIVE modem_in_call env_ok state_call_in_progress
    (some event_closed) invite_valid audio_thread rfl rfl
    (fun ev hev => by cases hev; decide) rfl
  ⟨h.1, h.2.2⟩

/-- Stage 0 makes no stack call or fetches the remote SDP. -/
theorem stage0_calls_cases (s : av_sip_state) (e : eXosip_event) :
    av_sip_protocol_call_stage0_calls s e = []
    ∨ av_sip_protocol_call_stage0_calls s e = [StackCall.eXosip_get_remote_sdp] := by
  unfold av_sip_protocol_call_stage0_calls
  split
  · exact Or.inl rfl
  · split
    · exact Or.inl rfl
    · split
      · exact Or.inl rfl
      · exact Or.inr rfl

/-- One pass of the drain loop is the switch on the event followed by the rest of the loop. -/
theorem events_loop_cons (L : Lib) (keep_event : Int) (s : av_sip_state) (env : Env)
    (event : eXosip_event) (rest : List (Env × eXosip_event)) :
    av_sip_protocol_events_loop L keep_event s ((env, event) :: rest) =
      match av_sip_protocol_events_switch L keep_event s env event with
      | none => none
      | some (keep_event1, s1, tr) =>
        match av_sip_protocol_events_loop L keep_event1 s1 rest with
        | none => none
        | some (s2, tr2) =>
          some (s2, (if keep_event1 = 0 then tr ++ [Effect.eXosip_event_free event] else tr)
            ++ tr2) := by
  cases h : event.type <;>
    simp only [av_sip_protocol_events_loop, av_sip_protocol_events_switch, h]

/-- The drain loop handles every event under the lock, waits for events with the lock
released, and has released the lock when it returns. -/
theorem events_calls_locked (L : Lib) (events : List (Env × eXosip_event)) (keep_event : Int)
    (s : av_sip_state) :
    calls_with_lock true StackCall.claimed_but_wait false
        (av_sip_protocol_events_calls L keep_event s events) = true
    ∧ calls_with_lock false StackCall.is_wait false
        (av_sip_protocol_events_calls L keep_event s events) = true
    ∧ (av_sip_protocol_events_loop L keep_event s events ≠ none →
        lock_held_after false (av_sip_protocol_events_calls L keep_event s events) = false) := by
  induction events generalizing keep_event s with
  | nil => exact ⟨rfl, rfl, fun _ => rfl⟩
  | cons x rest ih =>
    obtain ⟨env, event⟩ := x
    rw [events_loop_cons]
    simp only [av_sip_protocol_events_calls]
    have hs0 : (if event.type = eXosip_event_type.EXOSIP_CALL_INVITE
          then av_sip_protocol_call_stage0_calls s event else []) = []
        ∨ (if event.type = eXosip_event_type.EXOSIP_CALL_INVITE
          then av_sip_protocol_call_stage0_calls s event else [])
            = [StackCall.eXosip_get_remote_sdp] := by
      split
      · exact stage0_calls_cases s event
      · exact Or.inl rfl
    cases hsw : av_sip_protocol_events_switch L keep_event s env event with
    | none =>
      rcases hs0 with h | h <;> rw [h] <;>
        exact ⟨rfl, rfl, fun hne => absurd rfl hne⟩
    | some r =>
      obtain ⟨k1, s1, tr⟩ := r
      obtain ⟨h1, h2, h3⟩ := ih k1 s1
      rcases hs0 with h | h <;> rw [h]
      · refine ⟨?_, ?_, ?_⟩
        · simpa [calls_with_lock, StackCall.claimed_but_wait, StackCall.claimed] using h1
        · simpa [calls_with_lock, StackCall.is_wait] using h2
        · intro hne
          have : av_sip_protocol_events_loop L k1 s1 rest ≠ none := by
            intro e
            simp [e] at hne
          simpa [lock_held_after] using h3 this
      · refine ⟨?_, ?_, ?_⟩
        · simpa [calls_with_lock, StackCall.claimed_but_wait, StackCall.claimed] using h1
        · simpa [calls_with_lock, StackCall.is_wait] using h2
        · intro hne
          have : av_sip_protocol_events_loop L k1 s1 rest ≠ none := by
            intro e
            simp [e] at hne
          simpa [lock_held_after] using h3 this

/-- The REGISTER is built and sent under the lock, which is released on every path. -/
theorem stackconfig_calls_locked (env : Env) :
    calls_with_lock true StackCall.claimed_but_wait false (av_sip_stackconfig_calls env) = true
    ∧ calls_with_lock false StackCall.is_wait false (av_sip_stackconfig_calls env) = true
    ∧ lock_held_after false (av_sip_stackconfig_calls env) = false := by
  unfold av_sip_stackconfig_calls
  split
  · exact ⟨by decide, by decide, by decide⟩
  · split <;> exact ⟨by decide, by decide, by decide⟩

/-- Registration makes its stack calls as `av_sip_stackconfig` does, or none. -/
theorem regconf_calls_locked (env : Env) (cmd : av_thread_cmd) :
    calls_with_lock true StackCall.claimed_but_wait false (av_sip_regconf_calls env cmd) = true
    ∧ calls_with_lock false StackCall.is_wait false (av_sip_regconf_calls env cmd) = true
    ∧ lock_held_after false (av_sip_regconf_calls env cmd) = false := by
  unfold av_sip_regconf_calls
  split
  · split
    · exact stackconfig_calls_locked env
    · exact ⟨by decide, by decide, by decide⟩
  · exact ⟨by decide, by decide, by decide⟩

/-- The answer of stage 1 is built and sent without the lock. -/
theorem stage1_calls_without_lock :
    av_sip_loop_calls refLib state_call_in_progress
        (PollResult.core_msg env_ok (some cmd_call_in_progress)) =
      [StackCall.eXosip_call_build_answer, StackCall.eXosip_call_send_answer] := by
  rfl

/-- C28 as stated fails: the report of a registration is drained.  `eXosip_event_wait` is
called before the lock is taken and again after it is released, so not every listed call is
made under the lock. -/
theorem event_wait_outside_lock :
    av_sip_loop_calls refLib state_idle (PollResult.sip_events [(env_ok, event_registered)]) =
      [StackCall.eXosip_event_wait, StackCall.eXosip_lock, StackCall.eXosip_unlock,
       StackCall.eXosip_event_wait]
    ∧ calls_with_lock true StackCall.claimed false
        (av_sip_loop_calls refLib state_idle
          (PollResult.sip_events [(env_ok, event_registered)])) = false :=
  ⟨by decide, by decide⟩

/-- C28 amended: in every run of `av_sip_loop` other than the handling of
`SIP_CMD_CALL_IN_PROGRESS`, every call to `eXosip_automatic_action`, `eXosip_get_remote_sdp`
and to the building and sending of the REGISTER is made while the actor holds the stack
lock, every `eXosip_event_wait` is made while it does not hold it, and the lock is released
when the run returns. -/
theorem stack_calls_under_lock (L : Lib) (s : av_sip_state) (p : PollResult)
    (hp : ∀ env cmd, p = PollResult.core_msg env (some cmd) →
      cmd.msgtype ≠ SIP_CMD_CALL_IN_PROGRESS) :
    calls_with_lock true StackCall.claimed_but_wait false (av_sip_loop_calls L s p) = true
    ∧ calls_with_lock false StackCall.is_wait false (av_sip_loop_calls L s p) = true
    ∧ (av_sip_loop L s p ≠ none → lock_held_after false (av_sip_loop_calls L s p) = false) := by
  cases p with
  | failure => exact ⟨rfl, rfl, fun _ => rfl⟩
  | nothing => exact ⟨rfl, rfl, fun _ => rfl⟩
  | timer => exact ⟨rfl, rfl, fun _ => rfl⟩
  | audio_msg env cmd => exact ⟨rfl, rfl, fun _ => rfl⟩
  | sip_events events =>
    obtain ⟨h1, h2, h3⟩ := events_calls_locked L events 0 s
    refine ⟨h1, h2, fun hne => h3 ?_⟩
    intro e
    apply hne
    simp only [av_sip_loop, av_sip_protocol_events, e]
  | core_msg env cmd =>
    cases cmd with
    | none => exact ⟨rfl, rfl, fun _ => rfl⟩
    | some cmd =>
      have hc := hp env cmd rfl
      simp only [av_sip_loop_calls, av_sip_core_msg_calls, hc, if_false]
      split
      · exact ⟨rfl, rfl, fun _ => rfl⟩
      · split
        · obtain ⟨h1, h2, h3⟩ := regconf_calls_locked env cmd
          exact ⟨h1, h2, fun _ => h3⟩
        · exact ⟨rfl, rfl, fun _ => rfl⟩

/-- Witness for C28 amended: an INVITE is drained by the idle actor. -/
theorem stack_calls_under_lock_witness :
    calls_with_lock true StackCall.claimed_but_wait false
        (av_sip_loop_calls refLib state_idle (PollResult.sip_events [(env_ok, invite_valid)]))
      = true
    ∧ calls_with_lock false StackCall.is_wait false
        (av_sip_loop_calls refLib state_idle (PollResult.sip_events [(env_ok, invite_valid)]))
      = true :=
  have h := stack_calls_under_lock refLib state_idle
    (PollResult.sip_events [(env_ok, invite_valid)]) (fun env cmd h => by cases h)
  ⟨h.1, h.2.1⟩

/-- C29 on the code: the timer descriptor 6 is created and arming it fails.  The thread
function closes the event socket 5 and returns, and descriptor 6 is never closed.  When
`eXosip_init` fails, descriptor 0, which the actor has not opened, is closed.  On the way out
of the loop the timer descriptor and the event socket are closed once each. -/
theorem timer_descriptor_leaks_when_arming_fails :
    av_sip_timerfd_setup { timerfd_create := 6, timerfd_settime := -1 }
        { poll_fd1 := 5, poll_fd2 := 0 } = (1, { poll_fd1 := 5, poll_fd2 := 6 })
    ∧ av_sip_init refLib { timerfd_create := 6, timerfd_settime := -1 } env_ok sip_thread [] =
      some [SipInitEffect.close 5, SipInitEffect.eXosip_quit]
    ∧ av_sip_init refLib { eXosip_init := -1 } env_ok sip_thread [] =
      some [SipInitEffect.close 0, SipInitEffect.eXosip_quit]
    ∧ av_sip_init refLib {} env_ok sip_thread
        [PollResult.core_msg env_ok (some { msgtype := SIP_CMD_EXIT, payload := Payload.null })] =
      some [SipInitEffect.av_thread_txcmd sip_thread
              { msgtype := SIP_EVENT_READY, payload := Payload.null } 1,
            SipInitEffect.close 6, SipInitEffect.close 5, SipInitEffect.eXosip_quit] :=
  ⟨by decide, by decide, by decide, by decide⟩

/-- The loop keeps the write position inside the buffer and the retry counter within ten
when every read returns at most what is missing. -/
theorem serial_read_loop_bounds (fuel : Nat) (reads : List SerialRead) (v : serial_read_vars)
    (hw : reads_within v.missing reads = true) (hb : v.bufptr + v.missing = 160)
    (hl : v.audiobuf.length = v.bufptr) (hr : v.retries ≤ 10) :
    (av_audio_do_serial_read_loop fuel reads v).bufptr
        + (av_audio_do_serial_read_loop fuel reads v).missing = 160
    ∧ (av_audio_do_serial_read_loop fuel reads v).audiobuf.length
        = (av_audio_do_serial_read_loop fuel reads v).bufptr
    ∧ (av_audio_do_serial_read_loop fuel reads v).retries ≤ 10 := by
  induction fuel generalizing reads v with
  | zero => exact ⟨hb, hl, hr⟩
  | succ fuel ih =>
    simp only [av_audio_do_serial_read_loop]
    split
    · rename_i hc
      obtain ⟨hm, hlt⟩ := hc
      cases reads with
      | nil =>
        simp only [List.headD_nil, List.tail_nil]
        exact ih [] _ (by cases hmm : v.missing <;> simp [reads_within]) hb hl (by simp; omega)
      | cons x rest =>
        cases x with
        | eagain =>
          simp only [List.headD_cons, List.tail_cons]
          refine ih rest _ ?_ hb hl (by simp; omega)
          cases hmm : v.missing with
          | zero => exact absurd hmm hm
          | succ n => rw [hmm] at hw; simpa [reads_within] using hw
        | fail =>
          simp only [List.headD_cons]
          exact ⟨hb, hl, by omega⟩
        | data bytes =>
          simp only [List.headD_cons, List.tail_cons]
          have hle : bytes.length ≤ v.missing ∧
              reads_within (v.missing - bytes.length) rest = true := by
            cases hmm : v.missing with
            | zero => exact absurd hmm hm
            | succ n => rw [hmm] at hw; simpa [reads_within] using hw
          have hmiss : (v.missing + 2 ^ 64 - bytes.length % 2 ^ 64) % 2 ^ 64
              = v.missing - bytes.length := by
            have h1 := hle.1
            norm_num
            omega
          refine ih rest _ ?_ ?_ ?_ (by simp; omega)
          · simp only [hmiss]; exact hle.2
          · simp only [hmiss]; omega
          · simp only [List.length_append]; omega
    · exact ⟨hb, hl, hr⟩

/-- C30: when every read returns at most the bytes asked for, the loop of
`av_audio_do_serial_read` ends after at most ten reads: more passes than ten change nothing,
and the retry counter, which counts the reads made, is at most 10.  After every number of
passes the bytes stored are those between the start of the buffer and the write position,
and the write position is at most 160, the size of the buffer. -/
theorem serial_read_stays_in_buffer (reads : List SerialRead)
    (h : reads_within 160 reads = true) :
    (∀ k, av_audio_do_serial_read_loop (10 + k) reads {}
        = av_audio_do_serial_read_loop 10 reads {})
    ∧ ∀ fuel, (av_audio_do_serial_read_loop fuel reads {}).retries ≤ 10
        ∧ (av_audio_do_serial_read_loop fuel reads {}).audiobuf.length
            = (av_audio_do_serial_read_loop fuel reads {}).bufptr
        ∧ (av_audio_do_serial_read_loop fuel reads {}).bufptr ≤ 160 := by
  refine ⟨fun k => serial_read_loop_fuel 10 k reads {} (by decide), fun fuel => ?_⟩
  have hb := serial_read_loop_bounds fuel reads {} h rfl rfl (by decide)
  refine ⟨hb.2.2, hb.2.1, ?_⟩
  omega

/-- Witness for C30: 100 bytes, nothing for now, then 60 bytes. -/
theorem serial_read_stays_in_buffer_witness :
    reads_within 160 [SerialRead.data (List.replicate 100 7), SerialRead.eagain,
        SerialRead.data (List.replicate 60 9)] = true
    ∧ (av_audio_do_serial_read_loop 10 [SerialRead.data (List.replicate 100 7),
        SerialRead.eagain, SerialRead.data (List.replicate 60 9)] {}).bufptr ≤ 160 :=
  ⟨by decide,
   ((serial_read_stays_in_buffer [SerialRead.data (List.replicate 100 7), SerialRead.eagain,
      SerialRead.data (List.replicate 60 9)] (by decide)).2 10).2.2⟩

end AirVoice
